import Mathlib

/-!
# RakNet cloud server: a shallow embedding of `CloudServer.cpp` and `DS_OrderedList.h`

The definitions below follow the C++ sources function by function and keep their
names.  Pointers become indices into lists, in-place mutation becomes functional
update, and every handler threads the server state explicitly.

Conventions used throughout:

* `RakAssert` is the release variant of `RakAssert.h` (`(void)(x);`): it has no effect.
* A handler returns `none` exactly when the C++ code would read a list element
  outside of the list (`operator[]` with an index that is not below `Size()`),
  or when the search loop of `GetIndexFromKey` has not returned within its fuel.
* Lengths and positions of lists are natural numbers.  Machine arithmetic is made
  explicit at the places where the source lets a value leave its range: the
  conversion of the `int` result of a comparison function to `size_t`, the
  `size_t` subtractions of `GetIndexFromKey`, its `(unsigned)` casts, and the
  unsigned counters of the cloud server.
-/

namespace RakNet

/-! ## DS_OrderedList.h -/

namespace OrderedList

/-- Conversion of a C++ `int` to the unsigned 64-bit type `size_t`
(`size_t res = cf(key, orderedList[index]);`): the value modulo `2^64`. -/
def toSizeT (r : Int) : Nat := (r % ((2 : Int) ^ 64)).toNat

/-- Subtraction of two `size_t` values, wrapping modulo `2^64`
(`index - 1`, `upperBound - lowerBound`). -/
def subSizeT (a b : Nat) : Nat := (a % 2 ^ 64 + 2 ^ 64 - b % 2 ^ 64) % 2 ^ 64

/-- Cast `(unsigned)` of a `size_t`: the value modulo `2^32`. -/
def toUnsigned (a : Nat) : Nat := a % 2 ^ 32

/-- Template `defaultOrderedListComparison` (DS_OrderedList.h:26-30), here for integers. -/
def defaultOrderedListComparison (a b : Int) : Int :=
  if a < b then -1 else if a = b then 0 else 1

/-- Body of the `while (1)` loop of `GetIndexFromKey` (DS_OrderedList.h:131-159).
The first argument bounds the number of iterations.  `res` is declared `size_t`
in the source, so the `int` returned by `cf` is converted to an unsigned value
before it is tested: the test `res < 0` is a test on a natural number. -/
def GetIndexFromKeyLoop {K D : Type} (cf : K → D → Int) (key : K) (orderedList : List D) :
    Nat → Nat → Nat → Nat → Option (Nat × Bool)
  | 0, _, _, _ => none
  | fuel + 1, upperBound, lowerBound, index =>
    match orderedList.get? index with
    | none => none
    | some d =>
      let res : Nat := toSizeT (cf key d)
      if res = 0 then
        some (toUnsigned index, true)
      else
        let upperBound1 := if res < 0 then subSizeT index 1 else upperBound
        let lowerBound1 := if res < 0 then lowerBound else index + 1
        let index1 := lowerBound1 + subSizeT upperBound1 lowerBound1 / 2
        if lowerBound1 > upperBound1 then
          some (toUnsigned lowerBound1, false)
        else if index1 < 0 ∨ index1 ≥ orderedList.length then
          some (0, false)
        else
          GetIndexFromKeyLoop cf key orderedList fuel upperBound1 lowerBound1 index1

/-- Function `OrderedList::GetIndexFromKey` (DS_OrderedList.h:115-160): the pair
(returned index, `*objectExists`). -/
def GetIndexFromKey {K D : Type} (cf : K → D → Int) (key : K) (orderedList : List D) :
    Option (Nat × Bool) :=
  if orderedList.length = 0 then
    some (0, false)
  else
    GetIndexFromKeyLoop cf key orderedList (orderedList.length + 1)
      (orderedList.length - 1) 0 (orderedList.length / 2)

/-- Function `OrderedList::HasData` (DS_OrderedList.h:90-96). -/
def HasData {K D : Type} (cf : K → D → Int) (key : K) (orderedList : List D) : Option Bool :=
  (GetIndexFromKey cf key orderedList).map Prod.snd

/-- Member `List::Insert(input, position)` of DS_List.h, which is not part of the
sources: the list is taken to be a plain sequence, and inserting at `position`
puts the element before the one that was at `position`. -/
def ListInsert {D : Type} (l : List D) (data : D) (position : Nat) : List D :=
  l.take position ++ data :: l.drop position

/-- Member `List::RemoveAtIndex(position)` of DS_List.h (not part of the sources),
on a plain sequence. -/
def ListRemoveAtIndex {D : Type} (l : List D) (position : Nat) : List D :=
  l.eraseIdx position

/-- Function `OrderedList::Insert` (DS_OrderedList.h:162-187): the new list and the
returned position, `none` for the position standing for `(size_t)-1`. -/
def Insert {K D : Type} (cf : K → D → Int) (key : K) (data : D) (orderedList : List D) :
    Option (List D × Option Nat) :=
  match GetIndexFromKey cf key orderedList with
  | none => none
  | some (index, objectExists) =>
    if objectExists then
      some (orderedList, none)
    else if index ≥ orderedList.length then
      some (orderedList ++ [data], some orderedList.length)
    else
      some (ListInsert orderedList data index, some index)

/-- Function `OrderedList::InsertAtIndex` (DS_OrderedList.h:228-232). -/
def InsertAtIndex {D : Type} (data : D) (index : Nat) (orderedList : List D) : List D :=
  ListInsert orderedList data index

/-- Function `OrderedList::RemoveAtIndex` (DS_OrderedList.h:222-226). -/
def RemoveAtIndex {D : Type} (index : Nat) (orderedList : List D) : List D :=
  ListRemoveAtIndex orderedList index

/-- Function `OrderedList::Remove` (DS_OrderedList.h:189-206): the new list. -/
def Remove {K D : Type} (cf : K → D → Int) (key : K) (orderedList : List D) :
    Option (List D) :=
  match GetIndexFromKey cf key orderedList with
  | none => none
  | some (index, objectExists) =>
    if objectExists then some (ListRemoveAtIndex orderedList index) else some orderedList

/-- The list that `Insert` builds from `orderedList` when it is called with the keys
`keys` in turn, every element being its own key, under `defaultOrderedListComparison`. -/
def insertAll : List Int → List Int → Option (List Int)
  | [], orderedList => some orderedList
  | key :: keys, orderedList =>
    (Insert defaultOrderedListComparison key key orderedList).bind
      (fun r => insertAll keys r.1)

end OrderedList

/-! ## CloudServer.cpp: data model

`CloudServer.h`, `CloudCommon.h`, `DS_List.h` and `DS_Hash.h` are not part of the
sources.  The records below list the members that `CloudServer.cpp` reads and
writes; the member functions defined in the missing headers are modelled from the
specification and marked as such. -/

namespace CloudServer

open OrderedList

/-- Modelled from the spec: the type `CloudKey` of CloudCommon.h, a pair
`(primary: u32, secondary: u32)`. -/
structure CloudKey where
  primaryKey : Nat
  secondaryKey : Nat
deriving DecidableEq, Repr

/-- Modelled from the spec: the comparison `CloudKeyComp` of CloudCommon.h, used by
the `uploadedKeys` and `subscribedKeys` lists of keys: the lexicographic total order
on the pair. -/
def CloudKeyComp (key : CloudKey) (data : CloudKey) : Int :=
  if key.primaryKey < data.primaryKey then -1
  else if key.primaryKey > data.primaryKey then 1
  else if key.secondaryKey < data.secondaryKey then -1
  else if key.secondaryKey > data.secondaryKey then 1
  else 0

/-- Comparison of two GUIDs by the default comparison of `OrderedList<RakNetGUID, RakNetGUID>`. -/
def GuidComp (key : Nat) (data : Nat) : Int :=
  defaultOrderedListComparison (key : Int) (data : Int)

/-- Row of a query result or of a change notification (`CloudQueryRow`). -/
structure CloudQueryRow where
  key : CloudKey
  data : List Nat
  length : Nat
  serverSystemAddress : Nat
  clientSystemAddress : Nat
  serverGUID : Nat
  clientGUID : Nat
deriving DecidableEq, Repr

/-- Record `CloudServer::CloudData`: the payload one client uploaded under one key.
`data` stands for the bytes `dataPtr` points to. -/
structure CloudData where
  dataLengthBytes : Nat
  data : List Nat
  isUploaded : Bool
  serverSystemAddress : Nat
  clientSystemAddress : Nat
  serverGUID : Nat
  clientGUID : Nat
  specificSubscribers : List Nat
deriving DecidableEq, Repr

/-- Record `CloudServer::CloudDataList`: everything stored under one key. -/
structure CloudDataList where
  uploaderCount : Nat
  subscriberCount : Nat
  key : CloudKey
  keyData : List CloudData
  nonSpecificSubscribers : List Nat
deriving DecidableEq, Repr

/-- Record `CloudServer::KeySubscriberID`. -/
structure KeySubscriberID where
  key : CloudKey
  specificSystemsSubscribedTo : List Nat
deriving DecidableEq, Repr

/-- Record `CloudServer::RemoteCloudClient`. -/
structure RemoteCloudClient where
  uploadedKeys : List CloudKey
  subscribedKeys : List KeySubscriberID
  uploadedBytes : Nat
deriving DecidableEq, Repr

/-- Record `CloudServer::RemoteServer`. -/
structure RemoteServer where
  serverAddress : Nat
  subscribedKeys : List CloudKey
  uploadedKeys : List CloudKey
  workingFlag : Bool
  gotSubscribedAndUploadedKeys : Bool
deriving DecidableEq, Repr

/-- Record `CloudQuery` of CloudCommon.h, as far as CloudServer.cpp uses it. -/
structure CloudQuery where
  keys : List CloudKey
  maxRowsToReturn : Nat
  startingRowIndex : Nat
  subscribeToResults : Bool
deriving DecidableEq, Repr

/-- Record `CloudServer::CloudQueryWithAddresses`. -/
structure CloudQueryWithAddresses where
  cloudQuery : CloudQuery
  specificSystems : List Nat
deriving DecidableEq, Repr

/-- Record `CloudServer::BufferedGetResponseFromServer`; `rowsReturned` stands for
`queryResult.rowsReturned`. -/
structure BufferedGetResponseFromServer where
  serverAddress : Nat
  rowsReturned : List CloudQueryRow
  gotResult : Bool
deriving DecidableEq, Repr

/-- Record `CloudServer::GetRequest`. -/
structure GetRequest where
  cloudQueryWithAddresses : CloudQueryWithAddresses
  requestStartTime : Nat
  requestId : Nat
  requestingClient : Nat
  remoteServerResponses : List BufferedGetResponseFromServer
deriving DecidableEq, Repr

/-- Contents of the bit streams handed to `SendUnified`. -/
inductive Message where
  | CloudGetResponse (cloudQuery : CloudQuery) (numRows : Nat) (rows : List CloudQueryRow)
  | CloudSubscriptionNotification (wasUpdated : Bool) (row : CloudQueryRow)
  | ProcessGetRequest (query : CloudQueryWithAddresses) (requestId : Nat)
  | ProcessGetResponse (requestId : Nat) (numRows : Nat) (rows : List CloudQueryRow)
  | UploadedAndSubscribedKeys (uploadedCount : Nat) (uploaded : List CloudKey)
      (subscribedCount : Nat) (subscribed : List CloudKey)
  | AddUploadedKey (key : CloudKey)
  | AddSubscribedKey (key : CloudKey)
  | RemoveUploadedKey (key : CloudKey)
  | RemoveSubscribedKey (key : CloudKey)
  | DataChanged (wasUpdated : Bool) (row : CloudQueryRow)
deriving DecidableEq, Repr

/-- One call of `SendUnified`: the destination GUID and the message. -/
structure Sent where
  destination : Nat
  message : Message
deriving DecidableEq, Repr

/-- Members of `CloudServer`, together with the log `sent` of the calls of
`SendUnified` in the order in which they were made.  `remoteSystems` stands for
the hash table of DS_Hash.h as a list of (GUID, client) pairs; `queryFilters`
holds the identities of the registered filters. -/
structure State where
  maxUploadBytesPerClient : Nat
  maxBytesPerDowload : Nat
  nextGetRequestId : Nat
  nextGetRequestsCheck : Nat
  dataRepository : List CloudDataList
  remoteSystems : List (Nat × RemoteCloudClient)
  remoteServers : List RemoteServer
  getRequests : List GetRequest
  queryFilters : List Nat
  sent : List Sent
deriving DecidableEq, Repr

/-- External collaborators of the handlers: the transport (`rakPeerInterface`,
`forceAddress`) and the filter objects behind the filter identities. -/
structure Env where
  myGUID : Nat
  serverAddressOfNewData : Nat → Nat
  serverAddressOfExistingData : Nat → Nat
  filterOnPostRequest : Nat → Nat → Nat → CloudKey → Nat → List Nat → Bool
  filterOnReleaseRequest : Nat → Nat → Nat → List CloudKey → Bool
  filterOnGetRequest : Nat → Nat → Nat → CloudQuery → List Nat → Bool
  filterOnUnsubscribeRequest : Nat → Nat → Nat → List CloudKey → List Nat → Bool

/-- Constructor `CloudServer::CloudServer` (CloudServer.cpp:149-155). -/
def State.init : State :=
  { maxUploadBytesPerClient := 0, maxBytesPerDowload := 0, nextGetRequestId := 0,
    nextGetRequestsCheck := 0, dataRepository := [], remoteSystems := [],
    remoteServers := [], getRequests := [], queryFilters := [], sent := [] }

/-- Function `CloudServer::SetMaxUploadBytesPerClient` (CloudServer.cpp:162-165). -/
def SetMaxUploadBytesPerClient (s : State) (bytes : Nat) : State :=
  { s with maxUploadBytesPerClient := bytes }

/-! ### Comparison functions (CloudServer.cpp:35-95) -/

/-- Function `CloudServer::RemoteServerComp` (CloudServer.cpp:35-42). -/
def RemoteServerComp (key : Nat) (data : RemoteServer) : Int :=
  if key < data.serverAddress then -1
  else if key > data.serverAddress then 1
  else 0

/-- Function `CloudServer::KeySubscriberIDComp` (CloudServer.cpp:44-55). -/
def KeySubscriberIDComp (key : CloudKey) (data : KeySubscriberID) : Int :=
  if key.primaryKey < data.key.primaryKey then -1
  else if key.primaryKey > data.key.primaryKey then 1
  else if key.secondaryKey < data.key.secondaryKey then -1
  else if key.secondaryKey > data.key.secondaryKey then 1
  else 0

/-- Function `CloudServer::KeyDataPtrComp` (CloudServer.cpp:57-64). -/
def KeyDataPtrComp (key : Nat) (data : CloudData) : Int :=
  if key < data.clientGUID then -1
  else if key > data.clientGUID then 1
  else 0

/-- Function `CloudServer::KeyDataListComp` (CloudServer.cpp:66-77). -/
def KeyDataListComp (key : CloudKey) (data : CloudDataList) : Int :=
  if key.primaryKey < data.key.primaryKey then -1
  else if key.primaryKey > data.key.primaryKey then 1
  else if key.secondaryKey < data.key.secondaryKey then -1
  else if key.secondaryKey > data.key.secondaryKey then 1
  else 0

/-- Function `CloudServer::BufferedGetResponseFromServerComp` (CloudServer.cpp:79-86). -/
def BufferedGetResponseFromServerComp (key : Nat) (data : BufferedGetResponseFromServer) : Int :=
  if key < data.serverAddress then -1
  else if key > data.serverAddress then 1
  else 0

/-- Function `CloudServer::GetRequestComp` (CloudServer.cpp:88-95). -/
def GetRequestComp (key : Nat) (data : GetRequest) : Int :=
  if key < data.requestId then -1
  else if key > data.requestId then -1
  else 0

/-! ### Machine arithmetic of the counters -/

/-- Value of an expression of type `uint32_t` or `unsigned`: modulo `2^32`. -/
def toUInt32 (a : Nat) : Nat := a % 2 ^ 32

/-- Subtraction of two `uint32_t` values, wrapping modulo `2^32`: the difference of
the operands when there is no borrow, and `2^32` more than it otherwise. -/
def subUInt32 (a b : Nat) : Nat :=
  if b % 2 ^ 32 ≤ a % 2 ^ 32 then a % 2 ^ 32 - b % 2 ^ 32
  else a % 2 ^ 32 + 2 ^ 32 - b % 2 ^ 32

/-- Value of an expression of type `uint64_t`: modulo `2^64`. -/
def toUInt64 (a : Nat) : Nat := a % 2 ^ 64

/-- Subtraction of two `uint64_t` values, wrapping modulo `2^64`: the difference of
the operands when there is no borrow, and `2^64` more than it otherwise. -/
def subUInt64 (a b : Nat) : Nat :=
  if b % 2 ^ 64 ≤ a % 2 ^ 64 then a % 2 ^ 64 - b % 2 ^ 64
  else a % 2 ^ 64 + 2 ^ 64 - b % 2 ^ 64

/-! ### The hash table `remoteSystems` (DS_Hash.h is not part of the sources) -/

/-- Modelled from the spec: `Hash::GetIndexOf` followed by `ItemAtIndex`; the Remote
Client Registry is a map from client GUID to its state, `none` standing for an
invalid index. -/
def HashGetIndexOf (remoteSystems : List (Nat × RemoteCloudClient)) (guid : Nat) :
    Option RemoteCloudClient :=
  (remoteSystems.find? (fun e => e.1 == guid)).map Prod.snd

/-- Modelled from the spec: `Hash::Push` of the Remote Client Registry. -/
def HashPush (remoteSystems : List (Nat × RemoteCloudClient)) (guid : Nat)
    (client : RemoteCloudClient) : List (Nat × RemoteCloudClient) :=
  remoteSystems ++ [(guid, client)]

/-- Modelled from the spec: `Hash::Remove` and `Hash::RemoveAtIndex` of the Remote
Client Registry, removing the entry of `guid`. -/
def HashRemove (remoteSystems : List (Nat × RemoteCloudClient)) (guid : Nat) :
    List (Nat × RemoteCloudClient) :=
  remoteSystems.filter (fun e => !(e.1 == guid))

/-- Writes through the pointer `remoteCloudClient` reach the entry of `guid` in the
hash table: the entry is replaced by the current value of the client. -/
def HashStore (remoteSystems : List (Nat × RemoteCloudClient)) (guid : Nat)
    (client : RemoteCloudClient) : List (Nat × RemoteCloudClient) :=
  remoteSystems.map (fun e => if e.1 == guid then (e.1, client) else e)

/-! ### Member functions of the records (CloudServer.h is not part of the sources) -/

/-- Modelled from the spec: `CloudData::IsUnused` of CloudServer.h; a CloudData is
destroyed when it has no payload and no specific subscribers. -/
def CloudData.IsUnused (cloudData : CloudData) : Bool :=
  cloudData.isUploaded == false && cloudData.specificSubscribers.length == 0

/-- Modelled from the spec: `CloudData::Clear` of CloudServer.h; release clears the
payload, and `is_uploaded == false` implies that the payload is empty. -/
def CloudData.Clear (cloudData : CloudData) : CloudData :=
  { cloudData with data := [], dataLengthBytes := 0, isUploaded := false }

/-- Modelled from the spec: `CloudDataList::IsUnused` of CloudServer.h; a
CloudDataList is destroyed when it has zero owners and zero subscribers. -/
def CloudDataList.IsUnused (cloudDataList : CloudDataList) : Bool :=
  cloudDataList.keyData.length == 0 && cloudDataList.nonSpecificSubscribers.length == 0

/-- Modelled from the spec: `CloudDataList::IsNotUploaded` of CloudServer.h; the key
has no uploader left (`uploader_count` is zero). -/
def CloudDataList.IsNotUploaded (cloudDataList : CloudDataList) : Bool :=
  cloudDataList.uploaderCount == 0

/-- Modelled from the spec: `CloudDataList::RemoveSubscriber` of CloudServer.h;
removes the client from `non_specific_subscribers`, decrementing the subscriber
count, and reports whether it was there. -/
def CloudDataList.RemoveSubscriber (cloudDataList : CloudDataList) (g : Nat) :
    Option (CloudDataList × Bool) :=
  match GetIndexFromKey GuidComp g cloudDataList.nonSpecificSubscribers with
  | none => none
  | some (index, objectExists) =>
    if objectExists then
      some ({ cloudDataList with
                subscriberCount := subUInt32 cloudDataList.subscriberCount 1,
                nonSpecificSubscribers :=
                  RemoveAtIndex index cloudDataList.nonSpecificSubscribers }, true)
    else
      some (cloudDataList, false)

/-- Modelled from the spec: `RemoteCloudClient::IsUnused` of CloudServer.h; the entry
of a client exists iff its uploaded keys, its subscribed keys or its uploaded bytes
are non-trivial. -/
def RemoteCloudClient.IsUnused (client : RemoteCloudClient) : Bool :=
  client.uploadedKeys.length == 0 && client.subscribedKeys.length == 0
    && client.uploadedBytes == 0

/-! ### Sending -/

/-- One call `SendUnified(&bsOut, ..., destination, false)`. -/
def SendUnified (s : State) (destination : Nat) (message : Message) : State :=
  { s with sent := s.sent ++ [⟨destination, message⟩] }

/-- The row that `WriteCloudQueryRowFromResultList` (CloudServer.cpp:1050-1064) and the
notification functions build from a CloudData and a key. -/
def rowOfCloudData (cloudData : CloudData) (key : CloudKey) : CloudQueryRow :=
  { key := key, data := cloudData.data, length := cloudData.dataLengthBytes,
    serverSystemAddress := cloudData.serverSystemAddress,
    clientSystemAddress := cloudData.clientSystemAddress,
    serverGUID := cloudData.serverGUID, clientGUID := cloudData.clientGUID }

/-- Loop `for (i ...) SendUnified(&bsOut, ..., subscribers[i], false)` over a list of GUIDs. -/
def sendToEach (s : State) (message : Message) : List Nat → State
  | [] => s
  | g :: gs => sendToEach (SendUnified s g message) message gs

/-- Function `CloudServer::NotifyClientSubscribersOfDataChange`, CloudData overload
(CloudServer.cpp:1066-1085). -/
def NotifyClientSubscribersOfDataChange (s : State) (cloudData : CloudData) (key : CloudKey)
    (subscribers : List Nat) (wasUpdated : Bool) : State :=
  sendToEach s (Message.CloudSubscriptionNotification wasUpdated (rowOfCloudData cloudData key))
    subscribers

/-- Function `CloudServer::NotifyClientSubscribersOfDataChange`, row overload
(CloudServer.cpp:1087-1098). -/
def NotifyClientSubscribersOfDataChangeRow (s : State) (row : CloudQueryRow)
    (subscribers : List Nat) (wasUpdated : Bool) : State :=
  sendToEach s (Message.CloudSubscriptionNotification wasUpdated row) subscribers

/-- Loop of `NotifyServerSubscribersOfDataChange` over the remote servers
(CloudServer.cpp:1118-1122). -/
def NotifyServerSubscribersLoop (message : Message) (key : CloudKey) :
    List RemoteServer → State → Option State
  | [], s => some s
  | r :: rs, s =>
    if !r.gotSubscribedAndUploadedKeys then
      NotifyServerSubscribersLoop message key rs (SendUnified s r.serverAddress message)
    else
      match HasData CloudKeyComp key r.subscribedKeys with
      | none => none
      | some true =>
        NotifyServerSubscribersLoop message key rs (SendUnified s r.serverAddress message)
      | some false => NotifyServerSubscribersLoop message key rs s

/-- Function `CloudServer::NotifyServerSubscribersOfDataChange` (CloudServer.cpp:1100-1123). -/
def NotifyServerSubscribersOfDataChange (s : State) (cloudData : CloudData) (key : CloudKey)
    (wasUpdated : Bool) : Option State :=
  NotifyServerSubscribersLoop (Message.DataChanged wasUpdated (rowOfCloudData cloudData key))
    key s.remoteServers s

/-- Loop `for (i ...) SendUnified(&bsOut, ..., remoteServers[i]->serverAddress, false)`. -/
def sendToServers (s : State) (message : Message) : State :=
  sendToEach s message (s.remoteServers.map (fun r => r.serverAddress))

/-- Function `CloudServer::SendUploadedKeyToServers` (CloudServer.cpp:1327-1335). -/
def SendUploadedKeyToServers (s : State) (cloudKey : CloudKey) : State :=
  sendToServers s (Message.AddUploadedKey cloudKey)

/-- Function `CloudServer::SendSubscribedKeyToServers` (CloudServer.cpp:1337-1345). -/
def SendSubscribedKeyToServers (s : State) (cloudKey : CloudKey) : State :=
  sendToServers s (Message.AddSubscribedKey cloudKey)

/-- Function `CloudServer::RemoveUploadedKeyFromServers` (CloudServer.cpp:1347-1355). -/
def RemoveUploadedKeyFromServers (s : State) (cloudKey : CloudKey) : State :=
  sendToServers s (Message.RemoveUploadedKey cloudKey)

/-- Function `CloudServer::RemoveSubscribedKeyFromServers` (CloudServer.cpp:1357-1365). -/
def RemoveSubscribedKeyFromServers (s : State) (cloudKey : CloudKey) : State :=
  sendToServers s (Message.RemoveSubscribedKey cloudKey)

/-! ### Queries -/

/-- Function `CloudServer::GetOrAllocateCloudDataList` (CloudServer.cpp:1560-1578):
the repository after the call, `*dataRepositoryExists`, `dataRepositoryIndex` and the
list the returned pointer refers to. -/
def GetOrAllocateCloudDataList (dataRepository : List CloudDataList) (key : CloudKey) :
    Option (List CloudDataList × Bool × Nat × CloudDataList) :=
  match GetIndexFromKey KeyDataListComp key dataRepository with
  | none => none
  | some (dataRepositoryIndex, dataRepositoryExists) =>
    if !dataRepositoryExists then
      let cloudDataList : CloudDataList :=
        { key := key, uploaderCount := 0, subscriberCount := 0, keyData := [],
          nonSpecificSubscribers := [] }
      some (InsertAtIndex cloudDataList dataRepositoryIndex dataRepository,
            false, dataRepositoryIndex, cloudDataList)
    else
      match dataRepository.get? dataRepositoryIndex with
      | none => none
      | some cloudDataList => some (dataRepository, true, dataRepositoryIndex, cloudDataList)

/-- Loop over `specificSystems` in `ProcessCloudQueryWithAddresses`
(CloudServer.cpp:1272-1281), pushing onto the two result lists. -/
def ProcessCloudQuerySystems (cloudDataList : CloudDataList) (key : CloudKey) :
    List Nat → List CloudData × List CloudKey → Option (List CloudData × List CloudKey)
  | [], acc => some acc
  | system :: systems, acc =>
    match GetIndexFromKey KeyDataPtrComp system cloudDataList.keyData with
    | none => none
    | some (keyDataIndex, uploaderExists) =>
      if uploaderExists then
        match cloudDataList.keyData.get? keyDataIndex with
        | none => none
        | some cloudData =>
          ProcessCloudQuerySystems cloudDataList key systems
            (acc.1 ++ [cloudData], acc.2 ++ [key])
      else
        ProcessCloudQuerySystems cloudDataList key systems acc

/-- Loop over all of `keyData` in `ProcessCloudQueryWithAddresses`
(CloudServer.cpp:1286-1290). -/
def ProcessCloudQueryAll (key : CloudKey) :
    List CloudData → List CloudData × List CloudKey → List CloudData × List CloudKey
  | [], acc => acc
  | cloudData :: rest, acc => ProcessCloudQueryAll key rest (acc.1 ++ [cloudData], acc.2 ++ [key])

/-- Loop over `cloudQuery.keys` in `ProcessCloudQueryWithAddresses`
(CloudServer.cpp:1256-1294). -/
def ProcessCloudQueryKeys (dataRepository : List CloudDataList) (specificSystems : List Nat) :
    List CloudKey → List CloudData × List CloudKey → Option (List CloudData × List CloudKey)
  | [], acc => some acc
  | key :: keys, acc =>
    match GetIndexFromKey KeyDataListComp key dataRepository with
    | none => none
    | some (dataRepositoryIndex, dataRepositoryExists) =>
      if dataRepositoryExists then
        match dataRepository.get? dataRepositoryIndex with
        | none => none
        | some cloudDataList =>
          if cloudDataList.uploaderCount > 0 then
            if specificSystems.length > 0 then
              match ProcessCloudQuerySystems cloudDataList key specificSystems acc with
              | none => none
              | some acc1 => ProcessCloudQueryKeys dataRepository specificSystems keys acc1
            else
              ProcessCloudQueryKeys dataRepository specificSystems keys
                (ProcessCloudQueryAll key cloudDataList.keyData acc)
          else
            ProcessCloudQueryKeys dataRepository specificSystems keys acc
      else
        ProcessCloudQueryKeys dataRepository specificSystems keys acc

/-- Function `CloudServer::ProcessCloudQueryWithAddresses` (CloudServer.cpp:1246-1295):
the lists `cloudDataResultList` and `cloudKeyResultList`, both empty at the call. -/
def ProcessCloudQueryWithAddresses (s : State) (queryWithAddresses : CloudQueryWithAddresses) :
    Option (List CloudData × List CloudKey) :=
  ProcessCloudQueryKeys s.dataRepository queryWithAddresses.specificSystems
    queryWithAddresses.cloudQuery.keys ([], [])

/-- Inner loop over `keys` in `GetServersWithUploadedKeys` (CloudServer.cpp:1546-1554):
the final value of `workingFlag`, which is also whether the server was pushed. -/
def GetServersKeysLoop (uploadedKeys : List CloudKey) : List CloudKey → Bool → Option Bool
  | [], workingFlag => some workingFlag
  | key :: keys, workingFlag =>
    if !workingFlag then
      match HasData CloudKeyComp key uploadedKeys with
      | none => none
      | some true => some true
      | some false => GetServersKeysLoop uploadedKeys keys workingFlag
    else
      GetServersKeysLoop uploadedKeys keys workingFlag

/-- Second loop over the remote servers in `GetServersWithUploadedKeys`
(CloudServer.cpp:1534-1557): the servers with their final `workingFlag`, and
`remoteServersWithData`. -/
def GetServersLoop (keys : List CloudKey) :
    List RemoteServer → Option (List RemoteServer × List RemoteServer)
  | [] => some ([], [])
  | r :: rs =>
    match GetServersLoop keys rs with
    | none => none
    | some (rest, withData) =>
      if !r.workingFlag then
        if !r.gotSubscribedAndUploadedKeys then
          let r1 := { r with workingFlag := true }
          some (r1 :: rest, r1 :: withData)
        else
          match GetServersKeysLoop r.uploadedKeys keys false with
          | none => none
          | some true =>
            let r1 := { r with workingFlag := true }
            some (r1 :: rest, r1 :: withData)
          | some false => some ({ r with workingFlag := false } :: rest, withData)
      else
        some (r :: rest, withData)

/-- Function `CloudServer::GetServersWithUploadedKeys` (CloudServer.cpp:1526-1558): the
remote servers after the call and the list `remoteServersWithData`. -/
def GetServersWithUploadedKeys (remoteServers : List RemoteServer) (keys : List CloudKey) :
    Option (List RemoteServer × List RemoteServer) :=
  GetServersLoop keys (remoteServers.map (fun r => { r with workingFlag := false }))

/-! ### Answering a get request -/

/-- Loop `for (i = startingRowIndex; i < localNumRows; i++)` of
`ProcessAndTransmitGetRequest` (CloudServer.cpp:1201-1202): the rows written for the
positions `i`, `i + 1`, ..., the first argument counting the iterations left. -/
def writeLocalRows (cloudDataResultList : List CloudData) (cloudKeyResultList : List CloudKey) :
    Nat → Nat → Option (List CloudQueryRow)
  | 0, _ => some []
  | n + 1, i =>
    match cloudDataResultList.get? i, cloudKeyResultList.get? i with
    | some cloudData, some key =>
      match writeLocalRows cloudDataResultList cloudKeyResultList n (i + 1) with
      | none => none
      | some rows => some (rowOfCloudData cloudData key :: rows)
    | _, _ => none

/-- Local variables of the loops that append remote rows
(CloudServer.cpp:1207-1231), with the rows written so far. -/
structure RemoteRowsLoop where
  skipRows : Nat
  remainingRows : Nat
  additionalRowsWritten : Nat
  written : List CloudQueryRow
deriving DecidableEq, Repr

/-- Inner loop over the rows of one remote response (CloudServer.cpp:1215-1227). -/
def appendRemoteRows (unlimitedRows : Bool) : List CloudQueryRow → RemoteRowsLoop → RemoteRowsLoop
  | [], st => st
  | row :: rows, st =>
    if st.skipRows > 0 then
      appendRemoteRows unlimitedRows rows { st with skipRows := subUInt32 st.skipRows 1 }
    else
      let st1 := { st with written := st.written ++ [row],
                           additionalRowsWritten := toUInt32 (st.additionalRowsWritten + 1) }
      if !unlimitedRows then
        let st2 := { st1 with remainingRows := subUInt32 st1.remainingRows 1 }
        if st2.remainingRows = 0 then st2 else appendRemoteRows unlimitedRows rows st2
      else
        appendRemoteRows unlimitedRows rows st1

/-- Outer loop over `remoteServerResponses` (CloudServer.cpp:1212-1231). -/
def appendRemoteResponses (unlimitedRows : Bool) :
    List BufferedGetResponseFromServer → RemoteRowsLoop → RemoteRowsLoop
  | [], st => st
  | response :: responses, st =>
    let st1 := appendRemoteRows unlimitedRows response.rowsReturned st
    if !unlimitedRows ∧ st1.remainingRows = 0 then st1
    else appendRemoteResponses unlimitedRows responses st1

/-- Part of `ProcessAndTransmitGetRequest` after the local query
(CloudServer.cpp:1176-1241): the row count last written at `bitStreamOffset` and the
rows in the order in which they were serialized. -/
def ProcessAndTransmitRows (cloudQuery : CloudQuery) (cloudDataResultList : List CloudData)
    (cloudKeyResultList : List CloudKey)
    (remoteServerResponses : List BufferedGetResponseFromServer) :
    Option (Nat × List CloudQueryRow) :=
  let unlimitedRows : Bool := cloudQuery.maxRowsToReturn == 0
  let localNumRows0 := toUInt32 cloudDataResultList.length
  let localNumRows :=
    if !unlimitedRows ∧ localNumRows0 > cloudQuery.startingRowIndex ∧
        subUInt32 localNumRows0 cloudQuery.startingRowIndex > cloudQuery.maxRowsToReturn then
      toUInt32 (cloudQuery.startingRowIndex + cloudQuery.maxRowsToReturn)
    else localNumRows0
  let localRowsToWrite :=
    if localNumRows > cloudQuery.startingRowIndex then
      subUInt32 localNumRows cloudQuery.startingRowIndex
    else 0
  let skipRows :=
    if localNumRows > cloudQuery.startingRowIndex then 0
    else subUInt32 cloudQuery.startingRowIndex localNumRows
  match writeLocalRows cloudDataResultList cloudKeyResultList
      (localNumRows - cloudQuery.startingRowIndex) cloudQuery.startingRowIndex with
  | none => none
  | some localRows =>
    -- Append remote systems for remaining rows
    if unlimitedRows ∨ cloudQuery.maxRowsToReturn > localRowsToWrite then
      let st := appendRemoteResponses unlimitedRows remoteServerResponses
        { skipRows := skipRows,
          remainingRows :=
            if !unlimitedRows then subUInt32 cloudQuery.maxRowsToReturn localRowsToWrite else 0,
          additionalRowsWritten := 0,
          written := localRows }
      if st.additionalRowsWritten > 0 then
        some (toUInt32 (localRowsToWrite + st.additionalRowsWritten), st.written)
      else
        some (localRowsToWrite, st.written)
    else
      some (localRowsToWrite, localRows)

/-- Function `CloudServer::ProcessAndTransmitGetRequest` (CloudServer.cpp:1162-1244).
The message sent carries the header of the query, the row count and the rows. -/
def ProcessAndTransmitGetRequest (s : State) (getRequest : GetRequest) : Option State :=
  match ProcessCloudQueryWithAddresses s getRequest.cloudQueryWithAddresses with
  | none => none
  | some (cloudDataResultList, cloudKeyResultList) =>
    match ProcessAndTransmitRows getRequest.cloudQueryWithAddresses.cloudQuery
        cloudDataResultList cloudKeyResultList getRequest.remoteServerResponses with
    | none => none
    | some (numRows, rows) =>
      some (SendUnified s getRequest.requestingClient
        (Message.CloudGetResponse getRequest.cloudQueryWithAddresses.cloudQuery numRows rows))

/-! ### Posting and releasing -/

/-- Loop `for (filterIndex ...) if (!queryFilters[filterIndex]->On...(...)) return;`:
whether every filter accepts, `accepts` giving the answer of the filter with the
given identity. -/
def filtersAccept (accepts : Nat → Bool) : List Nat → Bool
  | [] => true
  | filter :: filters => if !accepts filter then false else filtersAccept accepts filters

/-- The filters that the loop over `queryFilters` at the head of a request handler calls
(CloudServer.cpp:260-266, 467-471, 559-565, 751-755), in the order of the calls: it is
the loop of `filtersAccept`, which leaves the handler at the first filter that answers
`false`, with the calls recorded. -/
def filtersConsulted (accepts : Nat → Bool) : List Nat → List Nat
  | [] => []
  | filter :: filters =>
    if !accepts filter then [filter] else filter :: filtersConsulted accepts filters

/-- Tail of `OnPostRequest` (CloudServer.cpp:408-434), shared by the two branches:
the payload is stored in `cloudData`, the bytes are accounted to the client, and the
change is announced.  `cloudDataList` already holds `cloudData`. -/
def OnPostRequestFinish (s : State) (guid : Nat) (remoteSystems : List (Nat × RemoteCloudClient))
    (remoteCloudClient : RemoteCloudClient) (dataRepository : List CloudDataList)
    (dataRepositoryIndex : Nat) (cloudDataList : CloudDataList) (cloudData : CloudData)
    (cloudDataAlreadyUploaded : Bool) : Option State :=
  let remoteCloudClient1 :=
    { remoteCloudClient with
        uploadedBytes := toUInt64 (remoteCloudClient.uploadedBytes + cloudData.dataLengthBytes) }
  let s1 : State :=
    { s with dataRepository := dataRepository.set dataRepositoryIndex cloudDataList,
             remoteSystems := HashStore remoteSystems guid remoteCloudClient1 }
  let s2 := if !cloudDataAlreadyUploaded then SendUploadedKeyToServers s1 cloudDataList.key else s1
  let s3 := NotifyClientSubscribersOfDataChange s2 cloudData cloudDataList.key
    cloudData.specificSubscribers true
  let s4 := NotifyClientSubscribersOfDataChange s3 cloudData cloudDataList.key
    cloudDataList.nonSpecificSubscribers true
  NotifyServerSubscribersOfDataChange s4 cloudData cloudDataList.key true

/-- Function `CloudServer::OnPostRequest` (CloudServer.cpp:248-439) for a packet from
client `guid` at `systemAddress` that carries `key` and the payload `data`; the
length field `dataLengthBytes` of the packet is the length of the payload. -/
def OnPostRequest (env : Env) (s : State) (guid systemAddress : Nat) (key : CloudKey)
    (data : List Nat) : Option State :=
  let dataLengthBytes := data.length
  if s.maxUploadBytesPerClient > 0 ∧ dataLengthBytes > s.maxUploadBytesPerClient then
    some s
  else if !filtersAccept
      (fun filter => env.filterOnPostRequest filter guid systemAddress key dataLengthBytes data)
      s.queryFilters then
    some s
  else
    -- Add this system to remoteSystems if they aren't there already
    let registered : Option (RemoteCloudClient × List (Nat × RemoteCloudClient)) :=
      match HashGetIndexOf s.remoteSystems guid with
      | none =>
        match Insert CloudKeyComp key key [] with
        | none => none
        | some (uploadedKeys, _) =>
          let remoteCloudClient : RemoteCloudClient :=
            { uploadedKeys := uploadedKeys, subscribedKeys := [], uploadedBytes := 0 }
          some (remoteCloudClient, HashPush s.remoteSystems guid remoteCloudClient)
      | some remoteCloudClient =>
        match GetIndexFromKey CloudKeyComp key remoteCloudClient.uploadedKeys with
        | none => none
        | some (uploadedKeysIndex, objectExists) =>
          let remoteCloudClient1 :=
            if !objectExists then
              { remoteCloudClient with
                  uploadedKeys := InsertAtIndex key uploadedKeysIndex remoteCloudClient.uploadedKeys }
            else remoteCloudClient
          some (remoteCloudClient1, HashStore s.remoteSystems guid remoteCloudClient1)
    match registered with
    | none => none
    | some (remoteCloudClient, remoteSystems1) =>
      match GetOrAllocateCloudDataList s.dataRepository key with
      | none => none
      | some (dataRepository1, dataRepositoryExists, dataRepositoryIndex, cloudDataList0) =>
        let cloudDataAlreadyUploaded : Bool :=
          if !dataRepositoryExists then false else decide (cloudDataList0.uploaderCount > 0)
        let cloudDataList1 :=
          if !dataRepositoryExists then { cloudDataList0 with uploaderCount := 1 }
          else { cloudDataList0 with uploaderCount := toUInt32 (cloudDataList0.uploaderCount + 1) }
        match GetIndexFromKey KeyDataPtrComp guid cloudDataList1.keyData with
        | none => none
        | some (keyDataListIndex, keyDataListExists) =>
          if !keyDataListExists then
            if s.maxUploadBytesPerClient > 0 ∧
                toUInt64 (remoteCloudClient.uploadedBytes + dataLengthBytes)
                  > s.maxUploadBytesPerClient then
              -- Undo prior insertion of cloudDataList into cloudData if needed
              let dataRepository2 :=
                if !keyDataListExists then RemoveAtIndex dataRepositoryIndex dataRepository1
                else dataRepository1.set dataRepositoryIndex cloudDataList1
              let remoteSystems2 :=
                if remoteCloudClient.IsUnused then HashRemove remoteSystems1 guid
                else remoteSystems1
              some { s with dataRepository := dataRepository2, remoteSystems := remoteSystems2 }
            else
              let cloudData : CloudData :=
                { dataLengthBytes := dataLengthBytes, data := data, isUploaded := true,
                  serverSystemAddress := env.serverAddressOfNewData systemAddress,
                  clientSystemAddress := systemAddress, serverGUID := env.myGUID,
                  clientGUID := guid, specificSubscribers := [] }
              match Insert KeyDataPtrComp guid cloudData cloudDataList1.keyData with
              | none => none
              | some (keyData1, _) =>
                OnPostRequestFinish s guid remoteSystems1 remoteCloudClient dataRepository1
                  dataRepositoryIndex { cloudDataList1 with keyData := keyData1 } cloudData
                  cloudDataAlreadyUploaded
          else
            match cloudDataList1.keyData.get? keyDataListIndex with
            | none => none
            | some cloudData0 =>
              let cloudData1 :=
                if !cloudDataAlreadyUploaded then
                  { cloudData0 with
                      serverSystemAddress := env.serverAddressOfExistingData systemAddress,
                      clientSystemAddress := systemAddress }
                else cloudData0
              if s.maxUploadBytesPerClient > 0 ∧
                  toUInt64 (subUInt64 remoteCloudClient.uploadedBytes cloudData1.dataLengthBytes
                    + dataLengthBytes) > s.maxUploadBytesPerClient then
                -- Undo prior insertion of cloudDataList into cloudData if needed
                let cloudDataList2 :=
                  { cloudDataList1 with
                      keyData := cloudDataList1.keyData.set keyDataListIndex cloudData1 }
                let dataRepository2 :=
                  if !dataRepositoryExists then RemoveAtIndex dataRepositoryIndex dataRepository1
                  else dataRepository1.set dataRepositoryIndex cloudDataList2
                some { s with dataRepository := dataRepository2, remoteSystems := remoteSystems1 }
              else
                let remoteCloudClient1 :=
                  { remoteCloudClient with
                      uploadedBytes :=
                        subUInt64 remoteCloudClient.uploadedBytes cloudData1.dataLengthBytes }
                let cloudData2 :=
                  { cloudData1 with data := data, dataLengthBytes := dataLengthBytes }
                OnPostRequestFinish s guid remoteSystems1 remoteCloudClient1 dataRepository1
                  dataRepositoryIndex
                  { cloudDataList1 with
                      keyData := cloudDataList1.keyData.set keyDataListIndex cloudData2 }
                  cloudData2 cloudDataAlreadyUploaded

/-- Loop over the keys of `OnReleaseRequest` (CloudServer.cpp:473-530).
`remoteCloudClient` is the current value of the client the pointer refers to; it is
written back to `remoteSystems` when the loop ends without `break`. -/
def OnReleaseRequestLoop (guid : Nat) :
    List CloudKey → RemoteCloudClient → State → Option State
  | [], remoteCloudClient, s =>
    some { s with remoteSystems := HashStore s.remoteSystems guid remoteCloudClient }
  | key :: keys, remoteCloudClient, s =>
    match GetIndexFromKey CloudKeyComp key remoteCloudClient.uploadedKeys with
    | none => none
    | some (uploadedKeysIndex, objectExists) =>
      if objectExists then
        match GetIndexFromKey KeyDataListComp key s.dataRepository with
        | none => none
        | some (dataRepositoryIndex, _) =>
          match s.dataRepository.get? dataRepositoryIndex with
          | none => none
          | some cloudDataList =>
            match GetIndexFromKey KeyDataPtrComp guid cloudDataList.keyData with
            | none => none
            | some (keyDataListIndex, _) =>
              match cloudDataList.keyData.get? keyDataListIndex with
              | none => none
              | some cloudData =>
                let remoteCloudClient1 : RemoteCloudClient :=
                  { remoteCloudClient with
                      uploadedKeys := RemoveAtIndex uploadedKeysIndex remoteCloudClient.uploadedKeys,
                      uploadedBytes :=
                        subUInt64 remoteCloudClient.uploadedBytes cloudData.dataLengthBytes }
                let cloudDataList1 :=
                  { cloudDataList with uploaderCount := subUInt32 cloudDataList.uploaderCount 1 }
                -- Broadcast destruction of this key to subscribers
                let s1 := NotifyClientSubscribersOfDataChange s cloudData cloudDataList1.key
                  cloudData.specificSubscribers false
                let s2 := NotifyClientSubscribersOfDataChange s1 cloudData cloudDataList1.key
                  cloudDataList1.nonSpecificSubscribers false
                match NotifyServerSubscribersOfDataChange s2 cloudData cloudDataList1.key false with
                | none => none
                | some s3 =>
                  let cloudData1 := cloudData.Clear
                  let s4 : State :=
                    if cloudData1.IsUnused then
                      let cloudDataList2 :=
                        { cloudDataList1 with
                            keyData := RemoveAtIndex keyDataListIndex cloudDataList1.keyData }
                      let s31 :=
                        if cloudDataList2.IsNotUploaded then
                          RemoveUploadedKeyFromServers s3 cloudDataList2.key
                        else s3
                      if cloudDataList2.IsUnused then
                        { s31 with
                            dataRepository := RemoveAtIndex dataRepositoryIndex s31.dataRepository }
                      else
                        { s31 with
                            dataRepository := s31.dataRepository.set dataRepositoryIndex cloudDataList2 }
                    else
                      { s3 with
                          dataRepository := s3.dataRepository.set dataRepositoryIndex
                            { cloudDataList1 with
                                keyData := cloudDataList1.keyData.set keyDataListIndex cloudData1 } }
                  if remoteCloudClient1.IsUnused then
                    some { s4 with remoteSystems := HashRemove s4.remoteSystems guid }
                  else
                    OnReleaseRequestLoop guid keys remoteCloudClient1 s4
      else
        OnReleaseRequestLoop guid keys remoteCloudClient s

/-- Function `CloudServer::OnReleaseRequest` (CloudServer.cpp:441-531) for a packet from
client `guid` at `systemAddress` that lists `cloudKeys`. -/
def OnReleaseRequest (env : Env) (s : State) (guid systemAddress : Nat)
    (cloudKeys : List CloudKey) : Option State :=
  if cloudKeys.length = 0 then
    some s
  else
    match HashGetIndexOf s.remoteSystems guid with
    | none => some s
    | some remoteCloudClient =>
      if !filtersAccept
          (fun filter => env.filterOnReleaseRequest filter guid systemAddress cloudKeys)
          s.queryFilters then
        some s
      else
        OnReleaseRequestLoop guid cloudKeys remoteCloudClient s

/-! ### Subscribing and unsubscribing -/

/-- Function `CloudServer::RemoveSpecificSubscriber` (CloudServer.cpp:1638-1660), as a
function of the CloudDataList the pointer refers to. -/
def RemoveSpecificSubscriber (specificSubscriber : Nat) (cloudDataList : CloudDataList)
    (remoteCloudClientGuid : Nat) : Option CloudDataList :=
  match GetIndexFromKey KeyDataPtrComp specificSubscriber cloudDataList.keyData with
  | none => none
  | some (keyDataListIndex, keyDataListExists) =>
    if keyDataListExists == false then
      some cloudDataList
    else
      match cloudDataList.keyData.get? keyDataListIndex with
      | none => none
      | some cloudData =>
        match GetIndexFromKey GuidComp remoteCloudClientGuid cloudData.specificSubscribers with
        | none => none
        | some (specificSubscriberIndex, hasSpecificSubscriber) =>
          if hasSpecificSubscriber then
            let cloudData1 :=
              { cloudData with
                  specificSubscribers :=
                    RemoveAtIndex specificSubscriberIndex cloudData.specificSubscribers }
            let subscriberCount1 := subUInt32 cloudDataList.subscriberCount 1
            if cloudData1.IsUnused then
              some { cloudDataList with
                       subscriberCount := subscriberCount1,
                       keyData := RemoveAtIndex keyDataListIndex cloudDataList.keyData }
            else
              some { cloudDataList with
                       subscriberCount := subscriberCount1,
                       keyData := cloudDataList.keyData.set keyDataListIndex cloudData1 }
          else
            some cloudDataList

/-- Loop `for (i ...) RemoveSpecificSubscriber(specificSystemsSubscribedTo[i], ...)` of
`UnsubscribeFromKey` (CloudServer.cpp:1602-1603). -/
def UnsubscribeAllSpecific (remoteCloudClientGuid : Nat) :
    List Nat → CloudDataList → Option CloudDataList
  | [], cloudDataList => some cloudDataList
  | system :: systems, cloudDataList =>
    match RemoveSpecificSubscriber system cloudDataList remoteCloudClientGuid with
    | none => none
    | some cloudDataList1 => UnsubscribeAllSpecific remoteCloudClientGuid systems cloudDataList1

/-- Loop over `specificSystems` in the scoped branch of `UnsubscribeFromKey`
(CloudServer.cpp:1609-1619): the list `specificSystemsSubscribedTo` and the
CloudDataList after the loop. -/
def UnsubscribeNamedSpecific (remoteCloudClientGuid : Nat) :
    List Nat → List Nat → CloudDataList → Option (List Nat × CloudDataList)
  | [], specificSystemsSubscribedTo, cloudDataList =>
    some (specificSystemsSubscribedTo, cloudDataList)
  | system :: systems, specificSystemsSubscribedTo, cloudDataList =>
    match GetIndexFromKey GuidComp system specificSystemsSubscribedTo with
    | none => none
    | some (specificSystemsSubscribedToIndex, hasSpecificSystemsSubscribedTo) =>
      if hasSpecificSystemsSubscribedTo then
        match RemoveSpecificSubscriber system cloudDataList remoteCloudClientGuid with
        | none => none
        | some cloudDataList1 =>
          UnsubscribeNamedSpecific remoteCloudClientGuid systems
            (RemoveAtIndex specificSystemsSubscribedToIndex specificSystemsSubscribedTo)
            cloudDataList1
      else
        UnsubscribeNamedSpecific remoteCloudClientGuid systems specificSystemsSubscribedTo
          cloudDataList

/-- Function `CloudServer::UnsubscribeFromKey` (CloudServer.cpp:1580-1636): the client
the pointer `remoteCloudClient` refers to and the server state after the call. -/
def UnsubscribeFromKey (s : State) (remoteCloudClient : RemoteCloudClient)
    (remoteCloudClientGuid : Nat) (keySubscriberIndex : Nat) (cloudKey : CloudKey)
    (specificSystems : List Nat) : Option (RemoteCloudClient × State) :=
  match remoteCloudClient.subscribedKeys.get? keySubscriberIndex with
  | none => none
  | some keySubscriberId =>
    -- If removing specific systems, but global subscription, fail
    if keySubscriberId.specificSystemsSubscribedTo.length = 0 ∧ specificSystems.length > 0 then
      some (remoteCloudClient, s)
    else
      match GetIndexFromKey KeyDataListComp cloudKey s.dataRepository with
      | none => none
      | some (dataRepositoryIndex, dataRepositoryExists) =>
        if !dataRepositoryExists then
          some (remoteCloudClient, s)
        else
          match s.dataRepository.get? dataRepositoryIndex with
          | none => none
          | some cloudDataList =>
            let removed : Option (List Nat × CloudDataList) :=
              if specificSystems.length = 0 then
                -- Remove global subscriber. If returns false, have to remove specific subscribers
                match cloudDataList.RemoveSubscriber remoteCloudClientGuid with
                | none => none
                | some (cloudDataList1, true) => some ([], cloudDataList1)
                | some (cloudDataList1, false) =>
                  match UnsubscribeAllSpecific remoteCloudClientGuid
                      keySubscriberId.specificSystemsSubscribedTo cloudDataList1 with
                  | none => none
                  | some cloudDataList2 => some ([], cloudDataList2)
              else
                UnsubscribeNamedSpecific remoteCloudClientGuid specificSystems
                  keySubscriberId.specificSystemsSubscribedTo cloudDataList
            match removed with
            | none => none
            | some (specificSystemsSubscribedTo1, cloudDataList1) =>
              let remoteCloudClient1 : RemoteCloudClient :=
                if specificSystemsSubscribedTo1.length = 0 then
                  { remoteCloudClient with
                      subscribedKeys :=
                        RemoveAtIndex keySubscriberIndex remoteCloudClient.subscribedKeys }
                else
                  { remoteCloudClient with
                      subscribedKeys := remoteCloudClient.subscribedKeys.set keySubscriberIndex
                        { keySubscriberId with
                            specificSystemsSubscribedTo := specificSystemsSubscribedTo1 } }
              let s1 :=
                if cloudDataList1.subscriberCount = 0 then RemoveSubscribedKeyFromServers s cloudKey
                else s
              let s2 : State :=
                if cloudDataList1.IsUnused then
                  { s1 with dataRepository := RemoveAtIndex dataRepositoryIndex s1.dataRepository }
                else
                  { s1 with
                      dataRepository := s1.dataRepository.set dataRepositoryIndex cloudDataList1 }
              some (remoteCloudClient1, s2)

/-- Constant `UNASSIGNED_SYSTEM_ADDRESS` of the transport: an address that no system has. -/
def UNASSIGNED_SYSTEM_ADDRESS : Nat := 0

/-- Loop that fills `keySubscriberId->specificSystemsSubscribedTo` in `OnGetRequest`
(CloudServer.cpp:629-634). -/
def insertSpecificSystems : List Nat → List Nat → Option (List Nat)
  | [], specificSystemsSubscribedTo => some specificSystemsSubscribedTo
  | system :: systems, specificSystemsSubscribedTo =>
    match Insert GuidComp system system specificSystemsSubscribedTo with
    | none => none
    | some (specificSystemsSubscribedTo1, _) =>
      insertSpecificSystems systems specificSystemsSubscribedTo1

/-- Loop over `specificSystems` that installs a specific subscription in `OnGetRequest`
(CloudServer.cpp:653-677). -/
def subscribeSpecific (env : Env) (guid : Nat) : List Nat → CloudDataList → Option CloudDataList
  | [], cloudDataList => some cloudDataList
  | specificSystem :: systems, cloudDataList =>
    match GetIndexFromKey KeyDataPtrComp specificSystem cloudDataList.keyData with
    | none => none
    | some (keyDataListIndex, keyDataListExists) =>
      if !keyDataListExists then
        let cloudData : CloudData :=
          { dataLengthBytes := 0, data := [], isUploaded := false,
            serverSystemAddress := UNASSIGNED_SYSTEM_ADDRESS,
            clientSystemAddress := UNASSIGNED_SYSTEM_ADDRESS,
            serverGUID := env.myGUID, clientGUID := specificSystem,
            specificSubscribers := [] }
        match Insert GuidComp guid guid cloudData.specificSubscribers with
        | none => none
        | some (specificSubscribers1, _) =>
          match Insert KeyDataPtrComp specificSystem
              { cloudData with specificSubscribers := specificSubscribers1 }
              cloudDataList.keyData with
          | none => none
          | some (keyData1, _) =>
            subscribeSpecific env guid systems
              { cloudDataList with
                  keyData := keyData1,
                  subscriberCount := toUInt32 (cloudDataList.subscriberCount + 1) }
      else
        match cloudDataList.keyData.get? keyDataListIndex with
        | none => none
        | some cloudData =>
          match Insert GuidComp guid guid cloudData.specificSubscribers with
          | none => none
          | some (specificSubscribers1, _) =>
            subscribeSpecific env guid systems
              { cloudDataList with
                  keyData := cloudDataList.keyData.set keyDataListIndex
                    { cloudData with specificSubscribers := specificSubscribers1 },
                  subscriberCount := toUInt32 (cloudDataList.subscriberCount + 1) }

/-- Loop of the non-specific branch of `OnGetRequest` that removes the client from the
specific subscribers (CloudServer.cpp:690-702). -/
def removeFromSpecific (guid : Nat) : List Nat → CloudDataList → Option CloudDataList
  | [], cloudDataList => some cloudDataList
  | system :: systems, cloudDataList =>
    match GetIndexFromKey KeyDataPtrComp system cloudDataList.keyData with
    | none => none
    | some (keyDataIndex, keyDataExists) =>
      if keyDataExists then
        match cloudDataList.keyData.get? keyDataIndex with
        | none => none
        | some keyData =>
          match Remove GuidComp guid keyData.specificSubscribers with
          | none => none
          | some specificSubscribers1 =>
            removeFromSpecific guid systems
              { cloudDataList with
                  keyData := cloudDataList.keyData.set keyDataIndex
                    { keyData with specificSubscribers := specificSubscribers1 },
                  subscriberCount := subUInt32 cloudDataList.subscriberCount 1 }
      else
        removeFromSpecific guid systems cloudDataList

/-- Loop over the keys of a subscribing get request in `OnGetRequest`
(CloudServer.cpp:612-705).  `remoteCloudClient` is the current value of the client
the pointer refers to. -/
def OnGetRequestSubscribe (env : Env) (guid : Nat) (specificSystems : List Nat) :
    List CloudKey → RemoteCloudClient → State → Option (RemoteCloudClient × State)
  | [], remoteCloudClient, s => some (remoteCloudClient, s)
  | cloudKey :: keys, remoteCloudClient, s =>
    match GetIndexFromKey KeySubscriberIDComp cloudKey remoteCloudClient.subscribedKeys with
    | none => none
    | some (keySubscriberIndex, hasKeySubscriber) =>
      let unsubscribed : Option (RemoteCloudClient × State) :=
        if hasKeySubscriber then
          UnsubscribeFromKey s remoteCloudClient guid keySubscriberIndex cloudKey []
        else some (remoteCloudClient, s)
      match unsubscribed with
      | none => none
      | some (remoteCloudClient1, s1) =>
        match insertSpecificSystems specificSystems [] with
        | none => none
        | some specificSystemsSubscribedTo =>
          let keySubscriberId : KeySubscriberID :=
            { key := cloudKey, specificSystemsSubscribedTo := specificSystemsSubscribedTo }
          let remoteCloudClient2 : RemoteCloudClient :=
            { remoteCloudClient1 with
                subscribedKeys :=
                  InsertAtIndex keySubscriberId keySubscriberIndex remoteCloudClient1.subscribedKeys }
          -- Add CloudData in a similar way
          match GetOrAllocateCloudDataList s1.dataRepository cloudKey with
          | none => none
          | some (dataRepository1, _, dataRepositoryIndex, cloudDataList) =>
            -- If this is the first local client to subscribe to this key
            let s2 : State := { s1 with dataRepository := dataRepository1 }
            let s3 :=
              if cloudDataList.subscriberCount = 0 then SendSubscribedKeyToServers s2 cloudKey
              else s2
            let installed : Option CloudDataList :=
              if specificSystems.length > 0 then
                subscribeSpecific env guid specificSystems cloudDataList
              else
                match Insert GuidComp guid guid cloudDataList.nonSpecificSubscribers with
                | none => none
                | some (nonSpecificSubscribers1, _) =>
                  let cloudDataList1 :=
                    { cloudDataList with
                        subscriberCount := toUInt32 (cloudDataList.subscriberCount + 1),
                        nonSpecificSubscribers := nonSpecificSubscribers1 }
                  match GetIndexFromKey KeySubscriberIDComp cloudDataList1.key
                      remoteCloudClient2.subscribedKeys with
                  | none => none
                  | some (subscribedKeysIndex, subscribedKeysIndexExists) =>
                    if subscribedKeysIndexExists then
                      match remoteCloudClient2.subscribedKeys.get? subscribedKeysIndex with
                      | none => none
                      | some keySubscriberId1 =>
                        removeFromSpecific guid keySubscriberId1.specificSystemsSubscribedTo
                          cloudDataList1
                    else some cloudDataList1
            match installed with
            | none => none
            | some cloudDataList2 =>
              OnGetRequestSubscribe env guid specificSystems keys remoteCloudClient2
                { s3 with
                    dataRepository := s3.dataRepository.set dataRepositoryIndex cloudDataList2 }

/-- Loop over `remoteServersWithData` in `OnGetRequest` (CloudServer.cpp:584-592): the
list `remoteServerResponses` of the request and the state after the sends. -/
def OnGetRequestFanOut (message : Message) :
    List RemoteServer → List BufferedGetResponseFromServer → State →
      Option (List BufferedGetResponseFromServer × State)
  | [], remoteServerResponses, s => some (remoteServerResponses, s)
  | r :: rs, remoteServerResponses, s =>
    let bufferedGetResponseFromServer : BufferedGetResponseFromServer :=
      { serverAddress := r.serverAddress, rowsReturned := [], gotResult := false }
    match Insert BufferedGetResponseFromServerComp r.serverAddress bufferedGetResponseFromServer
        remoteServerResponses with
    | none => none
    | some (remoteServerResponses1, _) =>
      OnGetRequestFanOut message rs remoteServerResponses1 (SendUnified s r.serverAddress message)

/-- Function `CloudServer::OnGetRequest` (CloudServer.cpp:533-717) for a packet from
client `guid` at `systemAddress` that carries `cloudQuery` and `specificSystems`;
`time` is the value of `RakNet::GetTime()`. -/
def OnGetRequest (env : Env) (s : State) (guid systemAddress : Nat) (cloudQuery : CloudQuery)
    (specificSystems : List Nat) (time : Nat) : Option State :=
  if cloudQuery.keys.length = 0 then
    some s
  else if !filtersAccept
      (fun filter => env.filterOnGetRequest filter guid systemAddress cloudQuery specificSystems)
      s.queryFilters then
    some s
  else
    let getRequest : GetRequest :=
      { cloudQueryWithAddresses := { cloudQuery := cloudQuery, specificSystems := specificSystems },
        requestStartTime := time, requestId := s.nextGetRequestId, requestingClient := guid,
        remoteServerResponses := [] }
    let s1 : State := { s with nextGetRequestId := toUInt32 (s.nextGetRequestId + 1) }
    -- Send request to servers that have this data
    match GetServersWithUploadedKeys s1.remoteServers cloudQuery.keys with
    | none => none
    | some (remoteServers1, remoteServersWithData) =>
      let s2 : State := { s1 with remoteServers := remoteServers1 }
      let answered : Option State :=
        if remoteServersWithData.length = 0 then
          ProcessAndTransmitGetRequest s2 getRequest
        else
          match OnGetRequestFanOut
              (Message.ProcessGetRequest getRequest.cloudQueryWithAddresses getRequest.requestId)
              remoteServersWithData [] s2 with
          | none => none
          | some (remoteServerResponses, s3) =>
            -- Record that this system made this request
            match Insert GetRequestComp getRequest.requestId
                { getRequest with remoteServerResponses := remoteServerResponses }
                s3.getRequests with
            | none => none
            | some (getRequests1, _) => some { s3 with getRequests := getRequests1 }
      match answered with
      | none => none
      | some s4 =>
        if cloudQuery.subscribeToResults then
          let remoteCloudClient : RemoteCloudClient :=
            match HashGetIndexOf s4.remoteSystems guid with
            | none => { uploadedKeys := [], subscribedKeys := [], uploadedBytes := 0 }
            | some remoteCloudClient => remoteCloudClient
          let s5 : State :=
            match HashGetIndexOf s4.remoteSystems guid with
            | none => { s4 with remoteSystems := HashPush s4.remoteSystems guid remoteCloudClient }
            | some _ => s4
          match OnGetRequestSubscribe env guid specificSystems cloudQuery.keys
              remoteCloudClient s5 with
          | none => none
          | some (remoteCloudClient1, s6) =>
            if remoteCloudClient1.subscribedKeys.length = 0 then
              -- Didn't do anything
              some { s6 with remoteSystems := HashRemove s6.remoteSystems guid }
            else
              some { s6 with remoteSystems := HashStore s6.remoteSystems guid remoteCloudClient1 }
        else
          some s4

/-! ### Unsubscribe requests -/

/-- Loop over the keys of `OnUnsubscribeRequest` (CloudServer.cpp:761-778). -/
def OnUnsubscribeRequestLoop (guid : Nat) (specificSystems : List Nat) :
    List CloudKey → RemoteCloudClient → State → Option (RemoteCloudClient × State)
  | [], remoteCloudClient, s => some (remoteCloudClient, s)
  | cloudKey :: keys, remoteCloudClient, s =>
    match GetIndexFromKey KeyDataListComp cloudKey s.dataRepository with
    | none => none
    | some (_, dataRepositoryExists) =>
      if !dataRepositoryExists then
        OnUnsubscribeRequestLoop guid specificSystems keys remoteCloudClient s
      else
        match GetIndexFromKey KeySubscriberIDComp cloudKey remoteCloudClient.subscribedKeys with
        | none => none
        | some (keySubscriberIndex, hasKeySubscriber) =>
          if !hasKeySubscriber then
            OnUnsubscribeRequestLoop guid specificSystems keys remoteCloudClient s
          else
            match UnsubscribeFromKey s remoteCloudClient guid keySubscriberIndex cloudKey
                specificSystems with
            | none => none
            | some (remoteCloudClient1, s1) =>
              OnUnsubscribeRequestLoop guid specificSystems keys remoteCloudClient1 s1

/-- Function `CloudServer::OnUnsubscribeRequest` (CloudServer.cpp:719-785) for a packet
from client `guid` at `systemAddress` that lists `cloudKeys` and `specificSystems`. -/
def OnUnsubscribeRequest (env : Env) (s : State) (guid systemAddress : Nat)
    (cloudKeys : List CloudKey) (specificSystems : List Nat) : Option State :=
  match HashGetIndexOf s.remoteSystems guid with
  | none => some s
  | some remoteCloudClient =>
    if !filtersAccept
        (fun filter =>
          env.filterOnUnsubscribeRequest filter guid systemAddress cloudKeys specificSystems)
        s.queryFilters then
      some s
    else
      match OnUnsubscribeRequestLoop guid specificSystems cloudKeys remoteCloudClient s with
      | none => none
      | some (remoteCloudClient1, s1) =>
        if remoteCloudClient1.IsUnused then
          some { s1 with remoteSystems := HashRemove s1.remoteSystems guid }
        else
          some { s1 with remoteSystems := HashStore s1.remoteSystems guid remoteCloudClient1 }

/-! ### Server-to-server get requests and responses -/

/-- Function `CloudServer::WriteCloudQueryRowFromResultList`, list overload
(CloudServer.cpp:1041-1048): the row count written and the rows. -/
def WriteCloudQueryRowFromResultList (cloudDataResultList : List CloudData)
    (cloudKeyResultList : List CloudKey) : Option (Nat × List CloudQueryRow) :=
  match writeLocalRows cloudDataResultList cloudKeyResultList cloudKeyResultList.length 0 with
  | none => none
  | some rows => some (toUInt32 cloudKeyResultList.length, rows)

/-- Function `CloudServer::OnServerToServerGetRequest` (CloudServer.cpp:787-813) for a
packet from `guid` that carries the query and `requestId`. -/
def OnServerToServerGetRequest (s : State) (guid : Nat)
    (cloudQueryWithAddresses : CloudQueryWithAddresses) (requestId : Nat) : Option State :=
  match GetIndexFromKey RemoteServerComp guid s.remoteServers with
  | none => none
  | some (_, objectExists) =>
    if !objectExists then
      some s
    else
      match ProcessCloudQueryWithAddresses s cloudQueryWithAddresses with
      | none => none
      | some (cloudDataResultList, cloudKeyResultList) =>
        match WriteCloudQueryRowFromResultList cloudDataResultList cloudKeyResultList with
        | none => none
        | some (numRows, rows) =>
          some (SendUnified s guid (Message.ProcessGetResponse requestId numRows rows))

/-- Function `CloudServer::GetRequest::AllRemoteServersHaveResponded`
(CloudServer.cpp:121-127). -/
def AllRemoteServersHaveResponded : List BufferedGetResponseFromServer → Bool
  | [] => true
  | response :: responses =>
    if response.gotResult == false then false else AllRemoteServersHaveResponded responses

/-- Function `CloudServer::OnServerToServerGetResponse` (CloudServer.cpp:815-861) for a
packet from `guid` that carries `requestId` and the rows `rows`. -/
def OnServerToServerGetResponse (s : State) (guid : Nat) (requestId : Nat)
    (rows : List CloudQueryRow) : Option State :=
  match GetIndexFromKey RemoteServerComp guid s.remoteServers with
  | none => none
  | some (remoteServerIndex, objectExists) =>
    if !objectExists then
      some s
    else
      match s.remoteServers.get? remoteServerIndex with
      | none => none
      | some _ =>
        -- Lookup request id
        match GetIndexFromKey GetRequestComp requestId s.getRequests with
        | none => none
        | some (getRequestIndex, hasGetRequest) =>
          if !hasGetRequest then
            some s
          else
            match s.getRequests.get? getRequestIndex with
            | none => none
            | some getRequest =>
              match GetIndexFromKey BufferedGetResponseFromServerComp guid
                  getRequest.remoteServerResponses with
              | none => none
              | some (remoteServerResponsesIndex, hasRemoteServer) =>
                if !hasRemoteServer then
                  some s
                else
                  match getRequest.remoteServerResponses.get? remoteServerResponsesIndex with
                  | none => none
                  | some bufferedGetResponseFromServer =>
                    if bufferedGetResponseFromServer.gotResult then
                      some s
                    else
                      let getRequest1 : GetRequest :=
                        { getRequest with
                            remoteServerResponses :=
                              getRequest.remoteServerResponses.set remoteServerResponsesIndex
                                { bufferedGetResponseFromServer with
                                    gotResult := true,
                                    rowsReturned :=
                                      bufferedGetResponseFromServer.rowsReturned ++ rows } }
                      -- If all results returned, then also process locally, and return to user
                      if AllRemoteServersHaveResponded getRequest1.remoteServerResponses then
                        match ProcessAndTransmitGetRequest s getRequest1 with
                        | none => none
                        | some s1 =>
                          some { s1 with
                                  getRequests := RemoveAtIndex getRequestIndex s1.getRequests }
                      else
                        some { s with
                                getRequests := s.getRequests.set getRequestIndex getRequest1 }

/-! ### Timeouts -/

/-- Loop over `getRequests` in `Update` (CloudServer.cpp:180-192).  The requests before
the current position are final and collected in `kept`; `pending` are the requests
from the current position on.  The difference `time - requestStartTime` is taken in
the unsigned 64-bit type `RakNet::Time`. -/
def UpdateLoop (time : Nat) : List GetRequest → List GetRequest → State → Option State
  | [], kept, s => some { s with getRequests := kept }
  | getRequest :: pending, kept, s =>
    if subUInt64 time getRequest.requestStartTime > 3000 then
      -- Remote server is not responding, just send back data with whoever did respond
      match ProcessAndTransmitGetRequest s getRequest with
      | none => none
      | some s1 => UpdateLoop time pending kept s1
    else
      UpdateLoop time pending (kept ++ [getRequest]) s

/-- Function `CloudServer::Update` (CloudServer.cpp:172-194).  The source initialises
`time` with `RakNet::Time()`, the value-initialised time type, and not with
`RakNet::GetTime()` as `OnGetRequest` does: `time` is zero, whatever the clock. -/
def Update (s : State) : Option State :=
  let time : Nat := 0
  if time > s.nextGetRequestsCheck then
    UpdateLoop time s.getRequests [] { s with nextGetRequestsCheck := toUInt64 (time + 1000) }
  else
    some s

/-! ### Closed connections -/

/-- Loop over `getRequests` in `OnClosedConnection` (CloudServer.cpp:873-898).  The
requests before `getRequestIndex` are final and collected in `kept`; `pending` are the
requests from `getRequestIndex` on. -/
def OnClosedConnectionRequests (rakNetGUID : Nat) :
    List GetRequest → List GetRequest → State → Option State
  | [], kept, s => some { s with getRequests := kept }
  | getRequest :: pending, kept, s =>
    match GetIndexFromKey BufferedGetResponseFromServerComp rakNetGUID
        getRequest.remoteServerResponses with
    | none => none
    | some (remoteServerResponsesIndex, waitingForThisServer) =>
      if waitingForThisServer then
        match getRequest.remoteServerResponses.get? remoteServerResponsesIndex with
        | none => none
        | some _ =>
          let getRequest1 : GetRequest :=
            { getRequest with
                remoteServerResponses :=
                  RemoveAtIndex remoteServerResponsesIndex getRequest.remoteServerResponses }
          if AllRemoteServersHaveResponded getRequest1.remoteServerResponses then
            match ProcessAndTransmitGetRequest s getRequest1 with
            | none => none
            | some s1 => OnClosedConnectionRequests rakNetGUID pending kept s1
          else
            OnClosedConnectionRequests rakNetGUID pending (kept ++ [getRequest1]) s
      else
        OnClosedConnectionRequests rakNetGUID pending (kept ++ [getRequest]) s

/-- Loop over the uploaded keys of the client in `OnClosedConnection`
(CloudServer.cpp:908-951). -/
def OnClosedConnectionUploaded (rakNetGUID : Nat) : List CloudKey → State → Option State
  | [], s => some s
  | key :: keys, s =>
    -- Delete keys this system has uploaded
    match GetIndexFromKey KeyDataListComp key s.dataRepository with
    | none => none
    | some (dataRepositoryIndex, keyDataRepositoryExists) =>
      if keyDataRepositoryExists then
        match s.dataRepository.get? dataRepositoryIndex with
        | none => none
        | some cloudDataList =>
          match GetIndexFromKey KeyDataPtrComp rakNetGUID cloudDataList.keyData with
          | none => none
          | some (keyDataIndex, keyDataExists) =>
            if keyDataExists then
              match cloudDataList.keyData.get? keyDataIndex with
              | none => none
              | some cloudData =>
                let cloudDataList1 :=
                  { cloudDataList with uploaderCount := subUInt32 cloudDataList.uploaderCount 1 }
                let s1 := NotifyClientSubscribersOfDataChange s cloudData cloudDataList1.key
                  cloudData.specificSubscribers false
                let s2 := NotifyClientSubscribersOfDataChange s1 cloudData cloudDataList1.key
                  cloudDataList1.nonSpecificSubscribers false
                match NotifyServerSubscribersOfDataChange s2 cloudData cloudDataList1.key false with
                | none => none
                | some s3 =>
                  let cloudData1 := cloudData.Clear
                  let s4 : State :=
                    if cloudData1.IsUnused then
                      let cloudDataList2 :=
                        { cloudDataList1 with
                            keyData := RemoveAtIndex keyDataIndex cloudDataList1.keyData }
                      let s31 :=
                        if cloudDataList2.IsNotUploaded then
                          RemoveUploadedKeyFromServers s3 cloudDataList2.key
                        else s3
                      if cloudDataList2.IsUnused then
                        let s32 := RemoveUploadedKeyFromServers s31 cloudDataList2.key
                        { s32 with
                            dataRepository := RemoveAtIndex dataRepositoryIndex s32.dataRepository }
                      else
                        { s31 with
                            dataRepository := s31.dataRepository.set dataRepositoryIndex cloudDataList2 }
                    else
                      { s3 with
                          dataRepository := s3.dataRepository.set dataRepositoryIndex
                            { cloudDataList1 with
                                keyData := cloudDataList1.keyData.set keyDataIndex cloudData1 } }
                  OnClosedConnectionUploaded rakNetGUID keys s4
            else
              OnClosedConnectionUploaded rakNetGUID keys s
      else
        OnClosedConnectionUploaded rakNetGUID keys s

/-- Loop over `specificSystemsSubscribedTo` of one subscribed key in `OnClosedConnection`
(CloudServer.cpp:971-982). -/
def OnClosedConnectionSpecific (rakNetGUID : Nat) : List Nat → CloudDataList → Option CloudDataList
  | [], cloudDataList => some cloudDataList
  | system :: systems, cloudDataList =>
    match GetIndexFromKey KeyDataPtrComp system cloudDataList.keyData with
    | none => none
    | some (keyDataIndex, keyDataExists) =>
      if keyDataExists then
        match cloudDataList.keyData.get? keyDataIndex with
        | none => none
        | some keyData =>
          match Remove GuidComp rakNetGUID keyData.specificSubscribers with
          | none => none
          | some specificSubscribers1 =>
            OnClosedConnectionSpecific rakNetGUID systems
              { cloudDataList with
                  keyData := cloudDataList.keyData.set keyDataIndex
                    { keyData with specificSubscribers := specificSubscribers1 },
                  subscriberCount := subUInt32 cloudDataList.subscriberCount 1 }
      else
        OnClosedConnectionSpecific rakNetGUID systems cloudDataList

/-- Loop over the subscribed keys of the client in `OnClosedConnection`
(CloudServer.cpp:953-987). -/
def OnClosedConnectionSubscribed (rakNetGUID : Nat) :
    List KeySubscriberID → State → Option State
  | [], s => some s
  | keySubscriberId :: rest, s =>
    match GetIndexFromKey KeyDataListComp keySubscriberId.key s.dataRepository with
    | none => none
    | some (keyDataRepositoryIndex, keyDataRepositoryExists) =>
      if keyDataRepositoryExists then
        match s.dataRepository.get? keyDataRepositoryIndex with
        | none => none
        | some cloudDataList =>
          let updated : Option CloudDataList :=
            if keySubscriberId.specificSystemsSubscribedTo.length = 0 then
              match Remove GuidComp rakNetGUID cloudDataList.nonSpecificSubscribers with
              | none => none
              | some nonSpecificSubscribers1 =>
                some { cloudDataList with
                         nonSpecificSubscribers := nonSpecificSubscribers1,
                         subscriberCount := subUInt32 cloudDataList.subscriberCount 1 }
            else
              OnClosedConnectionSpecific rakNetGUID keySubscriberId.specificSystemsSubscribedTo
                cloudDataList
          match updated with
          | none => none
          | some cloudDataList1 =>
            OnClosedConnectionSubscribed rakNetGUID rest
              { s with
                  dataRepository := s.dataRepository.set keyDataRepositoryIndex cloudDataList1 }
      else
        OnClosedConnectionSubscribed rakNetGUID rest s

/-- Server part of `OnClosedConnection` (CloudServer.cpp:868-902). -/
def OnClosedConnectionServer (s : State) (rakNetGUID : Nat) : Option State :=
  match GetIndexFromKey RemoteServerComp rakNetGUID s.remoteServers with
  | none => none
  | some (remoteServerIndex, objectExists) =>
    if objectExists then
      -- Update remoteServerResponses by removing this server and sending the response if it
      -- is now complete
      match OnClosedConnectionRequests rakNetGUID s.getRequests [] s with
      | none => none
      | some s1 =>
        match s1.remoteServers.get? remoteServerIndex with
        | none => none
        | some _ =>
          some { s1 with remoteServers := RemoveAtIndex remoteServerIndex s1.remoteServers }
    else
      some s

/-- Client part of `OnClosedConnection` (CloudServer.cpp:904-992). -/
def OnClosedConnectionClient (s : State) (rakNetGUID : Nat) : Option State :=
  match HashGetIndexOf s.remoteSystems rakNetGUID with
  | none => some s
  | some remoteCloudClient =>
    match OnClosedConnectionUploaded rakNetGUID remoteCloudClient.uploadedKeys s with
    | none => none
    | some s1 =>
      match OnClosedConnectionSubscribed rakNetGUID remoteCloudClient.subscribedKeys s1 with
      | none => none
      | some s2 =>
        -- Delete and remove from remoteSystems
        some { s2 with remoteSystems := HashRemove s2.remoteSystems rakNetGUID }

/-- Function `CloudServer::OnClosedConnection` (CloudServer.cpp:863-993). -/
def OnClosedConnection (s : State) (rakNetGUID : Nat) : Option State :=
  match OnClosedConnectionServer s rakNetGUID with
  | none => none
  | some s1 => OnClosedConnectionClient s1 rakNetGUID

/-! ### The registry of remote servers -/

/-- Value of an expression of type `uint16_t`: modulo `2^16`. -/
def toUInt16 (a : Nat) : Nat := a % 2 ^ 16

/-- Connection states of the transport, as far as `AddServer` distinguishes them. -/
inductive ConnectionState where
  | IS_CONNECTED
  | IS_PENDING
  | IS_DISCONNECTED
  | IS_NOT_CONNECTED
deriving DecidableEq, Repr

/-- Function `CloudServer::SendUploadedAndSubscribedKeysToServer`
(CloudServer.cpp:1297-1325). -/
def SendUploadedAndSubscribedKeysToServer (s : State) (systemAddress : Nat) : State :=
  let uploaded := s.dataRepository.map (fun cloudDataList => cloudDataList.key)
  let subscribed :=
    (s.dataRepository.filter (fun cloudDataList => decide (cloudDataList.subscriberCount > 0))).map
      (fun cloudDataList => cloudDataList.key)
  let subscribedKeyCount := toUInt16 subscribed.length
  if s.dataRepository.length > 0 ∨ subscribedKeyCount > 0 then
    SendUnified s systemAddress
      (Message.UploadedAndSubscribedKeys (toUInt16 s.dataRepository.length) uploaded
        subscribedKeyCount subscribed)
  else s

/-- Function `CloudServer::AddServer` (CloudServer.cpp:1125-1141); `cs` is the answer of
`rakPeerInterface->GetConnectionState(systemIdentifier)`. -/
def AddServer (s : State) (systemIdentifier : Nat) (cs : ConnectionState) : Option State :=
  if cs = ConnectionState.IS_DISCONNECTED ∨ cs = ConnectionState.IS_NOT_CONNECTED then
    some s
  else
    match GetIndexFromKey RemoteServerComp systemIdentifier s.remoteServers with
    | none => none
    | some (index, objectExists) =>
      if !objectExists then
        let remoteServer : RemoteServer :=
          { serverAddress := systemIdentifier, subscribedKeys := [], uploadedKeys := [],
            workingFlag := false, gotSubscribedAndUploadedKeys := false }
        some (SendUploadedAndSubscribedKeysToServer
          { s with remoteServers := InsertAtIndex remoteServer index s.remoteServers }
          systemIdentifier)
      else
        some s

/-- Function `CloudServer::RemoveServer` (CloudServer.cpp:1143-1152). -/
def RemoveServer (s : State) (systemAddress : Nat) : Option State :=
  match GetIndexFromKey RemoteServerComp systemAddress s.remoteServers with
  | none => none
  | some (index, objectExists) =>
    if objectExists then
      match s.remoteServers.get? index with
      | none => none
      | some _ => some { s with remoteServers := RemoveAtIndex index s.remoteServers }
    else
      some s

/-- Loops `GetIndexFromKey` then `Insert` over the keys read from the packet in
`OnSendUploadedAndSubscribedKeysToServer` (CloudServer.cpp:1383-1404). -/
def insertKeys : List CloudKey → List CloudKey → Option (List CloudKey)
  | [], keys => some keys
  | cloudKey :: rest, keys =>
    match GetIndexFromKey CloudKeyComp cloudKey keys with
    | none => none
    | some (_, alreadyHasKey) =>
      if !alreadyHasKey then
        match Insert CloudKeyComp cloudKey cloudKey keys with
        | none => none
        | some (keys1, _) => insertKeys rest keys1
      else
        insertKeys rest keys

/-- Function `CloudServer::OnSendUploadedAndSubscribedKeysToServer`
(CloudServer.cpp:1367-1409) for a packet from `guid` that lists the keys `uploaded` and
`subscribed`. -/
def OnSendUploadedAndSubscribedKeysToServer (s : State) (guid : Nat)
    (uploaded subscribed : List CloudKey) : Option State :=
  match GetIndexFromKey RemoteServerComp guid s.remoteServers with
  | none => none
  | some (index, objectExists) =>
    if !objectExists then
      some s
    else
      match s.remoteServers.get? index with
      | none => none
      | some remoteServer =>
        match insertKeys uploaded remoteServer.uploadedKeys,
              insertKeys subscribed remoteServer.subscribedKeys with
        | some uploadedKeys1, some subscribedKeys1 =>
          some { s with
                  remoteServers := s.remoteServers.set index
                    { remoteServer with
                        gotSubscribedAndUploadedKeys := true,
                        uploadedKeys := uploadedKeys1,
                        subscribedKeys := subscribedKeys1 } }
        | _, _ => none

/-- Function `CloudServer::OnSendUploadedKeyToServers` (CloudServer.cpp:1411-1429). -/
def OnSendUploadedKeyToServers (s : State) (guid : Nat) (cloudKey : CloudKey) : Option State :=
  match GetIndexFromKey RemoteServerComp guid s.remoteServers with
  | none => none
  | some (index, objectExists) =>
    if !objectExists then
      some s
    else
      match s.remoteServers.get? index with
      | none => none
      | some remoteServer =>
        match insertKeys [cloudKey] remoteServer.uploadedKeys with
        | none => none
        | some uploadedKeys1 =>
          some { s with
                  remoteServers := s.remoteServers.set index
                    { remoteServer with uploadedKeys := uploadedKeys1 } }

/-- Function `CloudServer::OnSendSubscribedKeyToServers` (CloudServer.cpp:1431-1451). -/
def OnSendSubscribedKeyToServers (s : State) (guid : Nat) (cloudKey : CloudKey) : Option State :=
  match GetIndexFromKey RemoteServerComp guid s.remoteServers with
  | none => none
  | some (index, objectExists) =>
    if !objectExists then
      some s
    else
      match s.remoteServers.get? index with
      | none => none
      | some remoteServer =>
        match insertKeys [cloudKey] remoteServer.subscribedKeys with
        | none => none
        | some subscribedKeys1 =>
          some { s with
                  remoteServers := s.remoteServers.set index
                    { remoteServer with subscribedKeys := subscribedKeys1 } }

/-- Lookup and `RemoveAtIndex` of one key, as in `OnRemoveUploadedKeyFromServers` and
`OnRemoveSubscribedKeyFromServers` (CloudServer.cpp:1465-1468, 1483-1487). -/
def removeKey (cloudKey : CloudKey) (keys : List CloudKey) : Option (List CloudKey) :=
  match GetIndexFromKey CloudKeyComp cloudKey keys with
  | none => none
  | some (insertionIndex, alreadyHasKey) =>
    if alreadyHasKey then some (RemoveAtIndex insertionIndex keys) else some keys

/-- Function `CloudServer::OnRemoveUploadedKeyFromServers` (CloudServer.cpp:1453-1469). -/
def OnRemoveUploadedKeyFromServers (s : State) (guid : Nat) (cloudKey : CloudKey) :
    Option State :=
  match GetIndexFromKey RemoteServerComp guid s.remoteServers with
  | none => none
  | some (index, objectExists) =>
    if !objectExists then
      some s
    else
      match s.remoteServers.get? index with
      | none => none
      | some remoteServer =>
        match removeKey cloudKey remoteServer.uploadedKeys with
        | none => none
        | some uploadedKeys1 =>
          some { s with
                  remoteServers := s.remoteServers.set index
                    { remoteServer with uploadedKeys := uploadedKeys1 } }

/-- Function `CloudServer::OnRemoveSubscribedKeyFromServers` (CloudServer.cpp:1471-1488). -/
def OnRemoveSubscribedKeyFromServers (s : State) (guid : Nat) (cloudKey : CloudKey) :
    Option State :=
  match GetIndexFromKey RemoteServerComp guid s.remoteServers with
  | none => none
  | some (index, objectExists) =>
    if !objectExists then
      some s
    else
      match s.remoteServers.get? index with
      | none => none
      | some remoteServer =>
        match removeKey cloudKey remoteServer.subscribedKeys with
        | none => none
        | some subscribedKeys1 =>
          some { s with
                  remoteServers := s.remoteServers.set index
                    { remoteServer with subscribedKeys := subscribedKeys1 } }

/-- Function `CloudServer::OnServerDataChanged` (CloudServer.cpp:1490-1524) for a packet
from `guid` that carries `wasUpdated` and `row`. -/
def OnServerDataChanged (s : State) (guid : Nat) (wasUpdated : Bool) (row : CloudQueryRow) :
    Option State :=
  match GetIndexFromKey RemoteServerComp guid s.remoteServers with
  | none => none
  | some (_, objectExists) =>
    if !objectExists then
      some s
    else
      -- Find everyone that cares about this change and relay
      match GetIndexFromKey KeyDataListComp row.key s.dataRepository with
      | none => none
      | some (dataRepositoryIndex, dataRepositoryExists) =>
        if !dataRepositoryExists then
          some s
        else
          match s.dataRepository.get? dataRepositoryIndex with
          | none => none
          | some cloudDataList =>
            match GetIndexFromKey KeyDataPtrComp row.clientGUID cloudDataList.keyData with
            | none => none
            | some (keyDataListIndex, keyDataListExists) =>
              if keyDataListExists then
                match cloudDataList.keyData.get? keyDataListIndex with
                | none => none
                | some cloudData =>
                  some (NotifyClientSubscribersOfDataChangeRow
                    (NotifyClientSubscribersOfDataChangeRow s row cloudData.specificSubscribers
                      wasUpdated)
                    row cloudDataList.nonSpecificSubscribers wasUpdated)
              else
                some (NotifyClientSubscribersOfDataChangeRow s row
                  cloudDataList.nonSpecificSubscribers wasUpdated)

/-! ### Configuration and shutdown -/

/-- Function `CloudServer::SetMaxBytesPerDownload` (CloudServer.cpp:167-170). -/
def SetMaxBytesPerDownload (s : State) (bytes : Nat) : State :=
  { s with maxBytesPerDowload := bytes }

/-- Modelled from the spec: member `List::GetIndexOf` of DS_List.h, which is not part of
the sources.  The position of the first element equal to `input`; when there is none,
the value `(unsigned int) -1` that `AddQueryFilter` compares the result with, so that
insertion is de-duplicated by identity as the specification says. -/
def ListGetIndexOf (l : List Nat) (input : Nat) : Nat :=
  if input ∈ l then l.indexOf input else 4294967295

/-- Function `CloudServer::AddQueryFilter` (CloudServer.cpp:1667-1672); the constant is
`(unsigned int) -1`. -/
def AddQueryFilter (s : State) (filter : Nat) : State :=
  if ListGetIndexOf s.queryFilters filter ≠ 4294967295 then s
  else { s with queryFilters := s.queryFilters ++ [filter] }

/-- Function `CloudServer::RemoveQueryFilter` (CloudServer.cpp:1674-1679); the constant
is `(size_t) -1`. -/
def RemoveQueryFilter (s : State) (filter : Nat) : State :=
  let index := ListGetIndexOf s.queryFilters filter
  if index ≠ 18446744073709551615 then
    { s with queryFilters := ListRemoveAtIndex s.queryFilters index }
  else s

/-- Function `CloudServer::RemoveAllQueryFilters` (CloudServer.cpp:1681-1684). -/
def RemoveAllQueryFilters (s : State) : State :=
  { s with queryFilters := [] }

/-- Function `CloudServer::Clear` (CloudServer.cpp:1000-1039), also run by
`OnRakPeerShutdown`. -/
def Clear (s : State) : State :=
  { s with dataRepository := [], remoteServers := [], getRequests := [], remoteSystems := [] }

/-! ### Reachable states -/

/-- The states that the server reaches from its initial state through the public
functions and packet handlers of `CloudServer`, each with arbitrary arguments; a call
that reads outside of a list (result `none`) reaches no state. -/
inductive Reachable (env : Env) : State → Prop where
  | init : Reachable env State.init
  | setMaxUploadBytesPerClient {s : State} (bytes : Nat) :
      Reachable env s → Reachable env (SetMaxUploadBytesPerClient s bytes)
  | setMaxBytesPerDownload {s : State} (bytes : Nat) :
      Reachable env s → Reachable env (SetMaxBytesPerDownload s bytes)
  | addQueryFilter {s : State} (filter : Nat) :
      Reachable env s → Reachable env (AddQueryFilter s filter)
  | removeQueryFilter {s : State} (filter : Nat) :
      Reachable env s → Reachable env (RemoveQueryFilter s filter)
  | removeAllQueryFilters {s : State} :
      Reachable env s → Reachable env (RemoveAllQueryFilters s)
  | clear {s : State} : Reachable env s → Reachable env (Clear s)
  | update {s s1 : State} : Reachable env s → Update s = some s1 → Reachable env s1
  | addServer {s s1 : State} (systemIdentifier : Nat) (cs : ConnectionState) :
      Reachable env s → AddServer s systemIdentifier cs = some s1 → Reachable env s1
  | removeServer {s s1 : State} (systemAddress : Nat) :
      Reachable env s → RemoveServer s systemAddress = some s1 → Reachable env s1
  | onClosedConnection {s s1 : State} (rakNetGUID : Nat) :
      Reachable env s → OnClosedConnection s rakNetGUID = some s1 → Reachable env s1
  | onPostRequest {s s1 : State} (guid systemAddress : Nat) (key : CloudKey) (data : List Nat) :
      Reachable env s → OnPostRequest env s guid systemAddress key data = some s1 →
      Reachable env s1
  | onReleaseRequest {s s1 : State} (guid systemAddress : Nat) (cloudKeys : List CloudKey) :
      Reachable env s → OnReleaseRequest env s guid systemAddress cloudKeys = some s1 →
      Reachable env s1
  | onGetRequest {s s1 : State} (guid systemAddress : Nat) (cloudQuery : CloudQuery)
      (specificSystems : List Nat) (time : Nat) :
      Reachable env s →
      OnGetRequest env s guid systemAddress cloudQuery specificSystems time = some s1 →
      Reachable env s1
  | onUnsubscribeRequest {s s1 : State} (guid systemAddress : Nat) (cloudKeys : List CloudKey)
      (specificSystems : List Nat) :
      Reachable env s →
      OnUnsubscribeRequest env s guid systemAddress cloudKeys specificSystems = some s1 →
      Reachable env s1
  | onServerToServerGetRequest {s s1 : State} (guid : Nat)
      (cloudQueryWithAddresses : CloudQueryWithAddresses) (requestId : Nat) :
      Reachable env s →
      OnServerToServerGetRequest s guid cloudQueryWithAddresses requestId = some s1 →
      Reachable env s1
  | onServerToServerGetResponse {s s1 : State} (guid requestId : Nat)
      (rows : List CloudQueryRow) :
      Reachable env s → OnServerToServerGetResponse s guid requestId rows = some s1 →
      Reachable env s1
  | onSendUploadedAndSubscribedKeysToServer {s s1 : State} (guid : Nat)
      (uploaded subscribed : List CloudKey) :
      Reachable env s →
      OnSendUploadedAndSubscribedKeysToServer s guid uploaded subscribed = some s1 →
      Reachable env s1
  | onSendUploadedKeyToServers {s s1 : State} (guid : Nat) (cloudKey : CloudKey) :
      Reachable env s → OnSendUploadedKeyToServers s guid cloudKey = some s1 →
      Reachable env s1
  | onSendSubscribedKeyToServers {s s1 : State} (guid : Nat) (cloudKey : CloudKey) :
      Reachable env s → OnSendSubscribedKeyToServers s guid cloudKey = some s1 →
      Reachable env s1
  | onRemoveUploadedKeyFromServers {s s1 : State} (guid : Nat) (cloudKey : CloudKey) :
      Reachable env s → OnRemoveUploadedKeyFromServers s guid cloudKey = some s1 →
      Reachable env s1
  | onRemoveSubscribedKeyFromServers {s s1 : State} (guid : Nat) (cloudKey : CloudKey) :
      Reachable env s → OnRemoveSubscribedKeyFromServers s guid cloudKey = some s1 →
      Reachable env s1
  | onServerDataChanged {s s1 : State} (guid : Nat) (wasUpdated : Bool) (row : CloudQueryRow) :
      Reachable env s → OnServerDataChanged s guid wasUpdated row = some s1 →
      Reachable env s1

/-- A get request is outstanding in the sense of the specification: it has at least
one remote response slot, and at least one slot with `gotResult = false`. -/
def GetRequest.Outstanding (getRequest : GetRequest) : Prop :=
  1 ≤ getRequest.remoteServerResponses.length ∧
    ∃ slot, slot ∈ getRequest.remoteServerResponses ∧ slot.gotResult = false

/-! ### Reference definitions used by the statements -/

/-- The rows of a local query result, in the order of the two result lists. -/
def localRowsOf (cloudDataResultList : List CloudData) (cloudKeyResultList : List CloudKey) :
    List CloudQueryRow :=
  List.zipWith rowOfCloudData cloudDataResultList cloudKeyResultList

/-- The rows that the local query of a request produces on a state. -/
def localQueryRows (s : State) (queryWithAddresses : CloudQueryWithAddresses) :
    List CloudQueryRow :=
  match ProcessCloudQueryWithAddresses s queryWithAddresses with
  | some (cloudDataResultList, cloudKeyResultList) =>
    localRowsOf cloudDataResultList cloudKeyResultList
  | none => []

/-- The rows of the remote responses, in the order of `remoteServerResponses`. -/
def remoteRowsOf : List BufferedGetResponseFromServer → List CloudQueryRow
  | [] => []
  | response :: responses => response.rowsReturned ++ remoteRowsOf responses

/-- The page of `all` that a query asks for: the rows from `startingRowIndex` on, cut
to `maxRowsToReturn` rows unless that is zero. -/
def pageOf (cloudQuery : CloudQuery) (all : List CloudQueryRow) : List CloudQueryRow :=
  if cloudQuery.maxRowsToReturn = 0 then all.drop cloudQuery.startingRowIndex
  else (all.drop cloudQuery.startingRowIndex).take cloudQuery.maxRowsToReturn

/-- Reference query of the specification, rows of one key: the key contributes rows
only if the repository contains a CloudDataList for it with `uploaderCount > 0`; then
one row for every CloudData of that list if `specificSystems` is empty, otherwise one
row for every listed system that has a CloudData in that list. -/
def referenceRowsOfKey (dataRepository : List CloudDataList) (specificSystems : List Nat)
    (key : CloudKey) : List (CloudData × CloudKey) :=
  match dataRepository.find? (fun cloudDataList => cloudDataList.key == key) with
  | none => []
  | some cloudDataList =>
    if cloudDataList.uploaderCount > 0 then
      if specificSystems.length = 0 then
        cloudDataList.keyData.map (fun cloudData => (cloudData, key))
      else
        specificSystems.filterMap (fun system =>
          (cloudDataList.keyData.find? (fun cloudData => cloudData.clientGUID == system)).map
            (fun cloudData => (cloudData, key)))
    else []

/-- Reference query of the specification: the concatenation, over the keys of the
query in query order, of the rows of each key. -/
def referenceQueryRows (dataRepository : List CloudDataList) (specificSystems : List Nat) :
    List CloudKey → List (CloudData × CloudKey)
  | [] => []
  | key :: keys =>
    referenceRowsOfKey dataRepository specificSystems key
      ++ referenceQueryRows dataRepository specificSystems keys

/-- Reference query of the specification, as the two result lists. -/
def referenceQuery (s : State) (queryWithAddresses : CloudQueryWithAddresses) :
    List CloudData × List CloudKey :=
  (referenceQueryRows s.dataRepository queryWithAddresses.specificSystems
    queryWithAddresses.cloudQuery.keys).unzip

/-- Environment in which every filter accepts every request, the server has GUID
`1000`, and a client is reached at the address it sends from. -/
def Env.acceptAll : Env :=
  { myGUID := 1000
    serverAddressOfNewData := fun address => address
    serverAddressOfExistingData := fun address => address
    filterOnPostRequest := fun _ _ _ _ _ _ => true
    filterOnReleaseRequest := fun _ _ _ _ => true
    filterOnGetRequest := fun _ _ _ _ _ => true
    filterOnUnsubscribeRequest := fun _ _ _ _ _ => true }

/-- Query for a single key with an empty `specificSystems` list, no row limit and no
subscription. -/
def queryOfKey (key : CloudKey) : CloudQueryWithAddresses :=
  { cloudQuery := { keys := [key], maxRowsToReturn := 0, startingRowIndex := 0,
                    subscribeToResults := false },
    specificSystems := [] }

/-- Owner and payload of each row of the local query for `key` on a state that a
sequence of handlers has produced. -/
def ownersAndPayloads (s : Option State) (key : CloudKey) : Option (List (Nat × List Nat)) :=
  s.bind (fun state =>
    (ProcessCloudQueryWithAddresses state (queryOfKey key)).map
      (fun result => result.1.map (fun cloudData => (cloudData.clientGUID, cloudData.data))))

/-! ### Observations and concrete inputs used by the statements -/

/-- The keys that client `guid` is recorded to have uploaded, if it is registered. -/
def uploadedKeysOf (s : State) (guid : Nat) : Option (List CloudKey) :=
  (HashGetIndexOf s.remoteSystems guid).map (fun client => client.uploadedKeys)

/-- The byte count recorded for client `guid`, if it is registered. -/
def uploadedBytesOf (s : State) (guid : Nat) : Option Nat :=
  (HashGetIndexOf s.remoteSystems guid).map (fun client => client.uploadedBytes)

/-- For every CloudDataList of the repository: its key, and owner and payload length
of each of its CloudData entries. -/
def storedLengths (s : State) : List (CloudKey × List (Nat × Nat)) :=
  s.dataRepository.map (fun cloudDataList =>
    (cloudDataList.key,
      cloudDataList.keyData.map (fun cloudData =>
        (cloudData.clientGUID, cloudData.dataLengthBytes))))

/-- For every CloudDataList of the repository: its key and its non-specific subscribers. -/
def nonSpecificSubscribersByKey (s : State) : List (CloudKey × List Nat) :=
  s.dataRepository.map (fun cloudDataList =>
    (cloudDataList.key, cloudDataList.nonSpecificSubscribers))

/-- The subscription notifications among a log of sends: destination, `wasUpdated`
and payload of the row. -/
def notificationsIn : List Sent → List (Nat × Bool × List Nat)
  | [] => []
  | ⟨destination, Message.CloudSubscriptionNotification wasUpdated row⟩ :: rest =>
    (destination, wasUpdated, row.data) :: notificationsIn rest
  | _ :: rest => notificationsIn rest

/-- State with a repository of two lists in ascending key order, `(1,0)` holding the
payload `[7]` of client 1 and `(2,0)` holding the payload `[8]` of client 1; it is the
state that the two posts of client 1 produce on the empty server. -/
def twoKeysState : State :=
  { State.init with
      dataRepository :=
        [ { uploaderCount := 1, subscriberCount := 0, key := ⟨1, 0⟩,
            keyData := [ { dataLengthBytes := 1, data := [7], isUploaded := true,
                           serverSystemAddress := 11, clientSystemAddress := 11,
                           serverGUID := 1000, clientGUID := 1, specificSubscribers := [] } ],
            nonSpecificSubscribers := [] },
          { uploaderCount := 1, subscriberCount := 0, key := ⟨2, 0⟩,
            keyData := [ { dataLengthBytes := 1, data := [8], isUploaded := true,
                           serverSystemAddress := 11, clientSystemAddress := 11,
                           serverGUID := 1000, clientGUID := 1, specificSubscribers := [] } ],
            nonSpecificSubscribers := [] } ],
      remoteSystems :=
        [ (1, { uploadedKeys := [⟨1, 0⟩, ⟨2, 0⟩], subscribedKeys := [], uploadedBytes := 2 }) ] }

/-- Row with payload `data` that a remote server returned for key `(2,0)`, uploaded by
client 20 of the server with GUID 2000. -/
def remoteRow (data : List Nat) : CloudQueryRow :=
  { key := ⟨2, 0⟩, data := data, length := data.length, serverSystemAddress := 21,
    clientSystemAddress := 22, serverGUID := 2000, clientGUID := 20 }

/-- Get request of client 3 for key `(2,0)` that asks for at most two rows from row 1
on, with one row buffered from server 5 and two rows buffered from server 6. -/
def pagedRequest : GetRequest :=
  { cloudQueryWithAddresses :=
      { cloudQuery := { keys := [⟨2, 0⟩], maxRowsToReturn := 2, startingRowIndex := 1,
                        subscribeToResults := false },
        specificSystems := [] },
    requestStartTime := 0, requestId := 0, requestingClient := 3,
    remoteServerResponses :=
      [ { serverAddress := 5, rowsReturned := [remoteRow [50]], gotResult := true },
        { serverAddress := 6, rowsReturned := [remoteRow [60], remoteRow [61]],
          gotResult := true } ] }

/-- Server with `maxUploadBytesPerClient = 10` after two accepted posts under key
`(1,0)`: 6 bytes by client 1, then 1 byte by client 2. -/
def quotaTenAfterTwoPosts : Option State :=
  (OnPostRequest Env.acceptAll (SetMaxUploadBytesPerClient State.init 10) 1 11 ⟨1, 0⟩
    [1, 2, 3, 4, 5, 6]).bind (fun s1 =>
      OnPostRequest Env.acceptAll s1 2 12 ⟨1, 0⟩ [8])

/-- Server of `quotaTenAfterTwoPosts` after client 1 has posted 6 bytes under key
`(1,0)` once more. -/
def quotaTenAfterRepost : Option State :=
  quotaTenAfterTwoPosts.bind (fun s2 =>
    OnPostRequest Env.acceptAll s2 1 11 ⟨1, 0⟩ [1, 2, 3, 4, 5, 7])

/-- Server with `maxUploadBytesPerClient = 1000` after client 1 has posted 600 bytes
under key `(1,0)`. -/
def quotaThousandAfterFirstPost : Option State :=
  OnPostRequest Env.acceptAll (SetMaxUploadBytesPerClient State.init 1000) 1 11 ⟨1, 0⟩
    (List.replicate 600 0)

/-- Server of `quotaThousandAfterFirstPost` after client 1 has posted 500 bytes under
key `(2,0)`. -/
def quotaThousandAfterSecondPost : Option State :=
  quotaThousandAfterFirstPost.bind (fun s1 =>
    OnPostRequest Env.acceptAll s1 1 11 ⟨2, 0⟩ (List.replicate 500 0))

/-- Registry with the single remote server 5, which has completed the handshake and
advertises the uploaded keys `(1,0)` and `(2,0)`. -/
def oneServerRegistry : List RemoteServer :=
  [ { serverAddress := 5, subscribedKeys := [], uploadedKeys := [⟨1, 0⟩, ⟨2, 0⟩],
      workingFlag := false, gotSubscribedAndUploadedKeys := true } ]

/-! ### Further observations and runs used by the statements -/

/-- Query for the keys `keys` without row limit that subscribes to the results. -/
def subscribingQuery (keys : List CloudKey) : CloudQuery :=
  { keys := keys, maxRowsToReturn := 0, startingRowIndex := 0, subscribeToResults := true }

/-- Query for the keys `keys` without row limit and without subscription. -/
def plainQuery (keys : List CloudKey) : CloudQuery :=
  { keys := keys, maxRowsToReturn := 0, startingRowIndex := 0, subscribeToResults := false }

/-- The `CloudGetResponse` messages among a log of sends: destination and row count. -/
def getResponsesIn : List Sent → List (Nat × Nat)
  | [] => []
  | ⟨destination, Message.CloudGetResponse _ numRows _⟩ :: rest =>
    (destination, numRows) :: getResponsesIn rest
  | _ :: rest => getResponsesIn rest

/-- The `ProcessGetRequest` messages among a log of sends: destination and request id. -/
def processGetRequestsIn : List Sent → List (Nat × Nat)
  | [] => []
  | ⟨destination, Message.ProcessGetRequest _ requestId⟩ :: rest =>
    (destination, requestId) :: processGetRequestsIn rest
  | _ :: rest => processGetRequestsIn rest

/-- The `RemoveUploadedKey` messages among a log of sends: destination and key. -/
def uploadRetractionsIn : List Sent → List (Nat × CloudKey)
  | [] => []
  | ⟨destination, Message.RemoveUploadedKey key⟩ :: rest =>
    (destination, key) :: uploadRetractionsIn rest
  | _ :: rest => uploadRetractionsIn rest

/-- The `DataChanged` messages among a log of sends: destination, `wasUpdated` and key
of the row. -/
def dataChangedIn : List Sent → List (Nat × Bool × CloudKey)
  | [] => []
  | ⟨destination, Message.DataChanged wasUpdated row⟩ :: rest =>
    (destination, wasUpdated, row.key) :: dataChangedIn rest
  | _ :: rest => dataChangedIn rest

/-- The `UploadedAndSubscribedKeys` messages among a log of sends: destination, the
uploaded keys and the subscribed keys. -/
def snapshotsIn : List Sent → List (Nat × List CloudKey × List CloudKey)
  | [] => []
  | ⟨destination, Message.UploadedAndSubscribedKeys _ uploaded _ subscribed⟩ :: rest =>
    (destination, uploaded, subscribed) :: snapshotsIn rest
  | _ :: rest => snapshotsIn rest

/-- For every outstanding GetRequest: its id and, for each of its slots, the server
and `gotResult`. -/
def slotsOf (s : State) : List (Nat × List (Nat × Bool)) :=
  s.getRequests.map (fun getRequest =>
    (getRequest.requestId,
      getRequest.remoteServerResponses.map (fun slot => (slot.serverAddress, slot.gotResult))))

/-- The GUIDs of the registered remote servers. -/
def registeredServers (s : State) : List Nat :=
  s.remoteServers.map (fun remoteServer => remoteServer.serverAddress)

/-- The subscriptions of one CloudDataList: its key, `subscriberCount`, the
non-specific subscribers, and owner and specific subscribers of each CloudData. -/
structure SubscriptionView where
  key : CloudKey
  subscriberCount : Nat
  nonSpecificSubscribers : List Nat
  specificSubscribers : List (Nat × List Nat)
deriving DecidableEq, Repr

/-- The subscriptions of every CloudDataList of the repository. -/
def subscriptionsByKey (s : State) : List SubscriptionView :=
  s.dataRepository.map (fun cloudDataList =>
    { key := cloudDataList.key, subscriberCount := cloudDataList.subscriberCount,
      nonSpecificSubscribers := cloudDataList.nonSpecificSubscribers,
      specificSubscribers :=
        cloudDataList.keyData.map (fun cloudData =>
          (cloudData.clientGUID, cloudData.specificSubscribers)) })

/-- The uploads of one CloudDataList: its key, `uploaderCount`, and owner, `isUploaded`
and `dataLengthBytes` of each CloudData. -/
structure UploadView where
  key : CloudKey
  uploaderCount : Nat
  entries : List (Nat × Bool × Nat)
deriving DecidableEq, Repr

/-- The uploads of every CloudDataList of the repository. -/
def uploadsByKey (s : State) : List UploadView :=
  s.dataRepository.map (fun cloudDataList =>
    { key := cloudDataList.key, uploaderCount := cloudDataList.uploaderCount,
      entries :=
        cloudDataList.keyData.map (fun cloudData =>
          (cloudData.clientGUID, cloudData.isUploaded, cloudData.dataLengthBytes)) })

/-- For every CloudDataList of the repository: its key, `uploaderCount` and
`subscriberCount`. -/
def countsByKey (s : State) : List (CloudKey × Nat × Nat) :=
  s.dataRepository.map (fun cloudDataList =>
    (cloudDataList.key, cloudDataList.uploaderCount, cloudDataList.subscriberCount))

/-- The subscribed keys recorded for client `guid`, each with the owners it names, if
the client is registered. -/
def subscribedKeysOf (s : State) (guid : Nat) : Option (List (CloudKey × List Nat)) :=
  (HashGetIndexOf s.remoteSystems guid).map (fun client =>
    client.subscribedKeys.map (fun keySubscriberId =>
      (keySubscriberId.key, keySubscriberId.specificSystemsSubscribedTo)))

/-- The state with the log of sends emptied, to observe the sends of the next call. -/
def State.withoutSent (s : State) : State :=
  { s with sent := [] }

/-- Server on which the remote server 5 has been added and has then advertised the
uploaded keys `(1,0)` and `(2,0)` in its handshake message. -/
def serverFiveAdvertised : Option State :=
  (AddServer State.init 5 ConnectionState.IS_CONNECTED).bind (fun s1 =>
    OnSendUploadedAndSubscribedKeysToServer s1 5 [⟨1, 0⟩, ⟨2, 0⟩] [])

/-- Server of `serverFiveAdvertised` after the get request of client 3 for key `(1,0)`. -/
def serverFiveAdvertisedAfterGet : Option State :=
  serverFiveAdvertised.bind (fun s2 =>
    OnGetRequest Env.acceptAll s2 3 13 (plainQuery [⟨1, 0⟩]) [] 0)

/-- Server on which the remote servers 5 and 6 have been added, neither having sent
its handshake message, after the get request of client 3 for key `(1,0)`. -/
def twoServersAfterGet : Option State :=
  (AddServer State.init 5 ConnectionState.IS_CONNECTED).bind (fun s1 =>
    (AddServer s1 6 ConnectionState.IS_CONNECTED).bind (fun s2 =>
      OnGetRequest Env.acceptAll s2 3 13 (plainQuery [⟨1, 0⟩]) [] 0))

/-- Server of `twoServersAfterGet` after the response of server 6 and then the
response of server 5 to request 0, both without rows. -/
def twoServersAfterResponses : Option State :=
  twoServersAfterGet.bind (fun s3 =>
    (OnServerToServerGetResponse s3 6 0 []).bind (fun s4 =>
      OnServerToServerGetResponse s4 5 0 []))

/-- Server of `twoServersAfterGet` after the connection to server 5 has closed. -/
def twoServersAfterClose : Option State :=
  twoServersAfterGet.bind (fun s3 => OnClosedConnection s3 5)

/-- Empty server after client 3 has subscribed to key `(1,0)` without naming owners. -/
def subscribedToOneKey : Option State :=
  OnGetRequest Env.acceptAll State.init 3 13 (subscribingQuery [⟨1, 0⟩]) [] 0

/-- Empty server after client 3 has subscribed to the keys `(2,0)` and `(1,0)`, in the
order of the request, without naming owners. -/
def subscribedToTwoKeys : Option State :=
  OnGetRequest Env.acceptAll State.init 3 13 (subscribingQuery [⟨2, 0⟩, ⟨1, 0⟩]) [] 0

/-- Empty server after client 3 has subscribed to the owners 7 and 8 of key `(1,0)`. -/
def subscribedToTwoOwners : Option State :=
  OnGetRequest Env.acceptAll State.init 3 13 (subscribingQuery [⟨1, 0⟩]) [7, 8] 0

/-- Server with `maxUploadBytesPerClient = 10` after three posts: client 1 posts 6
bytes under key `(2,0)`, client 2 posts 1 byte under key `(1,0)`, and client 1 posts 6
bytes under key `(1,0)`, which exceeds its quota. -/
def quotaTenAfterForeignKeyPost : Option State :=
  (OnPostRequest Env.acceptAll (SetMaxUploadBytesPerClient State.init 10) 1 11 ⟨2, 0⟩
    [1, 2, 3, 4, 5, 6]).bind (fun s1 =>
      (OnPostRequest Env.acceptAll s1 2 12 ⟨1, 0⟩ [8]).bind (fun s2 =>
        OnPostRequest Env.acceptAll s2 1 11 ⟨1, 0⟩ [1, 2, 3, 4, 5, 6]))

/-- Empty server after client 3 has subscribed to owner 1 of key `(1,0)` and client 1
has then posted `[9]` under that key. -/
def postIntoPlaceholder : Option State :=
  (OnGetRequest Env.acceptAll State.init 3 13 (subscribingQuery [⟨1, 0⟩]) [1] 0).bind
    (fun s1 => OnPostRequest Env.acceptAll s1 1 11 ⟨1, 0⟩ [9])

/-- Empty server after client 1 has posted under key `(2,0)` and under key `(1,0)` and
client 2 has then posted under key `(2,0)`. -/
def threePosts : Option State :=
  (OnPostRequest Env.acceptAll State.init 1 11 ⟨2, 0⟩ [7]).bind (fun s1 =>
    (OnPostRequest Env.acceptAll s1 1 11 ⟨1, 0⟩ [8]).bind (fun s2 =>
      OnPostRequest Env.acceptAll s2 2 12 ⟨2, 0⟩ [9]))

/-- Empty server after three subscribing requests of client 3: to owner 7 of key
`(2,0)`, to key `(1,0)` without owners, and to key `(2,0)` without owners. -/
def specificThenNonSpecific : Option State :=
  (OnGetRequest Env.acceptAll State.init 3 13 (subscribingQuery [⟨2, 0⟩]) [7] 0).bind
    (fun s1 =>
      (OnGetRequest Env.acceptAll s1 3 13 (subscribingQuery [⟨1, 0⟩]) [] 0).bind (fun s2 =>
        OnGetRequest Env.acceptAll s2 3 13 (subscribingQuery [⟨2, 0⟩]) [] 0))

/-- Registry with the single remote server 5, which has completed the handshake and
has subscribed to the keys `(1,0)` and `(2,0)`. -/
def oneSubscribedServerRegistry : List RemoteServer :=
  [ { serverAddress := 5, subscribedKeys := [⟨1, 0⟩, ⟨2, 0⟩], uploadedKeys := [],
      workingFlag := false, gotSubscribedAndUploadedKeys := true } ]

/-- CloudData of client 1 with the payload `[9]`. -/
def changedData : CloudData :=
  { dataLengthBytes := 1, data := [9], isUploaded := true, serverSystemAddress := 0,
    clientSystemAddress := 11, serverGUID := 1000, clientGUID := 1, specificSubscribers := [] }

/-- Row for `key` with the payload `[9]` of client 1 of the server with GUID 2000. -/
def changedRow (key : CloudKey) : CloudQueryRow :=
  { key := key, data := [9], length := 1, serverSystemAddress := 0, clientSystemAddress := 21,
    serverGUID := 2000, clientGUID := 1 }

/-- Server on which the remote server 5 has been added and client 3 has then
subscribed to the keys `(2,0)` and `(1,0)` without naming owners. -/
def oneServerTwoSubscriptions : Option State :=
  (AddServer State.init 5 ConnectionState.IS_CONNECTED).bind (fun s1 =>
    OnGetRequest Env.acceptAll s1 3 13 (subscribingQuery [⟨2, 0⟩, ⟨1, 0⟩]) [] 0)

/-- Server on which the remote server 5 has been added, client 1 has posted `[9]`
under key `(1,0)`, and client 3 has subscribed to owner 1 of that key. -/
def uploadWithSpecificSubscriber : Option State :=
  (AddServer State.init 5 ConnectionState.IS_CONNECTED).bind (fun s1 =>
    (OnPostRequest Env.acceptAll s1 1 11 ⟨1, 0⟩ [9]).bind (fun s2 =>
      OnGetRequest Env.acceptAll s2 3 13 (subscribingQuery [⟨1, 0⟩]) [1] 0))

/-- Server of `uploadWithSpecificSubscriber` after client 1 has released key `(1,0)`;
the log of sends holds the sends of the release only. -/
def uploadWithSpecificSubscriberReleased : Option State :=
  uploadWithSpecificSubscriber.bind (fun s3 =>
    OnReleaseRequest Env.acceptAll s3.withoutSent 1 11 [⟨1, 0⟩])

/-- Server of `subscribedToOneKey` after the remote server 5 has been added; the log of
sends holds the sends of `AddServer` only. -/
def subscribedThenServerAdded : Option State :=
  subscribedToOneKey.bind (fun s1 =>
    AddServer s1.withoutSent 5 ConnectionState.IS_CONNECTED)

/-- Server on which the remote server 5 has been added. -/
def oneServerState : State :=
  (AddServer State.init 5 ConnectionState.IS_CONNECTED).getD State.init

/-- Server on which the remote servers 5 and 6 have been added. -/
def twoServersState : State :=
  (AddServer oneServerState 6 ConnectionState.IS_CONNECTED).getD State.init

/-- Server of `twoServersState` after the get request of client 3 for key `(1,0)`, which
is sent to both remote servers. -/
def twoServersAfterGetState : State :=
  (OnGetRequest Env.acceptAll twoServersState 3 13 (plainQuery [⟨1, 0⟩]) [] 0).getD State.init

/-- Environment of `Env.acceptAll` in which the filter with identity 2 answers `false` to
every request and every other filter answers `true`. -/
def Env.rejectSecond : Env :=
  { Env.acceptAll with
    filterOnPostRequest := fun filter _ _ _ _ _ => filter != 2
    filterOnReleaseRequest := fun filter _ _ _ => filter != 2
    filterOnGetRequest := fun filter _ _ _ _ => filter != 2
    filterOnUnsubscribeRequest := fun filter _ _ _ _ => filter != 2 }

/-- Server of `twoKeysState` after the filters 1, 2 and 3 have been added, in this
order. -/
def filteredTwoKeysState : State :=
  AddQueryFilter (AddQueryFilter (AddQueryFilter twoKeysState 1) 2) 3

/-- The state after the calls `AddQueryFilter` with the filters of `filters`, in order. -/
def addQueryFilters (s : State) (filters : List Nat) : State :=
  filters.foldl AddQueryFilter s

/-- Empty server after the clients 1, 2 and 3 have posted under key `(1,0)`, in this
order. -/
def threeOwners : Option State :=
  (OnPostRequest Env.acceptAll State.init 1 11 ⟨1, 0⟩ [7]).bind (fun s1 =>
    (OnPostRequest Env.acceptAll s1 2 12 ⟨1, 0⟩ [8]).bind (fun s2 =>
      OnPostRequest Env.acceptAll s2 3 13 ⟨1, 0⟩ [9]))

/-- State of `threeOwners`. -/
def threeOwnersState : State :=
  threeOwners.getD State.init

/-- The owners of the rows that the local query `queryWithAddresses` produces on a state
that a sequence of handlers has produced. -/
def rowOwners (s : Option State) (queryWithAddresses : CloudQueryWithAddresses) :
    Option (List Nat) :=
  s.bind (fun state =>
    (ProcessCloudQueryWithAddresses state queryWithAddresses).map
      (fun result => result.1.map (fun cloudData => cloudData.clientGUID)))

/-- The keys of the rows of a local query, with the rows of each key: the lists
`cloudDataResultList` and `cloudKeyResultList` that the groups `groups` of the keys
`keys` make up, group after group. -/
def rowsOfGroups : List CloudKey → List (List CloudData) → List CloudData × List CloudKey
  | key :: keys, group :: groups =>
    (group ++ (rowsOfGroups keys groups).1,
      List.replicate group.length key ++ (rowsOfGroups keys groups).2)
  | _, _ => ([], [])

/-- The owners of the entries of a `keyData` list, in the order of the list. -/
def ownersOf (keyData : List CloudData) : List Nat :=
  keyData.map (fun cloudData => cloudData.clientGUID)

/-- The calls that change the server: the public functions of `CloudServer` and the
handlers of the packets it receives, with their arguments. -/
inductive Call where
  | setMaxUploadBytesPerClient (bytes : Nat)
  | setMaxBytesPerDownload (bytes : Nat)
  | addQueryFilter (filter : Nat)
  | removeQueryFilter (filter : Nat)
  | removeAllQueryFilters
  | clear
  | update
  | addServer (systemIdentifier : Nat) (cs : ConnectionState)
  | removeServer (systemAddress : Nat)
  | onClosedConnection (rakNetGUID : Nat)
  | onPostRequest (guid systemAddress : Nat) (key : CloudKey) (data : List Nat)
  | onReleaseRequest (guid systemAddress : Nat) (cloudKeys : List CloudKey)
  | onGetRequest (guid systemAddress : Nat) (cloudQuery : CloudQuery)
      (specificSystems : List Nat) (time : Nat)
  | onUnsubscribeRequest (guid systemAddress : Nat) (cloudKeys : List CloudKey)
      (specificSystems : List Nat)
  | onServerToServerGetRequest (guid : Nat) (cloudQueryWithAddresses : CloudQueryWithAddresses)
      (requestId : Nat)
  | onServerToServerGetResponse (guid requestId : Nat) (rows : List CloudQueryRow)
  | onSendUploadedAndSubscribedKeysToServer (guid : Nat) (uploaded subscribed : List CloudKey)
  | onSendUploadedKeyToServers (guid : Nat) (cloudKey : CloudKey)
  | onSendSubscribedKeyToServers (guid : Nat) (cloudKey : CloudKey)
  | onRemoveUploadedKeyFromServers (guid : Nat) (cloudKey : CloudKey)
  | onRemoveSubscribedKeyFromServers (guid : Nat) (cloudKey : CloudKey)
  | onServerDataChanged (guid : Nat) (wasUpdated : Bool) (row : CloudQueryRow)

/-- The state after one call; `none` when the call reads outside of a list. -/
def perform (env : Env) (s : State) : Call → Option State
  | .setMaxUploadBytesPerClient bytes => some (SetMaxUploadBytesPerClient s bytes)
  | .setMaxBytesPerDownload bytes => some (SetMaxBytesPerDownload s bytes)
  | .addQueryFilter filter => some (AddQueryFilter s filter)
  | .removeQueryFilter filter => some (RemoveQueryFilter s filter)
  | .removeAllQueryFilters => some (RemoveAllQueryFilters s)
  | .clear => some (Clear s)
  | .update => Update s
  | .addServer systemIdentifier cs => AddServer s systemIdentifier cs
  | .removeServer systemAddress => RemoveServer s systemAddress
  | .onClosedConnection rakNetGUID => OnClosedConnection s rakNetGUID
  | .onPostRequest guid systemAddress key data => OnPostRequest env s guid systemAddress key data
  | .onReleaseRequest guid systemAddress cloudKeys =>
    OnReleaseRequest env s guid systemAddress cloudKeys
  | .onGetRequest guid systemAddress cloudQuery specificSystems time =>
    OnGetRequest env s guid systemAddress cloudQuery specificSystems time
  | .onUnsubscribeRequest guid systemAddress cloudKeys specificSystems =>
    OnUnsubscribeRequest env s guid systemAddress cloudKeys specificSystems
  | .onServerToServerGetRequest guid cloudQueryWithAddresses requestId =>
    OnServerToServerGetRequest s guid cloudQueryWithAddresses requestId
  | .onServerToServerGetResponse guid requestId rows =>
    OnServerToServerGetResponse s guid requestId rows
  | .onSendUploadedAndSubscribedKeysToServer guid uploaded subscribed =>
    OnSendUploadedAndSubscribedKeysToServer s guid uploaded subscribed
  | .onSendUploadedKeyToServers guid cloudKey => OnSendUploadedKeyToServers s guid cloudKey
  | .onSendSubscribedKeyToServers guid cloudKey => OnSendSubscribedKeyToServers s guid cloudKey
  | .onRemoveUploadedKeyFromServers guid cloudKey =>
    OnRemoveUploadedKeyFromServers s guid cloudKey
  | .onRemoveSubscribedKeyFromServers guid cloudKey =>
    OnRemoveSubscribedKeyFromServers s guid cloudKey
  | .onServerDataChanged guid wasUpdated row => OnServerDataChanged s guid wasUpdated row

/-- The owners for which a subscribing get request inserts entries, in the order in which
`OnGetRequest` goes through them: for every key of the request in turn, the systems that
the request names (CloudServer.cpp:612-677). -/
def insertedByGet (specificSystems : List Nat) : List CloudKey → List Nat
  | [] => []
  | _ :: keys => specificSystems ++ insertedByGet specificSystems keys

/-- The owners for which a call inserts entries into `keyData` lists, in the order of the
insertions: the sender of a post (CloudServer.cpp:342-366), the systems that a get request
names for each of its keys, and nothing for every other call. -/
def insertedBy : Call → List Nat
  | .onPostRequest guid _ _ _ => [guid]
  | .onGetRequest _ _ cloudQuery specificSystems _ =>
    insertedByGet specificSystems cloudQuery.keys
  | _ => []

/-- Insertion order of one CloudDataList across a call that inserts entries for the
owners `inserted`, in this order, into the repository `before`: the entries of the list
are entries that a list of the same key held before the call, in the order they had
there, followed by entries that the call has inserted, in the order of their insertion.
A list that the call has created holds inserted entries only. -/
def InsertedLast (inserted : List Nat) (before : List CloudDataList)
    (cloudDataList : CloudDataList) : Prop :=
  ∃ kept added : List Nat, ownersOf cloudDataList.keyData = kept ++ added ∧
    added.Sublist inserted ∧
    (kept = [] ∨ ∃ old ∈ before, old.key = cloudDataList.key ∧
      kept.Sublist (ownersOf old.keyData))

/-- Insertion order of a repository across a call: every list of the repository after the
call is in insertion order with respect to the repository before it. -/
def RepositoryExtends (inserted : List Nat) (before after : List CloudDataList) : Prop :=
  ∀ cloudDataList ∈ after, InsertedLast inserted before cloudDataList

/-- The entry that the lookup of `ProcessCloudQueryWithAddresses` (CloudServer.cpp:1275-1280)
finds for a named system in a `keyData` list, if it finds one. -/
def entryOfSystem (keyData : List CloudData) (system : Nat) : Option CloudData :=
  match GetIndexFromKey KeyDataPtrComp system keyData with
  | some (keyDataIndex, true) => keyData.get? keyDataIndex
  | _ => none

/-- What the rows of one key of a query are, after a call that has led from the
repository `before` to `dataRepository` and has inserted entries for the owners
`inserted`.  There are rows only when the lookup finds a list for the key and the list
has an uploader.  When the query names no system, the rows are all entries of that list,
which are in insertion order; when it names systems, the rows are the entries found for
the named systems, in the order in which the query names them. -/
def GroupOfKey (inserted : List Nat) (before dataRepository : List CloudDataList)
    (specificSystems : List Nat) (key : CloudKey) (group : List CloudData) : Prop :=
  match GetIndexFromKey KeyDataListComp key dataRepository with
  | some (dataRepositoryIndex, true) =>
    ∃ cloudDataList, dataRepository.get? dataRepositoryIndex = some cloudDataList ∧
      cloudDataList.key = key ∧
      if cloudDataList.uploaderCount = 0 then group = []
      else if specificSystems = [] then
        group = cloudDataList.keyData ∧ InsertedLast inserted before cloudDataList
      else
        group = specificSystems.filterMap (entryOfSystem cloudDataList.keyData) ∧
          (ownersOf group).Sublist specificSystems
  | _ => group = []

/-- Empty server after the clients 1 and 2 have posted under key `(1,0)`, in this
order. -/
def twoOwnersState : State :=
  ((OnPostRequest Env.acceptAll State.init 1 11 ⟨1, 0⟩ [7]).bind (fun s1 =>
    OnPostRequest Env.acceptAll s1 2 12 ⟨1, 0⟩ [8])).getD State.init

/-- Empty server after client 3 has subscribed to owner 7 of key `(1,0)` and client 9 has
then posted `[5]` under that key. -/
def placeholderAndPost : Option State :=
  (OnGetRequest Env.acceptAll State.init 3 13 (subscribingQuery [⟨1, 0⟩]) [7] 0).bind
    (fun s1 => OnPostRequest Env.acceptAll s1 9 19 ⟨1, 0⟩ [5])

/-- Owner, `isUploaded` and payload of each row of the local query for `key` on a state
that a sequence of handlers has produced. -/
def ownersAndUploadFlags (s : Option State) (key : CloudKey) :
    Option (List (Nat × Bool × List Nat)) :=
  s.bind (fun state =>
    (ProcessCloudQueryWithAddresses state (queryOfKey key)).map
      (fun result => result.1.map
        (fun cloudData => (cloudData.clientGUID, cloudData.isUploaded, cloudData.data))))

end CloudServer

/-! ## Theorems -/

namespace OrderedList

/-! ### The search loop returns -/

theorem toUnsigned_le (a : Nat) : toUnsigned a ≤ a := Nat.mod_le a _

theorem GetIndexFromKeyLoop_returns {K D : Type} (cf : K → D → Int) (key : K) (l : List D) :
    ∀ (fuel upperBound lowerBound index : Nat), index < l.length → l.length - index ≤ fuel →
      ∃ i b, GetIndexFromKeyLoop cf key l fuel upperBound lowerBound index = some (i, b) ∧
        i ≤ l.length ∧ (b = true → i < l.length) := by
  intro fuel
  induction fuel with
  | zero => intro _ _ index h1 h2; omega
  | succ n ih =>
    intro upperBound lowerBound index h1 h2
    unfold GetIndexFromKeyLoop
    rw [List.get?_eq_get h1]
    simp only [Nat.not_lt_zero, if_false, false_or]
    by_cases hres : toSizeT (cf key (l.get ⟨index, h1⟩)) = 0
    · simp only [hres, if_true]
      exact ⟨_, _, rfl, Nat.le_trans (toUnsigned_le _) (Nat.le_of_lt h1),
        fun _ => Nat.lt_of_le_of_lt (toUnsigned_le _) h1⟩
    · simp only [hres, if_false]
      by_cases hlb : index + 1 > upperBound
      · simp only [hlb, if_true]
        exact ⟨_, _, rfl, Nat.le_trans (toUnsigned_le _) h1, fun h => by cases h⟩
      · simp only [hlb, if_false]
        by_cases hidx : index + 1 + subSizeT upperBound (index + 1) / 2 ≥ l.length
        · simp only [hidx, if_true]
          exact ⟨_, _, rfl, Nat.zero_le _, fun h => by cases h⟩
        · simp only [hidx, if_false]
          exact ih _ _ _ (by omega) (by omega)

theorem GetIndexFromKey_returns {K D : Type} (cf : K → D → Int) (key : K) (l : List D) :
    ∃ i b, GetIndexFromKey cf key l = some (i, b) ∧ i ≤ l.length ∧ (b = true → i < l.length) := by
  unfold GetIndexFromKey
  by_cases h : l.length = 0
  · simp only [h, if_true]
    exact ⟨0, false, rfl, Nat.zero_le _, fun h => by cases h⟩
  · simp only [h, if_false]
    have hpos : 0 < l.length := Nat.pos_of_ne_zero h
    exact GetIndexFromKeyLoop_returns cf key l _ _ _ _ (Nat.div_lt_self hpos (by decide)) (by omega)

/-- Whenever the search loop reports that the key is missing, the index it returns is
the length of the list (cast to `unsigned`) or zero: the loop never proposes an
insert position inside the list. -/
theorem GetIndexFromKeyLoop_missing {K D : Type} (cf : K → D → Int) (key : K) (l : List D) :
    ∀ (fuel upperBound lowerBound index i : Nat), upperBound + 1 = l.length →
      index < l.length →
      GetIndexFromKeyLoop cf key l fuel upperBound lowerBound index = some (i, false) →
      i = toUnsigned l.length ∨ i = 0 := by
  intro fuel
  induction fuel with
  | zero => intro _ _ _ _ _ _ h; simp [GetIndexFromKeyLoop] at h
  | succ n ih =>
    intro upperBound lowerBound index i hub hidx h
    unfold GetIndexFromKeyLoop at h
    rw [List.get?_eq_get hidx] at h
    simp only [Nat.not_lt_zero, if_false, false_or] at h
    by_cases hres : toSizeT (cf key (l.get ⟨index, hidx⟩)) = 0
    · rw [if_pos hres] at h
      cases h
    · rw [if_neg hres] at h
      by_cases hlb : index + 1 > upperBound
      · simp only [hlb, if_true, Option.some.injEq, Prod.mk.injEq, and_true] at h
        have : index + 1 = l.length := by omega
        left; rw [← h, this]
      · simp only [hlb, if_false] at h
        by_cases hnext : index + 1 + subSizeT upperBound (index + 1) / 2 ≥ l.length
        · simp only [hnext, if_true, Option.some.injEq, Prod.mk.injEq, and_true] at h
          right; exact h.symm
        · simp only [hnext, if_false] at h
          exact ih _ _ _ _ hub (by omega) h

/-- Whenever `GetIndexFromKey` reports that the key is missing, the index it returns
is the length of the list (cast to `unsigned`) or zero, whatever the key. -/
theorem GetIndexFromKey_missing {K D : Type} (cf : K → D → Int) (key : K) (l : List D)
    (i : Nat) (h : GetIndexFromKey cf key l = some (i, false)) :
    i = toUnsigned l.length ∨ i = 0 := by
  unfold GetIndexFromKey at h
  by_cases hl : l.length = 0
  · rw [if_pos hl] at h
    right
    cases h
    rfl
  · rw [if_neg hl] at h
    have hpos : 0 < l.length := Nat.pos_of_ne_zero hl
    exact GetIndexFromKeyLoop_missing cf key l _ _ _ _ i (by omega)
      (Nat.div_lt_self hpos (by decide)) h

/-! ### A successful search has probed an equal element -/

theorem toSizeT_neg_one : toSizeT (-1) ≠ 0 := by decide

theorem toSizeT_one : toSizeT 1 ≠ 0 := by decide

/-- Whenever the search loop reports that the key is present, it has probed an element
that the comparison function reports as equal to the key, and it returns the position of
that element cast to `unsigned`. -/
theorem GetIndexFromKeyLoop_found {K D : Type} (cf : K → D → Int) (key : K) (l : List D) :
    ∀ (fuel upperBound lowerBound index i : Nat),
      GetIndexFromKeyLoop cf key l fuel upperBound lowerBound index = some (i, true) →
      ∃ position d, l.get? position = some d ∧ toSizeT (cf key d) = 0 ∧
        i = toUnsigned position := by
  intro fuel
  induction fuel with
  | zero => intro _ _ _ _ h; simp [GetIndexFromKeyLoop] at h
  | succ n ih =>
    intro upperBound lowerBound index i h
    unfold GetIndexFromKeyLoop at h
    cases hget : l.get? index with
    | none => rw [hget] at h; cases h
    | some d =>
      rw [hget] at h
      simp only [Nat.not_lt_zero, if_false, false_or] at h
      by_cases hres : toSizeT (cf key d) = 0
      · rw [if_pos hres] at h
        injection h with h
        injection h with h1 _
        exact ⟨index, d, hget, hres, h1.symm⟩
      · rw [if_neg hres] at h
        by_cases hlb : index + 1 > upperBound
        · rw [if_pos hlb] at h
          injection h with h
          injection h with _ h2
          cases h2
        · rw [if_neg hlb] at h
          by_cases hnext : index + 1 + subSizeT upperBound (index + 1) / 2 ≥ l.length
          · rw [if_pos hnext] at h
            injection h with h
            injection h with _ h2
            cases h2
          · rw [if_neg hnext] at h
            exact ih _ _ _ _ h

theorem GetIndexFromKey_found {K D : Type} (cf : K → D → Int) (key : K) (l : List D) (i : Nat)
    (h : GetIndexFromKey cf key l = some (i, true)) :
    ∃ position d, l.get? position = some d ∧ toSizeT (cf key d) = 0 ∧
      i = toUnsigned position := by
  unfold GetIndexFromKey at h
  by_cases hl : l.length = 0
  · rw [if_pos hl] at h
    injection h with h
    injection h with _ h2
    cases h2
  · rw [if_neg hl] at h
    exact GetIndexFromKeyLoop_found cf key l _ _ _ _ _ h

/-- On a list shorter than `2 ^ 32`, a successful search returns the position of an
element that the comparison function reports as equal to the key. -/
theorem GetIndexFromKey_found_get {K D : Type} (cf : K → D → Int) (key : K) (l : List D)
    (i : Nat) (hlen : l.length < 2 ^ 32) (h : GetIndexFromKey cf key l = some (i, true)) :
    ∃ d, l.get? i = some d ∧ toSizeT (cf key d) = 0 := by
  obtain ⟨position, d, hget, hres, hi⟩ := GetIndexFromKey_found cf key l i h
  have hpos : position < l.length := by
    rcases Nat.lt_or_ge position l.length with hp | hp
    · exact hp
    · rw [List.get?_eq_none.mpr hp] at hget
      cases hget
  have : toUnsigned position = position := Nat.mod_eq_of_lt (Nat.lt_trans hpos hlen)
  rw [this] at hi
  subst hi
  exact ⟨d, hget, hres⟩

/-- Additional fuel does not change a result of the search loop. -/
theorem GetIndexFromKeyLoop_fuel {K D : Type} (cf : K → D → Int) (key : K) (l : List D) :
    ∀ (fuel extra upperBound lowerBound index : Nat) (r : Nat × Bool),
      GetIndexFromKeyLoop cf key l fuel upperBound lowerBound index = some r →
      GetIndexFromKeyLoop cf key l (fuel + extra) upperBound lowerBound index = some r := by
  intro fuel
  induction fuel with
  | zero => intro _ _ _ _ _ h; simp [GetIndexFromKeyLoop] at h
  | succ n ih =>
    intro extra upperBound lowerBound index r h
    rw [Nat.add_right_comm]
    unfold GetIndexFromKeyLoop at h ⊢
    cases hget : l.get? index with
    | none => rw [hget] at h; cases h
    | some d =>
      rw [hget] at h
      simp only [Nat.not_lt_zero, if_false, false_or] at h ⊢
      by_cases hres : toSizeT (cf key d) = 0
      · rw [if_pos hres] at h ⊢
        exact h
      · rw [if_neg hres] at h ⊢
        by_cases hlb : index + 1 > upperBound
        · rw [if_pos hlb] at h ⊢
          exact h
        · rw [if_neg hlb] at h ⊢
          by_cases hnext : index + 1 + subSizeT upperBound (index + 1) / 2 ≥ l.length
          · rw [if_pos hnext] at h ⊢
            exact h
          · rw [if_neg hnext] at h ⊢
            exact ih _ _ _ _ _ h

/-! ### Where `Insert` puts a new element -/

theorem subSizeT_of_le {a b : Nat} (hb : b ≤ a) (ha : a < 2 ^ 64) : subSizeT a b = a - b := by
  unfold subSizeT
  have h1 : a % 2 ^ 64 = a := Nat.mod_eq_of_lt ha
  have h2 : b % 2 ^ 64 = b := Nat.mod_eq_of_lt (Nat.lt_of_le_of_lt hb ha)
  rw [h1, h2]
  have h3 : a + 2 ^ 64 - b = (a - b) + 2 ^ 64 := by omega
  rw [h3, Nat.add_mod_right]
  exact Nat.mod_eq_of_lt (by omega)

/-- On a list within the range of the `unsigned` index, a search that reports the key as
missing returns the length of the list. -/
theorem GetIndexFromKeyLoop_missing_length {K D : Type} (cf : K → D → Int) (key : K)
    (l : List D) (hlen : l.length < 2 ^ 32) :
    ∀ (fuel upperBound lowerBound index i : Nat), upperBound + 1 = l.length →
      index ≤ upperBound →
      GetIndexFromKeyLoop cf key l fuel upperBound lowerBound index = some (i, false) →
      i = l.length := by
  intro fuel
  induction fuel with
  | zero => intro _ _ _ _ _ _ h; simp [GetIndexFromKeyLoop] at h
  | succ n ih =>
    intro upperBound lowerBound index i hub hidx h
    have hidx1 : index < l.length := by omega
    unfold GetIndexFromKeyLoop at h
    rw [List.get?_eq_get hidx1] at h
    simp only [Nat.not_lt_zero, if_false, false_or] at h
    by_cases hres : toSizeT (cf key (l.get ⟨index, hidx1⟩)) = 0
    · rw [if_pos hres] at h
      cases h
    · rw [if_neg hres] at h
      by_cases hlb : index + 1 > upperBound
      · simp only [hlb, if_true, Option.some.injEq, Prod.mk.injEq, and_true] at h
        have h1 : index + 1 = l.length := by omega
        have h2 : toUnsigned (index + 1) = index + 1 := Nat.mod_eq_of_lt (by omega)
        rw [← h, h2, h1]
      · simp only [hlb, if_false] at h
        have hsub : subSizeT upperBound (index + 1) = upperBound - (index + 1) :=
          subSizeT_of_le (by omega) (by
            have : (2 : Nat) ^ 32 < 2 ^ 64 := by decide
            omega)
        have hnext : ¬ index + 1 + subSizeT upperBound (index + 1) / 2 ≥ l.length := by
          rw [hsub]
          have : (upperBound - (index + 1)) / 2 ≤ upperBound - (index + 1) := Nat.div_le_self _ _
          omega
        simp only [hnext, if_false] at h
        refine ih _ _ _ _ hub ?_ h
        rw [hsub]
        have : (upperBound - (index + 1)) / 2 ≤ upperBound - (index + 1) := Nat.div_le_self _ _
        omega

theorem GetIndexFromKey_missing_length {K D : Type} (cf : K → D → Int) (key : K) (l : List D)
    (i : Nat) (hlen : l.length < 2 ^ 32) (h : GetIndexFromKey cf key l = some (i, false)) :
    i = l.length := by
  unfold GetIndexFromKey at h
  by_cases hl : l.length = 0
  · rw [if_pos hl] at h
    injection h with h
    injection h with h1 _
    omega
  · rw [if_neg hl] at h
    exact GetIndexFromKeyLoop_missing_length cf key l hlen _ _ _ _ _ (by omega)
      (by have := Nat.div_lt_self (Nat.pos_of_ne_zero hl) (by decide : 1 < 2); omega) h

/-- On a list within the range of the `unsigned` index, `Insert` leaves the list as it is
or puts the new element behind all others. -/
theorem Insert_appends {K D : Type} (cf : K → D → Int) (key : K) (data : D) (l l1 : List D)
    (position : Option Nat) (hlen : l.length < 2 ^ 32)
    (h : Insert cf key data l = some (l1, position)) : l1 = l ∨ l1 = l ++ [data] := by
  unfold Insert at h
  cases hres : GetIndexFromKey cf key l with
  | none => rw [hres] at h; cases h
  | some r =>
    obtain ⟨index, objectExists⟩ := r
    rw [hres] at h
    cases objectExists with
    | true =>
      simp only [if_true] at h
      injection h with h
      injection h with h1 _
      exact Or.inl h1.symm
    | false =>
      have hidx := GetIndexFromKey_missing_length cf key l index hlen hres
      simp only [Bool.false_eq_true, if_false] at h
      rw [if_pos (by omega)] at h
      injection h with h
      injection h with h1 _
      exact Or.inr h1.symm

end OrderedList

namespace CloudServer

open OrderedList

/-! ### The local query returns -/

theorem ProcessCloudQuerySystems_returns (cloudDataList : CloudDataList) (key : CloudKey) :
    ∀ (systems : List Nat) (acc : List CloudData × List CloudKey),
      acc.1.length = acc.2.length →
      ∃ r, ProcessCloudQuerySystems cloudDataList key systems acc = some r ∧
        r.1.length = r.2.length := by
  intro systems
  induction systems with
  | nil => intro acc h; exact ⟨acc, rfl, h⟩
  | cons system systems ih =>
    intro acc h
    obtain ⟨i, b, hget, _, hlt⟩ := GetIndexFromKey_returns KeyDataPtrComp system cloudDataList.keyData
    unfold ProcessCloudQuerySystems
    rw [hget]
    cases b with
    | false => simpa using ih acc h
    | true =>
      have hi := hlt rfl
      simp only [if_true, List.get?_eq_get hi]
      exact ih _ (by simp [h])

theorem ProcessCloudQueryAll_length (key : CloudKey) :
    ∀ (keyData : List CloudData) (acc : List CloudData × List CloudKey),
      acc.1.length = acc.2.length →
      (ProcessCloudQueryAll key keyData acc).1.length
        = (ProcessCloudQueryAll key keyData acc).2.length := by
  intro keyData
  induction keyData with
  | nil => intro acc h; exact h
  | cons cloudData rest ih =>
    intro acc h
    unfold ProcessCloudQueryAll
    exact ih _ (by simp [h])

theorem ProcessCloudQueryKeys_returns (dataRepository : List CloudDataList)
    (specificSystems : List Nat) :
    ∀ (keys : List CloudKey) (acc : List CloudData × List CloudKey),
      acc.1.length = acc.2.length →
      ∃ r, ProcessCloudQueryKeys dataRepository specificSystems keys acc = some r ∧
        r.1.length = r.2.length := by
  intro keys
  induction keys with
  | nil => intro acc h; exact ⟨acc, rfl, h⟩
  | cons key keys ih =>
    intro acc h
    obtain ⟨i, b, hget, _, hlt⟩ := GetIndexFromKey_returns KeyDataListComp key dataRepository
    unfold ProcessCloudQueryKeys
    rw [hget]
    cases b with
    | false => simpa using ih acc h
    | true =>
      have hi := hlt rfl
      simp only [if_true, List.get?_eq_get hi]
      by_cases hup : (dataRepository.get ⟨i, hi⟩).uploaderCount > 0
      · simp only [hup, if_true]
        by_cases hsp : specificSystems.length > 0
        · simp only [hsp, if_true]
          obtain ⟨r, hr, hlen⟩ :=
            ProcessCloudQuerySystems_returns (dataRepository.get ⟨i, hi⟩) key specificSystems acc h
          rw [hr]
          exact ih r hlen
        · simp only [hsp, if_false]
          exact ih _ (ProcessCloudQueryAll_length key _ acc h)
      · simp only [hup, if_false]
        exact ih acc h

theorem ProcessCloudQueryWithAddresses_returns (s : State) (q : CloudQueryWithAddresses) :
    ∃ r, ProcessCloudQueryWithAddresses s q = some r ∧ r.1.length = r.2.length :=
  ProcessCloudQueryKeys_returns _ _ _ ([], []) rfl

/-! ### Rows written by `ProcessAndTransmitGetRequest` -/

theorem toUInt32_of_lt {a : Nat} (h : a < 2 ^ 32) : toUInt32 a = a := Nat.mod_eq_of_lt h

theorem subUInt32_of_le {a b : Nat} (hb : b ≤ a) (ha : a < 2 ^ 32) : subUInt32 a b = a - b := by
  unfold subUInt32
  rw [Nat.mod_eq_of_lt ha, Nat.mod_eq_of_lt (Nat.lt_of_le_of_lt hb ha), if_pos hb]

/-- The wrapping subtraction is the subtraction modulo `2^32`. -/
theorem subUInt32_eq_mod (a b : Nat) :
    subUInt32 a b = (a % 2 ^ 32 + 2 ^ 32 - b % 2 ^ 32) % 2 ^ 32 := by
  unfold subUInt32
  have ha : a % 2 ^ 32 < 2 ^ 32 := Nat.mod_lt _ (by decide)
  have hb : b % 2 ^ 32 < 2 ^ 32 := Nat.mod_lt _ (by decide)
  split <;> omega

/-- The wrapping subtraction is the subtraction modulo `2^64`. -/
theorem subUInt64_eq_mod (a b : Nat) :
    subUInt64 a b = (a % 2 ^ 64 + 2 ^ 64 - b % 2 ^ 64) % 2 ^ 64 := by
  unfold subUInt64
  have ha : a % 2 ^ 64 < 2 ^ 64 := Nat.mod_lt _ (by decide)
  have hb : b % 2 ^ 64 < 2 ^ 64 := Nat.mod_lt _ (by decide)
  split <;> omega

theorem writeLocalRows_eq (ds : List CloudData) (ks : List CloudKey) (hlen : ds.length = ks.length) :
    ∀ (n i : Nat), i + n ≤ ds.length →
      writeLocalRows ds ks n i = some (((localRowsOf ds ks).drop i).take n) := by
  intro n
  induction n with
  | zero => intro i _; simp [writeLocalRows]
  | succ n ih =>
    intro i h
    have hi : i < ds.length := by omega
    have hk : i < ks.length := by omega
    have hz : i < (localRowsOf ds ks).length := by
      simp [localRowsOf, List.length_zipWith]; omega
    unfold writeLocalRows
    rw [List.get?_eq_get hi, List.get?_eq_get hk]
    simp only
    rw [ih (i + 1) (by omega)]
    rw [List.drop_eq_getElem_cons hz]
    simp [localRowsOf, List.getElem_zipWith]

theorem appendRemoteRows_unlimited :
    ∀ (rows : List CloudQueryRow) (st : RemoteRowsLoop),
      st.skipRows < 2 ^ 32 → st.additionalRowsWritten + rows.length < 2 ^ 32 →
      appendRemoteRows true rows st =
        { skipRows := st.skipRows - rows.length,
          remainingRows := st.remainingRows,
          additionalRowsWritten := st.additionalRowsWritten + (rows.drop st.skipRows).length,
          written := st.written ++ rows.drop st.skipRows } := by
  intro rows
  induction rows with
  | nil => intro st _ _; simp [appendRemoteRows]
  | cons row rows ih =>
    intro st hs ha
    simp only [List.length_cons] at ha
    unfold appendRemoteRows
    by_cases hskip : st.skipRows > 0
    · simp only [hskip, if_true]
      rw [ih _ (by simp only [subUInt32_of_le hskip hs]; omega) (by simpa using by omega)]
      simp only [subUInt32_of_le hskip hs]
      obtain ⟨k, hk⟩ : ∃ k, st.skipRows = k + 1 := ⟨st.skipRows - 1, by omega⟩
      simp [hk]
    · have h0 : st.skipRows = 0 := by omega
      simp only [hskip, if_false, Bool.not_true, Bool.false_eq_true]
      rw [ih _ (by simpa using hs) (by simp only [toUInt32_of_lt (show st.additionalRowsWritten + 1 < 2 ^ 32 by omega)]; omega)]
      simp only [toUInt32_of_lt (show st.additionalRowsWritten + 1 < 2 ^ 32 by omega)]
      simp [h0]
      omega

theorem appendRemoteRows_limited :
    ∀ (rows : List CloudQueryRow) (st : RemoteRowsLoop),
      st.skipRows < 2 ^ 32 → st.additionalRowsWritten + rows.length < 2 ^ 32 →
      0 < st.remainingRows → st.remainingRows < 2 ^ 32 →
      appendRemoteRows false rows st =
        { skipRows := st.skipRows - rows.length,
          remainingRows := st.remainingRows - (rows.drop st.skipRows).length,
          additionalRowsWritten :=
            st.additionalRowsWritten + ((rows.drop st.skipRows).take st.remainingRows).length,
          written := st.written ++ (rows.drop st.skipRows).take st.remainingRows } := by
  intro rows
  induction rows with
  | nil => intro st _ _ _ _; simp [appendRemoteRows]
  | cons row rows ih =>
    intro st hs ha hr0 hr
    simp only [List.length_cons] at ha
    unfold appendRemoteRows
    by_cases hskip : st.skipRows > 0
    · simp only [hskip, if_true]
      rw [ih _ (by simp only [subUInt32_of_le hskip hs]; omega) (by simpa using by omega)
        (by simpa using hr0) (by simpa using hr)]
      simp only [subUInt32_of_le hskip hs]
      obtain ⟨k, hk⟩ : ∃ k, st.skipRows = k + 1 := ⟨st.skipRows - 1, by omega⟩
      simp [hk]
    · have h0 : st.skipRows = 0 := by omega
      have hadd : toUInt32 (st.additionalRowsWritten + 1) = st.additionalRowsWritten + 1 :=
        toUInt32_of_lt (by omega)
      have hsub : subUInt32 st.remainingRows 1 = st.remainingRows - 1 :=
        subUInt32_of_le hr0 hr
      simp only [hskip, if_false, Bool.not_false, if_true, hadd, hsub]
      obtain ⟨m, hm⟩ : ∃ m, st.remainingRows = m + 1 := ⟨st.remainingRows - 1, by omega⟩
      by_cases hm0 : m = 0
      · subst hm0
        simp [hm, h0]
      · have hne : ¬ (st.remainingRows - 1 = 0) := by omega
        simp only [hne, if_false]
        rw [ih _ (by simpa using hs) (by simpa using by omega) (by simpa using by omega)
          (by simpa using by omega)]
        simp [hm, h0]
        omega

theorem appendRemoteResponses_unlimited :
    ∀ (responses : List BufferedGetResponseFromServer) (st : RemoteRowsLoop),
      st.skipRows < 2 ^ 32 →
      st.additionalRowsWritten + (remoteRowsOf responses).length < 2 ^ 32 →
      appendRemoteResponses true responses st =
        { skipRows := st.skipRows - (remoteRowsOf responses).length,
          remainingRows := st.remainingRows,
          additionalRowsWritten :=
            st.additionalRowsWritten + ((remoteRowsOf responses).drop st.skipRows).length,
          written := st.written ++ (remoteRowsOf responses).drop st.skipRows } := by
  intro responses
  induction responses with
  | nil => intro st _ _; simp [appendRemoteResponses, remoteRowsOf]
  | cons response responses ih =>
    intro st hs ha
    simp only [remoteRowsOf, List.length_append] at ha
    unfold appendRemoteResponses
    simp only [Bool.not_true, Bool.false_eq_true, false_and, if_false]
    rw [appendRemoteRows_unlimited _ _ hs (by omega)]
    rw [ih _ (by simp only; omega) (by simp only [List.length_drop]; omega)]
    simp only [remoteRowsOf, List.drop_append_eq_append_drop, List.length_append,
      List.length_drop, List.append_assoc, RemoteRowsLoop.mk.injEq, and_true, true_and]
    omega

theorem appendRemoteResponses_limited :
    ∀ (responses : List BufferedGetResponseFromServer) (st : RemoteRowsLoop),
      st.skipRows < 2 ^ 32 →
      st.additionalRowsWritten + (remoteRowsOf responses).length < 2 ^ 32 →
      0 < st.remainingRows → st.remainingRows < 2 ^ 32 →
      (appendRemoteResponses false responses st).additionalRowsWritten =
          st.additionalRowsWritten
            + (((remoteRowsOf responses).drop st.skipRows).take st.remainingRows).length ∧
      (appendRemoteResponses false responses st).written =
          st.written ++ ((remoteRowsOf responses).drop st.skipRows).take st.remainingRows := by
  intro responses
  induction responses with
  | nil => intro st _ _ _ _; simp [appendRemoteResponses, remoteRowsOf]
  | cons response responses ih =>
    intro st hs ha hr0 hr
    simp only [remoteRowsOf, List.length_append] at ha
    unfold appendRemoteResponses
    simp only [Bool.not_false, true_and]
    rw [appendRemoteRows_limited _ _ hs (by omega) hr0 hr]
    simp only [remoteRowsOf, List.drop_append_eq_append_drop, List.take_append_eq_append_take]
    by_cases hstop : st.remainingRows - (response.rowsReturned.drop st.skipRows).length = 0
    · simp only [hstop, if_true, List.take_zero, List.append_nil]
      have : st.remainingRows - (List.drop st.skipRows response.rowsReturned).length = 0 := hstop
      simp [this]
    · simp only [hstop, if_false]
      have hlen : (List.take st.remainingRows (List.drop st.skipRows response.rowsReturned)).length
          = (List.drop st.skipRows response.rowsReturned).length := by
        simp only [List.length_take, List.length_drop] at hstop ⊢
        omega
      obtain ⟨h1, h2⟩ := ih
        { skipRows := st.skipRows - response.rowsReturned.length,
          remainingRows := st.remainingRows - (List.drop st.skipRows response.rowsReturned).length,
          additionalRowsWritten := st.additionalRowsWritten +
            (List.take st.remainingRows (List.drop st.skipRows response.rowsReturned)).length,
          written := st.written ++
            List.take st.remainingRows (List.drop st.skipRows response.rowsReturned) }
        (by simp only; omega)
        (by simp only [hlen, List.length_drop]; omega)
        (by simp only; omega) (by simp only; omega)
      rw [h1, h2]
      simp only [hlen, List.length_append, List.append_assoc, and_true]
      omega

theorem localRowsOf_length (ds : List CloudData) (ks : List CloudKey)
    (hlen : ds.length = ks.length) : (localRowsOf ds ks).length = ds.length := by
  simp [localRowsOf, List.length_zipWith, hlen]

theorem ProcessAndTransmitRows_eq (q : CloudQuery) (ds : List CloudData) (ks : List CloudKey)
    (responses : List BufferedGetResponseFromServer) (hlen : ds.length = ks.length)
    (hstart : q.startingRowIndex < 2 ^ 32) (hmax : q.maxRowsToReturn < 2 ^ 32)
    (hall : (localRowsOf ds ks ++ remoteRowsOf responses).length < 2 ^ 32) :
    ProcessAndTransmitRows q ds ks responses =
      some ((pageOf q (localRowsOf ds ks ++ remoteRowsOf responses)).length,
        pageOf q (localRowsOf ds ks ++ remoteRowsOf responses)) := by
  have hL := localRowsOf_length ds ks hlen
  simp only [List.length_append, hL] at hall
  have hn : toUInt32 ds.length = ds.length := toUInt32_of_lt (by omega)
  unfold ProcessAndTransmitRows pageOf
  simp only [hn]
  by_cases hmax0 : q.maxRowsToReturn = 0
  · -- unlimited
    simp only [hmax0, beq_self_eq_true, Bool.not_true, Bool.false_eq_true, false_and, if_false,
      true_or, if_true]
    by_cases hgt : ds.length > q.startingRowIndex
    · simp only [hgt, if_true]
      rw [writeLocalRows_eq ds ks hlen _ _ (by omega)]
      simp only [subUInt32_of_le (Nat.le_of_lt hgt) (show ds.length < 2 ^ 32 by omega)]
      rw [appendRemoteResponses_unlimited _ _ (by simp) (by simp; omega)]
      simp only [List.drop_zero, Nat.zero_add]
      have htake : List.take (ds.length - q.startingRowIndex)
          (List.drop q.startingRowIndex (localRowsOf ds ks))
          = List.drop q.startingRowIndex (localRowsOf ds ks) := by
        apply List.take_of_length_le
        simp [hL]
      have hdrop : List.drop q.startingRowIndex (localRowsOf ds ks ++ remoteRowsOf responses)
          = List.drop q.startingRowIndex (localRowsOf ds ks) ++ remoteRowsOf responses := by
        rw [List.drop_append_eq_append_drop, hL]
        have : q.startingRowIndex - ds.length = 0 := by omega
        simp [this]
      rw [htake, hdrop]
      by_cases hR : (remoteRowsOf responses).length > 0
      · simp only [hR, if_true]
        rw [toUInt32_of_lt (by omega)]
        simp [hL]
      · simp only [hR, if_false]
        have : remoteRowsOf responses = [] := List.length_eq_zero.mp (by omega)
        simp [this, hL]
    · simp only [hgt, if_false]
      have hz : ds.length - q.startingRowIndex = 0 := by omega
      simp only [hz, writeLocalRows]
      simp only [subUInt32_of_le (Nat.le_of_not_lt hgt) hstart]
      rw [appendRemoteResponses_unlimited _ _ (by simp; omega) (by simp; omega)]
      have hdrop : List.drop q.startingRowIndex (localRowsOf ds ks ++ remoteRowsOf responses)
          = List.drop (q.startingRowIndex - ds.length) (remoteRowsOf responses) := by
        rw [List.drop_append_eq_append_drop, hL]
        have : List.drop q.startingRowIndex (localRowsOf ds ks) = [] :=
          List.drop_of_length_le (by omega)
        simp [this]
      rw [hdrop]
      simp only [List.nil_append, Nat.zero_add]
      by_cases hR : (List.drop (q.startingRowIndex - ds.length) (remoteRowsOf responses)).length > 0
      · simp only [hR, if_true]
        rw [toUInt32_of_lt (by simp only [List.length_drop]; omega)]
      · simp only [hR, if_false]
        have : List.drop (q.startingRowIndex - ds.length) (remoteRowsOf responses) = [] :=
          List.length_eq_zero.mp (by omega)
        simp [this]
  · -- limited
    have hpos : 0 < q.maxRowsToReturn := Nat.pos_of_ne_zero hmax0
    have hbeq : (q.maxRowsToReturn == 0) = false := by simpa using hmax0
    simp only [hmax0, hbeq, Bool.not_false, true_and, if_false, false_or, if_true]
    by_cases hgt : ds.length > q.startingRowIndex
    · have hsub : subUInt32 ds.length q.startingRowIndex = ds.length - q.startingRowIndex :=
        subUInt32_of_le (Nat.le_of_lt hgt) (by omega)
      have hdrop : List.drop q.startingRowIndex (localRowsOf ds ks ++ remoteRowsOf responses)
          = List.drop q.startingRowIndex (localRowsOf ds ks) ++ remoteRowsOf responses := by
        rw [List.drop_append_eq_append_drop, hL]
        have : q.startingRowIndex - ds.length = 0 := by omega
        simp [this]
      have hdl : (List.drop q.startingRowIndex (localRowsOf ds ks)).length
          = ds.length - q.startingRowIndex := by simp [hL]
      simp only [hgt, true_and, hsub]
      by_cases hcut : ds.length - q.startingRowIndex > q.maxRowsToReturn
      · -- the local rows alone fill the page
        have hsum : toUInt32 (q.startingRowIndex + q.maxRowsToReturn)
            = q.startingRowIndex + q.maxRowsToReturn := toUInt32_of_lt (by omega)
        have hgt2 : q.startingRowIndex + q.maxRowsToReturn > q.startingRowIndex := by omega
        have hsub2 : subUInt32 (q.startingRowIndex + q.maxRowsToReturn) q.startingRowIndex
            = q.maxRowsToReturn := by
          rw [subUInt32_of_le (by omega) (by omega)]; omega
        have hcnt : q.startingRowIndex + q.maxRowsToReturn - q.startingRowIndex
            = q.maxRowsToReturn := by omega
        simp only [hcut, if_true, hsum, hgt2, hsub2, hcnt, Nat.lt_irrefl, if_false]
        simp only [Bool.false_eq_true, false_or, if_false]
        rw [writeLocalRows_eq ds ks hlen q.maxRowsToReturn q.startingRowIndex (by omega)]
        rw [hdrop, List.take_append_of_le_length (by omega)]
        simp only [List.length_take, hdl]
        congr 2
        omega
      · simp only [hcut, if_false, hgt, if_true, hsub]
        rw [writeLocalRows_eq ds ks hlen _ _ (by omega)]
        have htake : List.take (ds.length - q.startingRowIndex)
            (List.drop q.startingRowIndex (localRowsOf ds ks))
            = List.drop q.startingRowIndex (localRowsOf ds ks) := by
          apply List.take_of_length_le
          simp [hL]
        rw [htake, hdrop, List.take_append_eq_append_take, hdl]
        have htake2 : List.take q.maxRowsToReturn
            (List.drop q.startingRowIndex (localRowsOf ds ks))
            = List.drop q.startingRowIndex (localRowsOf ds ks) := by
          apply List.take_of_length_le
          omega
        rw [htake2]
        by_cases hmore : q.maxRowsToReturn > ds.length - q.startingRowIndex
        · simp only [hmore, if_true]
          obtain ⟨h1, h2⟩ := appendRemoteResponses_limited responses
            { skipRows := 0,
              remainingRows := subUInt32 q.maxRowsToReturn (ds.length - q.startingRowIndex),
              additionalRowsWritten := 0,
              written := List.drop q.startingRowIndex (localRowsOf ds ks) }
            (by simp) (by simp; omega)
            (by simp only; rw [subUInt32_of_le (by omega) hmax]; omega)
            (by simp only; rw [subUInt32_of_le (by omega) hmax]; omega)
          rw [h1, h2]
          simp only [subUInt32_of_le (Nat.le_of_lt hmore) hmax, List.drop_zero, Nat.zero_add]
          by_cases hR : (List.take (q.maxRowsToReturn - (ds.length - q.startingRowIndex))
              (remoteRowsOf responses)).length > 0
          · simp only [hR, if_true]
            rw [toUInt32_of_lt (by simp only [List.length_take]; omega)]
            simp [hdl]
          · simp only [hR, if_false]
            have : List.take (q.maxRowsToReturn - (ds.length - q.startingRowIndex))
                (remoteRowsOf responses) = [] := List.length_eq_zero.mp (by omega)
            simp [this, hdl]
        · simp only [hmore, if_false]
          have : q.maxRowsToReturn - (ds.length - q.startingRowIndex) = 0 := by omega
          simp [this, hdl]
    · have hdrop : List.drop q.startingRowIndex (localRowsOf ds ks ++ remoteRowsOf responses)
          = List.drop (q.startingRowIndex - ds.length) (remoteRowsOf responses) := by
        rw [List.drop_append_eq_append_drop, hL]
        have : List.drop q.startingRowIndex (localRowsOf ds ks) = [] :=
          List.drop_of_length_le (by omega)
        simp [this]
      have hz : ds.length - q.startingRowIndex = 0 := by omega
      simp only [hgt, false_and, if_false, hz, writeLocalRows, hpos, if_true]
      simp only [subUInt32_of_le (Nat.le_of_not_lt hgt) hstart,
        subUInt32_of_le (Nat.zero_le _) hmax, Nat.sub_zero]
      obtain ⟨h1, h2⟩ := appendRemoteResponses_limited responses
        { skipRows := q.startingRowIndex - ds.length,
          remainingRows := q.maxRowsToReturn,
          additionalRowsWritten := 0,
          written := [] }
        (by simp only; omega) (by simp; omega) hpos hmax
      rw [h1, h2, hdrop]
      simp only [List.nil_append, Nat.zero_add]
      by_cases hR : (List.take q.maxRowsToReturn
          (List.drop (q.startingRowIndex - ds.length) (remoteRowsOf responses))).length > 0
      · simp only [hR, if_true, or_true]
        rw [toUInt32_of_lt (by simp only [List.length_take, List.length_drop]; omega)]
      · simp only [hR, if_false, or_true, if_true]
        have : List.take q.maxRowsToReturn
            (List.drop (q.startingRowIndex - ds.length) (remoteRowsOf responses)) = [] :=
          List.length_eq_zero.mp (by omega)
        simp [this]

/-! ### Handlers that leave the outstanding get requests alone -/

theorem sendToEach_getRequests (message : Message) :
    ∀ (gs : List Nat) (s : State), (sendToEach s message gs).getRequests = s.getRequests := by
  intro gs
  induction gs with
  | nil => intro s; rfl
  | cons g gs ih => intro s; unfold sendToEach; rw [ih]; rfl

theorem NotifyClientSubscribersOfDataChange_getRequests (s : State) (cloudData : CloudData)
    (key : CloudKey) (subscribers : List Nat) (wasUpdated : Bool) :
    (NotifyClientSubscribersOfDataChange s cloudData key subscribers wasUpdated).getRequests
      = s.getRequests :=
  sendToEach_getRequests _ _ _

theorem NotifyClientSubscribersOfDataChangeRow_getRequests (s : State) (row : CloudQueryRow)
    (subscribers : List Nat) (wasUpdated : Bool) :
    (NotifyClientSubscribersOfDataChangeRow s row subscribers wasUpdated).getRequests
      = s.getRequests :=
  sendToEach_getRequests _ _ _

theorem sendToServers_getRequests (s : State) (message : Message) :
    (sendToServers s message).getRequests = s.getRequests :=
  sendToEach_getRequests _ _ _

theorem NotifyServerSubscribersLoop_getRequests (message : Message) (key : CloudKey) :
    ∀ (servers : List RemoteServer) (s s1 : State),
      NotifyServerSubscribersLoop message key servers s = some s1 →
      s1.getRequests = s.getRequests := by
  intro servers
  induction servers with
  | nil => intro s s1 h; simp only [NotifyServerSubscribersLoop, Option.some.injEq] at h; rw [← h]
  | cons r rs ih =>
    intro s s1 h
    unfold NotifyServerSubscribersLoop at h
    split at h
    · have := ih _ _ h
      exact this
    · split at h
      · cases h
      · have := ih _ _ h
        exact this
      · exact ih _ _ h

theorem NotifyServerSubscribersOfDataChange_getRequests (s s1 : State) (cloudData : CloudData)
    (key : CloudKey) (wasUpdated : Bool)
    (h : NotifyServerSubscribersOfDataChange s cloudData key wasUpdated = some s1) :
    s1.getRequests = s.getRequests :=
  NotifyServerSubscribersLoop_getRequests _ _ _ _ _ h

theorem ProcessAndTransmitGetRequest_getRequests (s s1 : State) (getRequest : GetRequest)
    (h : ProcessAndTransmitGetRequest s getRequest = some s1) :
    s1.getRequests = s.getRequests := by
  unfold ProcessAndTransmitGetRequest at h
  split at h
  · cases h
  · split at h
    · cases h
    · cases h; rfl

theorem OnPostRequestFinish_getRequests (s s1 : State) (guid : Nat)
    (remoteSystems : List (Nat × RemoteCloudClient)) (remoteCloudClient : RemoteCloudClient)
    (dataRepository : List CloudDataList) (dataRepositoryIndex : Nat)
    (cloudDataList : CloudDataList) (cloudData : CloudData) (cloudDataAlreadyUploaded : Bool)
    (h : OnPostRequestFinish s guid remoteSystems remoteCloudClient dataRepository
      dataRepositoryIndex cloudDataList cloudData cloudDataAlreadyUploaded = some s1) :
    s1.getRequests = s.getRequests := by
  unfold OnPostRequestFinish at h
  rw [NotifyServerSubscribersOfDataChange_getRequests _ _ _ _ _ h]
  simp only [NotifyClientSubscribersOfDataChange_getRequests]
  split
  · exact sendToServers_getRequests _ _
  · rfl

set_option maxHeartbeats 1000000 in
theorem OnPostRequest_getRequests (env : Env) (s s1 : State) (guid systemAddress : Nat)
    (key : CloudKey) (data : List Nat)
    (h : OnPostRequest env s guid systemAddress key data = some s1) :
    s1.getRequests = s.getRequests := by
  unfold OnPostRequest at h
  dsimp only at h
  repeat' split at h
  all_goals first
    | exact OnPostRequestFinish_getRequests _ _ _ _ _ _ _ _ _ _ h
    | (injection h with h; subst h; rfl)
    | (injection h)

set_option maxHeartbeats 1000000 in
theorem OnReleaseRequestLoop_getRequests (guid : Nat) :
    ∀ (keys : List CloudKey) (remoteCloudClient : RemoteCloudClient) (s s1 : State),
      OnReleaseRequestLoop guid keys remoteCloudClient s = some s1 →
      s1.getRequests = s.getRequests := by
  intro keys
  induction keys with
  | nil =>
    intro c s s1 h
    simp only [OnReleaseRequestLoop, Option.some.injEq] at h
    rw [← h]
  | cons key keys ih =>
    intro c s s1 h
    unfold OnReleaseRequestLoop at h
    dsimp only at h
    repeat' split at h
    all_goals first
      | exact ih _ _ _ h
      | (have h3 := NotifyServerSubscribersOfDataChange_getRequests _ _ _ _ _
            ‹NotifyServerSubscribersOfDataChange _ _ _ _ = some _›
         first
          | (injection h with h
             subst h
             simp only [h3, RemoveUploadedKeyFromServers, sendToServers_getRequests,
               NotifyClientSubscribersOfDataChange_getRequests])
          | (rw [ih _ _ _ h]
             simp only [h3, RemoveUploadedKeyFromServers, sendToServers_getRequests,
               NotifyClientSubscribersOfDataChange_getRequests]))
      | (injection h)

theorem OnReleaseRequest_getRequests (env : Env) (s s1 : State) (guid systemAddress : Nat)
    (cloudKeys : List CloudKey)
    (h : OnReleaseRequest env s guid systemAddress cloudKeys = some s1) :
    s1.getRequests = s.getRequests := by
  unfold OnReleaseRequest at h
  split at h
  · rw [Option.some.injEq] at h; rw [h]
  · split at h
    · rw [Option.some.injEq] at h; rw [h]
    · split at h
      · rw [Option.some.injEq] at h; rw [h]
      · exact OnReleaseRequestLoop_getRequests _ _ _ _ _ h

theorem SendUnified_getRequests (s : State) (destination : Nat) (message : Message) :
    (SendUnified s destination message).getRequests = s.getRequests := rfl

theorem UnsubscribeFromKey_getRequests (s : State) (remoteCloudClient : RemoteCloudClient)
    (remoteCloudClientGuid keySubscriberIndex : Nat) (cloudKey : CloudKey)
    (specificSystems : List Nat) (result : RemoteCloudClient × State)
    (h : UnsubscribeFromKey s remoteCloudClient remoteCloudClientGuid keySubscriberIndex cloudKey
      specificSystems = some result) :
    result.2.getRequests = s.getRequests := by
  unfold UnsubscribeFromKey at h
  dsimp only at h
  repeat' split at h
  all_goals first
    | (injection h with h
       subst h
       first
        | rfl
        | simp only [RemoveSubscribedKeyFromServers, sendToServers_getRequests])
    | (injection h)

theorem unsubscribeFirst_getRequests (b : Bool) (s : State) (c : RemoteCloudClient)
    (guid index : Nat) (key : CloudKey) (c1 : RemoteCloudClient) (s1 : State)
    (h : (if b = true then UnsubscribeFromKey s c guid index key [] else some (c, s))
      = some (c1, s1)) :
    s1.getRequests = s.getRequests := by
  split at h
  · exact UnsubscribeFromKey_getRequests _ _ _ _ _ _ _ h
  · injection h with h
    injection h with h1 h2
    rw [← h2]

theorem OnGetRequestSubscribe_getRequests (env : Env) (guid : Nat) (specificSystems : List Nat) :
    ∀ (keys : List CloudKey) (remoteCloudClient : RemoteCloudClient) (s : State)
      (result : RemoteCloudClient × State),
      OnGetRequestSubscribe env guid specificSystems keys remoteCloudClient s = some result →
      result.2.getRequests = s.getRequests := by
  intro keys
  induction keys with
  | nil =>
    intro c s result h
    simp only [OnGetRequestSubscribe, Option.some.injEq] at h
    rw [← h]
  | cons key keys ih =>
    intro c s result h
    unfold OnGetRequestSubscribe at h
    dsimp only at h
    repeat' split at h
    all_goals first
      | (injection h)
      | (have hs1 := unsubscribeFirst_getRequests _ _ _ _ _ _ _ _ ‹_›
         rw [ih _ _ _ h]
         first
          | exact hs1
          | (simp only [SendSubscribedKeyToServers, sendToServers_getRequests]
             exact hs1))

theorem OnUnsubscribeRequestLoop_getRequests (guid : Nat) (specificSystems : List Nat) :
    ∀ (keys : List CloudKey) (remoteCloudClient : RemoteCloudClient) (s : State)
      (result : RemoteCloudClient × State),
      OnUnsubscribeRequestLoop guid specificSystems keys remoteCloudClient s = some result →
      result.2.getRequests = s.getRequests := by
  intro keys
  induction keys with
  | nil =>
    intro c s result h
    simp only [OnUnsubscribeRequestLoop, Option.some.injEq] at h
    rw [← h]
  | cons key keys ih =>
    intro c s result h
    unfold OnUnsubscribeRequestLoop at h
    repeat' split at h
    all_goals first
      | exact ih _ _ _ h
      | (rw [ih _ _ _ h]
         exact UnsubscribeFromKey_getRequests _ _ _ _ _ _ _ ‹_›)
      | (injection h)

theorem OnUnsubscribeRequest_getRequests (env : Env) (s s1 : State) (guid systemAddress : Nat)
    (cloudKeys : List CloudKey) (specificSystems : List Nat)
    (h : OnUnsubscribeRequest env s guid systemAddress cloudKeys specificSystems = some s1) :
    s1.getRequests = s.getRequests := by
  unfold OnUnsubscribeRequest at h
  repeat' split at h
  all_goals first
    | (have h2 := OnUnsubscribeRequestLoop_getRequests _ _ _ _ _ _ ‹_›
       injection h with h
       subst h
       exact h2)
    | (injection h with h
       subst h
       rfl)
    | (injection h)

theorem OnServerToServerGetRequest_getRequests (s s1 : State) (guid : Nat)
    (cloudQueryWithAddresses : CloudQueryWithAddresses) (requestId : Nat)
    (h : OnServerToServerGetRequest s guid cloudQueryWithAddresses requestId = some s1) :
    s1.getRequests = s.getRequests := by
  unfold OnServerToServerGetRequest at h
  repeat' split at h
  all_goals first
    | (injection h with h
       subst h
       rfl)
    | (injection h)

theorem OnClosedConnectionUploaded_getRequests (rakNetGUID : Nat) :
    ∀ (keys : List CloudKey) (s s1 : State),
      OnClosedConnectionUploaded rakNetGUID keys s = some s1 →
      s1.getRequests = s.getRequests := by
  intro keys
  induction keys with
  | nil =>
    intro s s1 h
    simp only [OnClosedConnectionUploaded, Option.some.injEq] at h
    rw [← h]
  | cons key keys ih =>
    intro s s1 h
    unfold OnClosedConnectionUploaded at h
    dsimp only at h
    repeat' split at h
    all_goals first
      | exact ih _ _ h
      | (have h3 := NotifyServerSubscribersOfDataChange_getRequests _ _ _ _ _
            ‹NotifyServerSubscribersOfDataChange _ _ _ _ = some _›
         rw [ih _ _ h]
         simp only [h3, RemoveUploadedKeyFromServers, sendToServers_getRequests,
           NotifyClientSubscribersOfDataChange_getRequests])
      | (injection h)

theorem OnClosedConnectionSubscribed_getRequests (rakNetGUID : Nat) :
    ∀ (keys : List KeySubscriberID) (s s1 : State),
      OnClosedConnectionSubscribed rakNetGUID keys s = some s1 →
      s1.getRequests = s.getRequests := by
  intro keys
  induction keys with
  | nil =>
    intro s s1 h
    simp only [OnClosedConnectionSubscribed, Option.some.injEq] at h
    rw [← h]
  | cons key keys ih =>
    intro s s1 h
    unfold OnClosedConnectionSubscribed at h
    dsimp only at h
    repeat' split at h
    all_goals first
      | exact ih _ _ h
      | (rw [ih _ _ h])
      | (injection h)

theorem OnClosedConnectionClient_getRequests (s s1 : State) (rakNetGUID : Nat)
    (h : OnClosedConnectionClient s rakNetGUID = some s1) :
    s1.getRequests = s.getRequests := by
  unfold OnClosedConnectionClient at h
  repeat' split at h
  all_goals first
    | (have h1 := OnClosedConnectionUploaded_getRequests _ _ _ _ ‹_›
       have h2 := OnClosedConnectionSubscribed_getRequests _ _ _ _ ‹_›
       injection h with h
       subst h
       exact h2.trans h1)
    | (injection h with h
       subst h
       rfl)
    | (injection h)

theorem SendUploadedAndSubscribedKeysToServer_getRequests (s : State) (systemAddress : Nat) :
    (SendUploadedAndSubscribedKeysToServer s systemAddress).getRequests = s.getRequests := by
  unfold SendUploadedAndSubscribedKeysToServer
  dsimp only
  split <;> rfl

theorem AddServer_getRequests (s s1 : State) (systemIdentifier : Nat) (cs : ConnectionState)
    (h : AddServer s systemIdentifier cs = some s1) :
    s1.getRequests = s.getRequests := by
  unfold AddServer at h
  dsimp only at h
  repeat' split at h
  all_goals first
    | (injection h with h
       subst h
       first
        | rfl
        | exact SendUploadedAndSubscribedKeysToServer_getRequests _ _)
    | (injection h)

theorem RemoveServer_getRequests (s s1 : State) (systemAddress : Nat)
    (h : RemoveServer s systemAddress = some s1) :
    s1.getRequests = s.getRequests := by
  unfold RemoveServer at h
  repeat' split at h
  all_goals first
    | (injection h with h
       subst h
       rfl)
    | (injection h)

theorem OnSendUploadedAndSubscribedKeysToServer_getRequests (s s1 : State) (guid : Nat)
    (uploaded subscribed : List CloudKey)
    (h : OnSendUploadedAndSubscribedKeysToServer s guid uploaded subscribed = some s1) :
    s1.getRequests = s.getRequests := by
  unfold OnSendUploadedAndSubscribedKeysToServer at h
  repeat' split at h
  all_goals first
    | (injection h with h
       subst h
       rfl)
    | (injection h)

theorem OnSendUploadedKeyToServers_getRequests (s s1 : State) (guid : Nat) (cloudKey : CloudKey)
    (h : OnSendUploadedKeyToServers s guid cloudKey = some s1) :
    s1.getRequests = s.getRequests := by
  unfold OnSendUploadedKeyToServers at h
  repeat' split at h
  all_goals first
    | (injection h with h
       subst h
       rfl)
    | (injection h)

theorem OnSendSubscribedKeyToServers_getRequests (s s1 : State) (guid : Nat)
    (cloudKey : CloudKey) (h : OnSendSubscribedKeyToServers s guid cloudKey = some s1) :
    s1.getRequests = s.getRequests := by
  unfold OnSendSubscribedKeyToServers at h
  repeat' split at h
  all_goals first
    | (injection h with h
       subst h
       rfl)
    | (injection h)

theorem OnRemoveUploadedKeyFromServers_getRequests (s s1 : State) (guid : Nat)
    (cloudKey : CloudKey) (h : OnRemoveUploadedKeyFromServers s guid cloudKey = some s1) :
    s1.getRequests = s.getRequests := by
  unfold OnRemoveUploadedKeyFromServers at h
  repeat' split at h
  all_goals first
    | (injection h with h
       subst h
       rfl)
    | (injection h)

theorem OnRemoveSubscribedKeyFromServers_getRequests (s s1 : State) (guid : Nat)
    (cloudKey : CloudKey) (h : OnRemoveSubscribedKeyFromServers s guid cloudKey = some s1) :
    s1.getRequests = s.getRequests := by
  unfold OnRemoveSubscribedKeyFromServers at h
  repeat' split at h
  all_goals first
    | (injection h with h
       subst h
       rfl)
    | (injection h)

theorem OnServerDataChanged_getRequests (s s1 : State) (guid : Nat) (wasUpdated : Bool)
    (row : CloudQueryRow) (h : OnServerDataChanged s guid wasUpdated row = some s1) :
    s1.getRequests = s.getRequests := by
  unfold OnServerDataChanged at h
  repeat' split at h
  all_goals first
    | (injection h with h
       subst h
       first
        | rfl
        | simp only [NotifyClientSubscribersOfDataChangeRow_getRequests])
    | (injection h)

/-! ### Outstanding get requests -/

theorem Insert_mem {K D : Type} (cf : K → D → Int) (key : K) (data : D) (l l1 : List D)
    (position : Option Nat) (h : OrderedList.Insert cf key data l = some (l1, position)) :
    (∀ x, x ∈ l1 → x ∈ l ∨ x = data) ∧ l.length ≤ l1.length := by
  unfold OrderedList.Insert at h
  split at h
  · cases h
  · split at h
    · cases h
      exact ⟨fun x hx => Or.inl hx, Nat.le_refl _⟩
    · split at h
      · cases h
        refine ⟨fun x hx => ?_, by simp⟩
        rcases List.mem_append.mp hx with hx | hx
        · exact Or.inl hx
        · exact Or.inr (List.mem_singleton.mp hx)
      · cases h
        refine ⟨fun x hx => ?_, ?_⟩
        · unfold ListInsert at hx
          rcases List.mem_append.mp hx with hx | hx
          · exact Or.inl (List.mem_of_mem_take hx)
          · rcases List.mem_cons.mp hx with hx | hx
            · exact Or.inr hx
            · exact Or.inl (List.mem_of_mem_drop hx)
        · unfold ListInsert
          simp only [List.length_append, List.length_cons, List.length_take, List.length_drop]
          omega

theorem Insert_nil {K D : Type} (cf : K → D → Int) (key : K) (data : D) :
    OrderedList.Insert cf key data [] = some ([data], some 0) := by
  unfold OrderedList.Insert GetIndexFromKey
  simp

theorem exists_open_slot_of_not_AllRemoteServersHaveResponded :
    ∀ (slots : List BufferedGetResponseFromServer),
      AllRemoteServersHaveResponded slots = false →
      ∃ slot, slot ∈ slots ∧ slot.gotResult = false := by
  intro slots
  induction slots with
  | nil => intro h; simp [AllRemoteServersHaveResponded] at h
  | cons slot slots ih =>
    intro h
    unfold AllRemoteServersHaveResponded at h
    split at h
    · rename_i hslot
      exact ⟨slot, List.mem_cons_self _ _, by simpa using hslot⟩
    · rcases ih h with ⟨x, hx, hfalse⟩
      exact ⟨x, List.mem_cons_of_mem _ hx, hfalse⟩

theorem Outstanding_of_not_AllRemoteServersHaveResponded (getRequest : GetRequest)
    (h : AllRemoteServersHaveResponded getRequest.remoteServerResponses = false) :
    getRequest.Outstanding := by
  rcases exists_open_slot_of_not_AllRemoteServersHaveResponded _ h with ⟨slot, hmem, hfalse⟩
  exact ⟨List.length_pos_of_mem hmem, slot, hmem, hfalse⟩

theorem OnGetRequestFanOut_slots (message : Message) :
    ∀ (servers : List RemoteServer) (slots slots1 : List BufferedGetResponseFromServer)
      (s s1 : State),
      OnGetRequestFanOut message servers slots s = some (slots1, s1) →
      (∀ slot, slot ∈ slots → slot.gotResult = false) →
      (∀ slot, slot ∈ slots1 → slot.gotResult = false) ∧ slots.length ≤ slots1.length ∧
        s1.getRequests = s.getRequests := by
  intro servers
  induction servers with
  | nil =>
    intro slots slots1 s s1 h hall
    simp only [OnGetRequestFanOut, Option.some.injEq, Prod.mk.injEq] at h
    rcases h with ⟨h1, h2⟩
    subst h1
    subst h2
    exact ⟨hall, Nat.le_refl _, rfl⟩
  | cons r rs ih =>
    intro slots slots1 s s1 h hall
    unfold OnGetRequestFanOut at h
    dsimp only at h
    split at h
    · cases h
    · rename_i slots2 position hins
      rcases Insert_mem _ _ _ _ _ _ hins with ⟨hmem, hlen⟩
      have hall2 : ∀ slot, slot ∈ slots2 → slot.gotResult = false := by
        intro slot hslot
        rcases hmem slot hslot with hold | hnew
        · exact hall slot hold
        · rw [hnew]
      rcases ih _ _ _ _ h hall2 with ⟨h1, h2, h3⟩
      exact ⟨h1, Nat.le_trans hlen h2, h3⟩

theorem OnGetRequestFanOut_nonempty (message : Message) (r : RemoteServer)
    (rs : List RemoteServer) (slots1 : List BufferedGetResponseFromServer) (s s1 : State)
    (h : OnGetRequestFanOut message (r :: rs) [] s = some (slots1, s1)) :
    1 ≤ slots1.length := by
  unfold OnGetRequestFanOut at h
  dsimp only at h
  rw [Insert_nil] at h
  dsimp only at h
  have h2 := (OnGetRequestFanOut_slots message rs _ _ _ _ h
    (by intro slot hslot; rw [List.mem_singleton.mp hslot])).2.1
  simpa using h2

theorem answered_outstanding (s2 s4 : State) (query : CloudQueryWithAddresses)
    (time requestId client : Nat) (message : Message)
    (remoteServersWithData : List RemoteServer)
    (h : (if remoteServersWithData.length = 0 then
            ProcessAndTransmitGetRequest s2
              { cloudQueryWithAddresses := query, requestStartTime := time,
                requestId := requestId, requestingClient := client,
                remoteServerResponses := [] }
          else
            match OnGetRequestFanOut message remoteServersWithData [] s2 with
            | none => none
            | some (remoteServerResponses, s3) =>
              match OrderedList.Insert GetRequestComp requestId
                  { cloudQueryWithAddresses := query, requestStartTime := time,
                    requestId := requestId, requestingClient := client,
                    remoteServerResponses := remoteServerResponses }
                  s3.getRequests with
              | none => none
              | some (getRequests1, _) => some { s3 with getRequests := getRequests1 })
        = some s4)
    (hinv : ∀ r, r ∈ s2.getRequests → r.Outstanding) :
    ∀ r, r ∈ s4.getRequests → r.Outstanding := by
  split at h
  · rw [ProcessAndTransmitGetRequest_getRequests _ _ _ h]
    exact hinv
  · rename_i hlen
    split at h
    · cases h
    · rename_i slots s3 hfan
      split at h
      · cases h
      · rename_i getRequests1 position hins
        injection h with h
        subst h
        dsimp only
        cases remoteServersWithData with
        | nil => exact absurd rfl hlen
        | cons server servers =>
          have hslots := OnGetRequestFanOut_slots _ _ _ _ _ _ hfan (by intro slot hslot; cases hslot)
          have hne := OnGetRequestFanOut_nonempty _ _ _ _ _ _ hfan
          rcases Insert_mem _ _ _ _ _ _ hins with ⟨hmem, _⟩
          intro r hr
          rcases hmem r hr with hold | hnew
          · rw [hslots.2.2] at hold
            exact hinv r hold
          · rw [hnew]
            refine ⟨hne, ?_⟩
            cases slots with
            | nil => exact absurd hne (by simp)
            | cons slot rest =>
              exact ⟨slot, List.mem_cons_self _ _, hslots.1 slot (List.mem_cons_self _ _)⟩

theorem OnGetRequest_outstanding (env : Env) (s s1 : State) (guid systemAddress : Nat)
    (cloudQuery : CloudQuery) (specificSystems : List Nat) (time : Nat)
    (h : OnGetRequest env s guid systemAddress cloudQuery specificSystems time = some s1)
    (hinv : ∀ r, r ∈ s.getRequests → r.Outstanding) :
    ∀ r, r ∈ s1.getRequests → r.Outstanding := by
  unfold OnGetRequest at h
  dsimp only at h
  split at h
  · injection h with h
    subst h
    exact hinv
  · split at h
    · injection h with h
      subst h
      exact hinv
    · split at h
      · cases h
      · split at h
        · cases h
        · rename_i s4 hanswered
          have h4 : ∀ r, r ∈ s4.getRequests → r.Outstanding :=
            answered_outstanding _ s4 _ _ _ _ _ _ hanswered hinv
          repeat' split at h
          all_goals first
            | (injection h with h
               subst h
               exact h4)
            | (have h6 := OnGetRequestSubscribe_getRequests _ _ _ _ _ _ _ ‹_›
               injection h with h
               subst h
               dsimp only at h6 ⊢
               rw [h6]
               split <;> exact h4)
            | (injection h)

theorem OnServerToServerGetResponse_outstanding (s s1 : State) (guid requestId : Nat)
    (rows : List CloudQueryRow)
    (h : OnServerToServerGetResponse s guid requestId rows = some s1)
    (hinv : ∀ r, r ∈ s.getRequests → r.Outstanding) :
    ∀ r, r ∈ s1.getRequests → r.Outstanding := by
  unfold OnServerToServerGetResponse at h
  dsimp only at h
  repeat' split at h
  all_goals first
    | (injection h with h
       subst h
       exact hinv)
    | (have h2 := ProcessAndTransmitGetRequest_getRequests _ _ _ ‹_›
       injection h with h
       subst h
       dsimp only
       intro r hr
       have hr2 := List.mem_of_mem_eraseIdx hr
       rw [h2] at hr2
       exact hinv r hr2)
    | (injection h with h
       subst h
       dsimp only
       intro r hr
       rcases List.mem_or_eq_of_mem_set hr with hold | hnew
       · exact hinv r hold
       · rw [hnew]
         apply Outstanding_of_not_AllRemoteServersHaveResponded
         simpa using ‹¬AllRemoteServersHaveResponded _ = true›)
    | (injection h)

theorem OnClosedConnectionRequests_outstanding (rakNetGUID : Nat) :
    ∀ (pending kept : List GetRequest) (s s1 : State),
      OnClosedConnectionRequests rakNetGUID pending kept s = some s1 →
      (∀ r, r ∈ pending → r.Outstanding) → (∀ r, r ∈ kept → r.Outstanding) →
      ∀ r, r ∈ s1.getRequests → r.Outstanding := by
  intro pending
  induction pending with
  | nil =>
    intro kept s s1 h _ hkept
    simp only [OnClosedConnectionRequests, Option.some.injEq] at h
    subst h
    exact hkept
  | cons getRequest pending ih =>
    intro kept s s1 h hpending hkept
    have hrest : ∀ r, r ∈ pending → r.Outstanding :=
      fun r hr => hpending r (List.mem_cons_of_mem _ hr)
    unfold OnClosedConnectionRequests at h
    dsimp only at h
    repeat' split at h
    all_goals first
      | exact ih _ _ _ h hrest hkept
      | (refine ih _ _ _ h hrest ?_
         intro r hr
         rcases List.mem_append.mp hr with hold | hnew
         · exact hkept r hold
         · rw [List.mem_singleton.mp hnew]
           first
            | exact hpending _ (List.mem_cons_self _ _)
            | (apply Outstanding_of_not_AllRemoteServersHaveResponded
               simpa using ‹¬AllRemoteServersHaveResponded _ = true›))
      | (injection h)

theorem OnClosedConnection_outstanding (s s1 : State) (rakNetGUID : Nat)
    (h : OnClosedConnection s rakNetGUID = some s1)
    (hinv : ∀ r, r ∈ s.getRequests → r.Outstanding) :
    ∀ r, r ∈ s1.getRequests → r.Outstanding := by
  unfold OnClosedConnection at h
  split at h
  · cases h
  · rename_i s2 hserver
    rw [OnClosedConnectionClient_getRequests _ _ _ h]
    unfold OnClosedConnectionServer at hserver
    repeat' split at hserver
    all_goals first
      | (injection hserver with hserver
         subst hserver
         exact hinv)
      | (have h2 := OnClosedConnectionRequests_outstanding _ _ _ _ _ ‹_› hinv
           (by intro r hr; cases hr)
         injection hserver with hserver
         subst hserver
         exact h2)
      | (injection hserver)

theorem Update_eq (s : State) : Update s = some s := by
  unfold Update
  simp

/-- The state of `twoServersAfterGetState` is reached by two calls of `AddServer` and one
get request. -/
theorem twoServersAfterGetState_reachable : Reachable Env.acceptAll twoServersAfterGetState :=
  Reachable.onGetRequest 3 13 (plainQuery [⟨1, 0⟩]) [] 0
    (Reachable.addServer 6 ConnectionState.IS_CONNECTED
      (Reachable.addServer 5 ConnectionState.IS_CONNECTED Reachable.init
        (show AddServer State.init 5 ConnectionState.IS_CONNECTED = some oneServerState by decide))
      (show AddServer oneServerState 6 ConnectionState.IS_CONNECTED = some twoServersState
        by decide))
    (show OnGetRequest Env.acceptAll twoServersState 3 13 (plainQuery [⟨1, 0⟩]) [] 0
      = some twoServersAfterGetState by decide)

/-! ### Unknown servers -/

theorem RemoteServerComp_eq_zero (key : Nat) (data : RemoteServer)
    (h : toSizeT (RemoteServerComp key data) = 0) : key = data.serverAddress := by
  unfold RemoteServerComp at h
  split_ifs at h with h1 h2
  · exact absurd h toSizeT_neg_one
  · exact absurd h toSizeT_one
  · omega

/-- A GUID that is not in the registry of remote servers is not found in it. -/
theorem GetIndexFromKey_unregistered (s : State) (guid : Nat)
    (h : guid ∉ registeredServers s) :
    ∃ index, GetIndexFromKey RemoteServerComp guid s.remoteServers = some (index, false) := by
  obtain ⟨i, b, hres, _, _⟩ := GetIndexFromKey_returns RemoteServerComp guid s.remoteServers
  cases b with
  | false => exact ⟨i, hres⟩
  | true =>
    obtain ⟨position, d, hget, hzero, _⟩ :=
      GetIndexFromKey_found RemoteServerComp guid s.remoteServers i hres
    have hmem : d ∈ s.remoteServers := List.get?_mem hget
    have hkey := RemoteServerComp_eq_zero guid d hzero
    exact absurd (List.mem_map.mpr ⟨d, hmem, hkey.symm⟩) h

/-! ### The filter chain -/

/-- When the chain rejects, the filters called are those up to the first rejecting one. -/
theorem filtersConsulted_of_reject (accepts : Nat → Bool) :
    ∀ filters : List Nat, filtersAccept accepts filters = false →
      ∃ before rejecting after, filters = before ++ rejecting :: after ∧
        (∀ filter ∈ before, accepts filter = true) ∧ accepts rejecting = false ∧
        filtersConsulted accepts filters = before ++ [rejecting] := by
  intro filters
  induction filters with
  | nil => intro h; simp [filtersAccept] at h
  | cons filter rest ih =>
    intro h
    unfold filtersAccept at h
    unfold filtersConsulted
    cases hf : accepts filter with
    | false =>
      exact ⟨[], filter, rest, rfl, fun _ hm => (by cases hm), hf, by simp⟩
    | true =>
      rw [hf] at h
      simp only [Bool.not_true, Bool.false_eq_true, if_false] at h
      obtain ⟨before, rejecting, after, h1, h2, h3, h4⟩ := ih h
      refine ⟨filter :: before, rejecting, after, by rw [h1]; rfl, ?_, h3, ?_⟩
      · intro x hx
        rcases List.mem_cons.mp hx with hx | hx
        · rw [hx]; exact hf
        · exact h2 x hx
      · simp [h4]

theorem ListGetIndexOf_eq_notFound (l : List Nat) (input : Nat) (hlen : l.length < 2 ^ 32) :
    ListGetIndexOf l input = 4294967295 ↔ input ∉ l := by
  unfold ListGetIndexOf
  by_cases h : input ∈ l
  · rw [if_pos h]
    have : l.indexOf input < l.length := List.indexOf_lt_length.mpr h
    constructor
    · intro h1; omega
    · intro h1; exact absurd h h1
  · rw [if_neg h]
    exact ⟨fun _ => h, fun _ => rfl⟩

theorem AddQueryFilter_of_mem (s : State) (filter : Nat) (hlen : s.queryFilters.length < 2 ^ 32)
    (h : filter ∈ s.queryFilters) : AddQueryFilter s filter = s := by
  unfold AddQueryFilter
  rw [if_pos]
  intro h1
  exact (ListGetIndexOf_eq_notFound _ _ hlen).mp h1 h

theorem AddQueryFilter_of_not_mem (s : State) (filter : Nat)
    (hlen : s.queryFilters.length < 2 ^ 32) (h : filter ∉ s.queryFilters) :
    AddQueryFilter s filter = { s with queryFilters := s.queryFilters ++ [filter] } := by
  unfold AddQueryFilter
  rw [if_neg]
  intro h1
  exact h1 ((ListGetIndexOf_eq_notFound _ _ hlen).mpr h)

theorem filtersAccept_iff (accepts : Nat → Bool) :
    ∀ filters : List Nat,
      filtersAccept accepts filters = true ↔ ∀ filter ∈ filters, accepts filter = true := by
  intro filters
  induction filters with
  | nil => simp [filtersAccept]
  | cons filter rest ih =>
    unfold filtersAccept
    cases hf : accepts filter with
    | false => simp [hf]
    | true => simp [hf, ih]

theorem filtersConsulted_of_accept (accepts : Nat → Bool) :
    ∀ filters : List Nat, filtersAccept accepts filters = true →
      filtersConsulted accepts filters = filters := by
  intro filters
  induction filters with
  | nil => intro _; rfl
  | cons filter rest ih =>
    intro h
    unfold filtersAccept at h
    unfold filtersConsulted
    cases hf : accepts filter with
    | false => rw [hf] at h; simp at h
    | true =>
      rw [hf] at h
      simp only [Bool.not_true, Bool.false_eq_true, if_false] at h ⊢
      rw [ih h]

/-- The chain after a sequence of `AddQueryFilter` calls. -/
theorem addQueryFilters_chain :
    ∀ (filters : List Nat) (s : State), s.queryFilters.Nodup →
      s.queryFilters.length + filters.length < 2 ^ 32 →
      (addQueryFilters s filters).queryFilters.Nodup ∧
        (∀ filter, filter ∈ (addQueryFilters s filters).queryFilters ↔
          filter ∈ s.queryFilters ∨ filter ∈ filters) := by
  intro filters
  induction filters with
  | nil => intro s hnd _; exact ⟨hnd, fun f => by simp [addQueryFilters]⟩
  | cons filter rest ih =>
    intro s hnd hlen
    simp only [List.length_cons] at hlen
    have hs : s.queryFilters.length < 2 ^ 32 := by omega
    have hstep : addQueryFilters s (filter :: rest) =
        addQueryFilters (AddQueryFilter s filter) rest := rfl
    rw [hstep]
    by_cases hmem : filter ∈ s.queryFilters
    · rw [AddQueryFilter_of_mem s filter hs hmem]
      obtain ⟨h1, h2⟩ := ih s hnd (by omega)
      refine ⟨h1, fun f => ?_⟩
      rw [h2 f, List.mem_cons]
      constructor
      · rintro (h | h)
        · exact Or.inl h
        · exact Or.inr (Or.inr h)
      · rintro (h | h | h)
        · exact Or.inl h
        · exact Or.inl (h ▸ hmem)
        · exact Or.inr h
    · rw [AddQueryFilter_of_not_mem s filter hs hmem]
      have hnd1 : (s.queryFilters ++ [filter]).Nodup := by
        rw [List.nodup_append]
        refine ⟨hnd, List.nodup_singleton _, ?_⟩
        intro a ha hb
        rw [List.mem_singleton] at hb
        exact hmem (hb ▸ ha)
      obtain ⟨h1, h2⟩ := ih { s with queryFilters := s.queryFilters ++ [filter] } hnd1
        (by simp only [List.length_append, List.length_singleton]; omega)
      refine ⟨h1, fun f => ?_⟩
      rw [h2 f]
      simp only [List.mem_append, List.mem_singleton, List.mem_cons]
      tauto

/-! ### The order of the rows of a local query -/

theorem KeyDataPtrComp_eq_zero (key : Nat) (data : CloudData)
    (h : toSizeT (KeyDataPtrComp key data) = 0) : data.clientGUID = key := by
  unfold KeyDataPtrComp at h
  split_ifs at h with h1 h2
  · exact absurd h toSizeT_neg_one
  · exact absurd h toSizeT_one
  · omega

theorem KeyDataListComp_eq_zero (key : CloudKey) (data : CloudDataList)
    (h : toSizeT (KeyDataListComp key data) = 0) : data.key = key := by
  unfold KeyDataListComp at h
  split_ifs at h with h1 h2 h3 h4
  · exact absurd h toSizeT_neg_one
  · exact absurd h toSizeT_one
  · exact absurd h toSizeT_neg_one
  · exact absurd h toSizeT_one
  · cases hk : key with
    | mk p q =>
      cases hd : data.key with
      | mk p1 q1 =>
        rw [hk, hd] at h1 h2 h3 h4
        simp only at h1 h2 h3 h4
        have hp : p1 = p := by omega
        have hq : q1 = q := by omega
        rw [hp, hq]

/-- The rows that the loop over `specificSystems` adds for one key are the entries found
for the named systems, in the order of `specificSystems`, and each of them is the entry of
the system that names it. -/
theorem ProcessCloudQuerySystems_rows (cloudDataList : CloudDataList) (key : CloudKey)
    (hlen : cloudDataList.keyData.length < 2 ^ 32) :
    ∀ (systems : List Nat) (acc : List CloudData × List CloudKey),
      ProcessCloudQuerySystems cloudDataList key systems acc =
          some (acc.1 ++ systems.filterMap (entryOfSystem cloudDataList.keyData),
            acc.2 ++ List.replicate
              (systems.filterMap (entryOfSystem cloudDataList.keyData)).length key) ∧
        (ownersOf (systems.filterMap (entryOfSystem cloudDataList.keyData))).Sublist systems := by
  intro systems
  induction systems with
  | nil =>
    intro acc
    exact ⟨by simp [ProcessCloudQuerySystems], by simp [ownersOf]⟩
  | cons system rest ih =>
    intro acc
    unfold ProcessCloudQuerySystems
    obtain ⟨i, b, hres, _, hlt⟩ := GetIndexFromKey_returns KeyDataPtrComp system
      cloudDataList.keyData
    rw [hres]
    cases b with
    | false =>
      have hentry : entryOfSystem cloudDataList.keyData system = none := by
        unfold entryOfSystem
        rw [hres]
      obtain ⟨h1, h2⟩ := ih acc
      rw [List.filterMap_cons_none hentry]
      exact ⟨by simpa using h1, List.Sublist.cons _ h2⟩
    | true =>
      obtain ⟨d, hget, hzero⟩ := GetIndexFromKey_found_get KeyDataPtrComp system
        cloudDataList.keyData i hlen hres
      have howner := KeyDataPtrComp_eq_zero system d hzero
      have hentry : entryOfSystem cloudDataList.keyData system = some d := by
        unfold entryOfSystem
        rw [hres]
        exact hget
      obtain ⟨h1, h2⟩ := ih (acc.1 ++ [d], acc.2 ++ [key])
      rw [List.filterMap_cons_some hentry]
      refine ⟨?_, ?_⟩
      · simp only [if_true, hget]
        rw [h1]
        simp [List.replicate_succ]
      · simp only [ownersOf, List.map_cons, howner]
        exact List.Sublist.cons₂ _ h2

theorem ProcessCloudQueryAll_rows (key : CloudKey) :
    ∀ (keyData : List CloudData) (acc : List CloudData × List CloudKey),
      ProcessCloudQueryAll key keyData acc =
        (acc.1 ++ keyData, acc.2 ++ List.replicate keyData.length key) := by
  intro keyData
  induction keyData with
  | nil => intro acc; simp [ProcessCloudQueryAll]
  | cons d rest ih =>
    intro acc
    unfold ProcessCloudQueryAll
    rw [ih]
    simp [List.replicate_succ]

/-! ### Insertion order of the `keyData` lists -/

theorem ownersOf_append (a b : List CloudData) : ownersOf (a ++ b) = ownersOf a ++ ownersOf b := by
  simp [ownersOf]

theorem ownersOf_length (a : List CloudData) : (ownersOf a).length = a.length := by
  simp [ownersOf]

theorem ownersOf_set (keyData : List CloudData) (index : Nat) (cloudData cloudData1 : CloudData)
    (hget : keyData.get? index = some cloudData)
    (howner : cloudData1.clientGUID = cloudData.clientGUID) :
    ownersOf (keyData.set index cloudData1) = ownersOf keyData := by
  unfold ownersOf
  rw [List.map_set, howner]
  apply List.ext_get?
  intro n
  by_cases hn : n = index
  · subst hn
    rw [List.get?_eq_getElem?, List.get?_eq_getElem?] at *
    rw [List.getElem?_set_self']
    simp [hget]
  · rw [List.get?_eq_getElem?, List.get?_eq_getElem?]
    rw [List.getElem?_set_ne (Ne.symm hn)]

theorem ownersOf_RemoveAtIndex (keyData : List CloudData) (index : Nat) :
    (ownersOf (RemoveAtIndex index keyData)).Sublist (ownersOf keyData) := by
  unfold ownersOf RemoveAtIndex ListRemoveAtIndex
  exact List.Sublist.map _ (List.eraseIdx_sublist _ _)

theorem length_RemoveAtIndex_le {D : Type} (l : List D) (index : Nat) :
    (RemoveAtIndex index l).length ≤ l.length := by
  unfold RemoveAtIndex ListRemoveAtIndex
  exact (List.eraseIdx_sublist _ _).length_le

theorem RemoveSpecificSubscriber_keeps (specificSubscriber : Nat) (l l1 : CloudDataList)
    (g : Nat) (h : RemoveSpecificSubscriber specificSubscriber l g = some l1) :
    l1.key = l.key ∧ (ownersOf l1.keyData).Sublist (ownersOf l.keyData) := by
  unfold RemoveSpecificSubscriber at h
  dsimp only at h
  repeat' split at h
  all_goals first
    | (exact Option.noConfusion h)
    | (injection h with h; subst h; exact ⟨rfl, List.Sublist.refl _⟩)
    | (injection h with h; subst h; exact ⟨rfl, ownersOf_RemoveAtIndex _ _⟩)
    | (injection h with h; subst h
       refine ⟨rfl, ?_⟩
       have hget := ‹List.get? _ _ = some _›
       rw [ownersOf_set _ _ _ _ hget]
       all_goals rfl)

theorem UnsubscribeAllSpecific_keeps (g : Nat) :
    ∀ (systems : List Nat) (l l1 : CloudDataList),
      UnsubscribeAllSpecific g systems l = some l1 →
      l1.key = l.key ∧ (ownersOf l1.keyData).Sublist (ownersOf l.keyData) := by
  intro systems
  induction systems with
  | nil =>
    intro l l1 h
    unfold UnsubscribeAllSpecific at h
    injection h with h; subst h; exact ⟨rfl, List.Sublist.refl _⟩
  | cons system rest ih =>
    intro l l1 h
    unfold UnsubscribeAllSpecific at h
    split at h
    · injection h
    · rename_i l2 h2
      obtain ⟨k1, o1⟩ := RemoveSpecificSubscriber_keeps _ _ _ _ h2
      obtain ⟨k2, o2⟩ := ih _ _ h
      exact ⟨k2.trans k1, o2.trans o1⟩

theorem UnsubscribeNamedSpecific_keeps (g : Nat) :
    ∀ (systems subscribedTo : List Nat) (l : CloudDataList) (r : List Nat × CloudDataList),
      UnsubscribeNamedSpecific g systems subscribedTo l = some r →
      r.2.key = l.key ∧ (ownersOf r.2.keyData).Sublist (ownersOf l.keyData) := by
  intro systems
  induction systems with
  | nil =>
    intro subscribedTo l r h
    unfold UnsubscribeNamedSpecific at h
    injection h with h; subst h; exact ⟨rfl, List.Sublist.refl _⟩
  | cons system rest ih =>
    intro subscribedTo l r h
    unfold UnsubscribeNamedSpecific at h
    repeat' split at h
    all_goals first
      | (exact Option.noConfusion h)
      | (have h1 := RemoveSpecificSubscriber_keeps _ _ _ _ ‹RemoveSpecificSubscriber _ _ _ = some _›
         have h2 := ih _ _ _ h
         exact ⟨h2.1.trans h1.1, h2.2.trans h1.2⟩)
      | exact ih _ _ _ h

theorem RemoveSubscriber_keeps (l : CloudDataList) (g : Nat) (r : CloudDataList × Bool)
    (h : l.RemoveSubscriber g = some r) : r.1.key = l.key ∧ r.1.keyData = l.keyData := by
  unfold CloudDataList.RemoveSubscriber at h
  repeat' split at h
  all_goals first
    | (exact Option.noConfusion h)
    | (injection h with h; subst h; exact ⟨rfl, rfl⟩)

theorem removeFromSpecific_keeps (g : Nat) :
    ∀ (systems : List Nat) (l l1 : CloudDataList),
      removeFromSpecific g systems l = some l1 →
      l1.key = l.key ∧ ownersOf l1.keyData = ownersOf l.keyData := by
  intro systems
  induction systems with
  | nil =>
    intro l l1 h
    unfold removeFromSpecific at h
    injection h with h; subst h; exact ⟨rfl, rfl⟩
  | cons system rest ih =>
    intro l l1 h
    unfold removeFromSpecific at h
    repeat' split at h
    all_goals first
      | (exact Option.noConfusion h)
      | (have h2 := ih _ _ h
         refine ⟨h2.1, ?_⟩
         rw [h2.2]
         have hget := ‹List.get? _ _ = some _›
         rw [ownersOf_set _ _ _ _ hget]
         all_goals rfl)
      | exact ih _ _ h

theorem OnClosedConnectionSpecific_keeps (g : Nat) :
    ∀ (systems : List Nat) (l l1 : CloudDataList),
      OnClosedConnectionSpecific g systems l = some l1 →
      l1.key = l.key ∧ ownersOf l1.keyData = ownersOf l.keyData := by
  intro systems
  induction systems with
  | nil =>
    intro l l1 h
    unfold OnClosedConnectionSpecific at h
    injection h with h; subst h; exact ⟨rfl, rfl⟩
  | cons system rest ih =>
    intro l l1 h
    unfold OnClosedConnectionSpecific at h
    repeat' split at h
    all_goals first
      | (exact Option.noConfusion h)
      | (have h2 := ih _ _ h
         refine ⟨h2.1, ?_⟩
         rw [h2.2]
         have hget := ‹List.get? _ _ = some _›
         rw [ownersOf_set _ _ _ _ hget]
         all_goals rfl)
      | exact ih _ _ h

/-- The loop that installs a specific subscription appends an entry for each named system
that it does not find, in the order of the names, and leaves the other entries in
place. -/
theorem subscribeSpecific_appends (env : Env) (guid : Nat) :
    ∀ (systems : List Nat) (l l1 : CloudDataList),
      l.keyData.length + systems.length < 2 ^ 32 →
      subscribeSpecific env guid systems l = some l1 →
      l1.key = l.key ∧ ∃ added : List Nat,
        ownersOf l1.keyData = ownersOf l.keyData ++ added ∧ added.Sublist systems := by
  intro systems
  induction systems with
  | nil =>
    intro l l1 _ h
    unfold subscribeSpecific at h
    injection h with h; subst h
    exact ⟨rfl, [], by simp, List.Sublist.refl _⟩
  | cons system rest ih =>
    intro l l1 hlen h
    simp only [List.length_cons] at hlen
    unfold subscribeSpecific at h
    dsimp only at h
    repeat' split at h
    all_goals first
      | (exact Option.noConfusion h)
      | (have hins := ‹Insert KeyDataPtrComp _ _ _ = some _›
         have hcase := Insert_appends _ _ _ _ _ _ (by omega) hins
         rcases hcase with hcase | hcase
         · subst hcase
           have h2 := ih _ _ (by dsimp only; omega) h
           obtain ⟨k2, added, o2, sub2⟩ := h2
           exact ⟨k2, added, o2, List.Sublist.cons _ sub2⟩
         · subst hcase
           have h2 := ih _ _
             (by simp only [List.length_append, List.length_singleton]; omega) h
           obtain ⟨k2, added, o2, sub2⟩ := h2
           refine ⟨k2, system :: added, ?_, List.Sublist.cons₂ _ sub2⟩
           rw [o2]
           simp [ownersOf])
      | (have h2 := ih _ _ (by simp only [List.length_set]; omega) h
         obtain ⟨k2, added, o2, sub2⟩ := h2
         have hget := ‹List.get? _ _ = some _›
         refine ⟨k2, added, ?_, List.Sublist.cons _ sub2⟩
         rw [o2, ownersOf_set _ _ _ _ hget]
         all_goals rfl)

/-! ### Handlers that leave the repository alone -/

theorem sendToEach_dataRepository (message : Message) :
    ∀ (gs : List Nat) (s : State), (sendToEach s message gs).dataRepository = s.dataRepository := by
  intro gs
  induction gs with
  | nil => intro s; rfl
  | cons g gs ih => intro s; unfold sendToEach; rw [ih]; rfl

theorem NotifyClientSubscribersOfDataChange_dataRepository (s : State) (cloudData : CloudData)
    (key : CloudKey) (subscribers : List Nat) (wasUpdated : Bool) :
    (NotifyClientSubscribersOfDataChange s cloudData key subscribers wasUpdated).dataRepository
      = s.dataRepository :=
  sendToEach_dataRepository _ _ _

theorem NotifyClientSubscribersOfDataChangeRow_dataRepository (s : State) (row : CloudQueryRow)
    (subscribers : List Nat) (wasUpdated : Bool) :
    (NotifyClientSubscribersOfDataChangeRow s row subscribers wasUpdated).dataRepository
      = s.dataRepository :=
  sendToEach_dataRepository _ _ _

theorem sendToServers_dataRepository (s : State) (message : Message) :
    (sendToServers s message).dataRepository = s.dataRepository :=
  sendToEach_dataRepository _ _ _

theorem NotifyServerSubscribersLoop_dataRepository (message : Message) (key : CloudKey) :
    ∀ (servers : List RemoteServer) (s s1 : State),
      NotifyServerSubscribersLoop message key servers s = some s1 →
      s1.dataRepository = s.dataRepository := by
  intro servers
  induction servers with
  | nil => intro s s1 h; simp only [NotifyServerSubscribersLoop, Option.some.injEq] at h; rw [← h]
  | cons r rs ih =>
    intro s s1 h
    unfold NotifyServerSubscribersLoop at h
    split at h
    · have := ih _ _ h
      exact this
    · split at h
      · cases h
      · have := ih _ _ h
        exact this
      · exact ih _ _ h

theorem NotifyServerSubscribersOfDataChange_dataRepository (s s1 : State) (cloudData : CloudData)
    (key : CloudKey) (wasUpdated : Bool)
    (h : NotifyServerSubscribersOfDataChange s cloudData key wasUpdated = some s1) :
    s1.dataRepository = s.dataRepository :=
  NotifyServerSubscribersLoop_dataRepository _ _ _ _ _ h

theorem ProcessAndTransmitGetRequest_dataRepository (s s1 : State) (getRequest : GetRequest)
    (h : ProcessAndTransmitGetRequest s getRequest = some s1) :
    s1.dataRepository = s.dataRepository := by
  unfold ProcessAndTransmitGetRequest at h
  split at h
  · cases h
  · split at h
    · cases h
    · cases h; rfl

theorem SendUnified_dataRepository (s : State) (destination : Nat) (message : Message) :
    (SendUnified s destination message).dataRepository = s.dataRepository := rfl

theorem OnServerToServerGetRequest_dataRepository (s s1 : State) (guid : Nat)
    (cloudQueryWithAddresses : CloudQueryWithAddresses) (requestId : Nat)
    (h : OnServerToServerGetRequest s guid cloudQueryWithAddresses requestId = some s1) :
    s1.dataRepository = s.dataRepository := by
  unfold OnServerToServerGetRequest at h
  repeat' split at h
  all_goals first
    | (injection h with h
       subst h
       rfl)
    | (injection h)

theorem SendUploadedAndSubscribedKeysToServer_dataRepository (s : State) (systemAddress : Nat) :
    (SendUploadedAndSubscribedKeysToServer s systemAddress).dataRepository = s.dataRepository := by
  unfold SendUploadedAndSubscribedKeysToServer
  dsimp only
  split <;> rfl

theorem AddServer_dataRepository (s s1 : State) (systemIdentifier : Nat) (cs : ConnectionState)
    (h : AddServer s systemIdentifier cs = some s1) :
    s1.dataRepository = s.dataRepository := by
  unfold AddServer at h
  dsimp only at h
  repeat' split at h
  all_goals first
    | (injection h with h
       subst h
       first
        | rfl
        | exact SendUploadedAndSubscribedKeysToServer_dataRepository _ _)
    | (injection h)

theorem RemoveServer_dataRepository (s s1 : State) (systemAddress : Nat)
    (h : RemoveServer s systemAddress = some s1) :
    s1.dataRepository = s.dataRepository := by
  unfold RemoveServer at h
  repeat' split at h
  all_goals first
    | (injection h with h
       subst h
       rfl)
    | (injection h)

theorem OnSendUploadedAndSubscribedKeysToServer_dataRepository (s s1 : State) (guid : Nat)
    (uploaded subscribed : List CloudKey)
    (h : OnSendUploadedAndSubscribedKeysToServer s guid uploaded subscribed = some s1) :
    s1.dataRepository = s.dataRepository := by
  unfold OnSendUploadedAndSubscribedKeysToServer at h
  repeat' split at h
  all_goals first
    | (injection h with h
       subst h
       rfl)
    | (injection h)

theorem OnSendUploadedKeyToServers_dataRepository (s s1 : State) (guid : Nat) (cloudKey : CloudKey)
    (h : OnSendUploadedKeyToServers s guid cloudKey = some s1) :
    s1.dataRepository = s.dataRepository := by
  unfold OnSendUploadedKeyToServers at h
  repeat' split at h
  all_goals first
    | (injection h with h
       subst h
       rfl)
    | (injection h)

theorem OnSendSubscribedKeyToServers_dataRepository (s s1 : State) (guid : Nat)
    (cloudKey : CloudKey) (h : OnSendSubscribedKeyToServers s guid cloudKey = some s1) :
    s1.dataRepository = s.dataRepository := by
  unfold OnSendSubscribedKeyToServers at h
  repeat' split at h
  all_goals first
    | (injection h with h
       subst h
       rfl)
    | (injection h)

theorem OnRemoveUploadedKeyFromServers_dataRepository (s s1 : State) (guid : Nat)
    (cloudKey : CloudKey) (h : OnRemoveUploadedKeyFromServers s guid cloudKey = some s1) :
    s1.dataRepository = s.dataRepository := by
  unfold OnRemoveUploadedKeyFromServers at h
  repeat' split at h
  all_goals first
    | (injection h with h
       subst h
       rfl)
    | (injection h)

theorem OnRemoveSubscribedKeyFromServers_dataRepository (s s1 : State) (guid : Nat)
    (cloudKey : CloudKey) (h : OnRemoveSubscribedKeyFromServers s guid cloudKey = some s1) :
    s1.dataRepository = s.dataRepository := by
  unfold OnRemoveSubscribedKeyFromServers at h
  repeat' split at h
  all_goals first
    | (injection h with h
       subst h
       rfl)
    | (injection h)

theorem OnServerDataChanged_dataRepository (s s1 : State) (guid : Nat) (wasUpdated : Bool)
    (row : CloudQueryRow) (h : OnServerDataChanged s guid wasUpdated row = some s1) :
    s1.dataRepository = s.dataRepository := by
  unfold OnServerDataChanged at h
  repeat' split at h
  all_goals first
    | (injection h with h
       subst h
       first
        | rfl
        | simp only [NotifyClientSubscribersOfDataChangeRow_dataRepository])
    | (injection h)

/-! ### Insertion order across a call -/

theorem InsertedLast_of_mem (inserted : List Nat) (before : List CloudDataList)
    (l : CloudDataList) (h : l ∈ before) : InsertedLast inserted before l :=
  ⟨ownersOf l.keyData, [], by simp, List.nil_sublist _, Or.inr ⟨l, h, rfl, List.Sublist.refl _⟩⟩

theorem InsertedLast_of_extends (inserted : List Nat) (before : List CloudDataList)
    (l l1 : CloudDataList) (h : l ∈ before) (hkey : l1.key = l.key) (kept added : List Nat)
    (howners : ownersOf l1.keyData = kept ++ added)
    (hkept : kept.Sublist (ownersOf l.keyData)) (hadded : added.Sublist inserted) :
    InsertedLast inserted before l1 :=
  ⟨kept, added, howners, hadded, Or.inr ⟨l, h, hkey.symm, hkept⟩⟩

theorem InsertedLast_of_keeps (inserted : List Nat) (before : List CloudDataList)
    (l l1 : CloudDataList) (h : l ∈ before) (hkey : l1.key = l.key)
    (hkept : (ownersOf l1.keyData).Sublist (ownersOf l.keyData)) :
    InsertedLast inserted before l1 :=
  ⟨ownersOf l1.keyData, [], by simp, List.nil_sublist _, Or.inr ⟨l, h, hkey.symm, hkept⟩⟩

theorem InsertedLast_of_empty (inserted : List Nat) (before : List CloudDataList)
    (l : CloudDataList) (h : l.keyData = []) : InsertedLast inserted before l :=
  ⟨[], [], by simp [ownersOf, h], List.nil_sublist _, Or.inl rfl⟩

theorem RepositoryExtends_refl (inserted : List Nat) (r : List CloudDataList) :
    RepositoryExtends inserted r r :=
  fun l h => InsertedLast_of_mem inserted r l h

theorem RepositoryExtends_mono {inserted inserted1 : List Nat} {r r1 : List CloudDataList}
    (hsub : inserted.Sublist inserted1) (h : RepositoryExtends inserted r r1) :
    RepositoryExtends inserted1 r r1 := by
  intro l hl
  obtain ⟨kept, added, h1, h2, h3⟩ := h l hl
  exact ⟨kept, added, h1, h2.trans hsub, h3⟩

theorem RepositoryExtends_trans {i1 i2 : List Nat} {r r1 r2 : List CloudDataList}
    (h1 : RepositoryExtends i1 r r1) (h2 : RepositoryExtends i2 r1 r2) :
    RepositoryExtends (i1 ++ i2) r r2 := by
  intro l2 hl2
  obtain ⟨kept2, added2, ho2, ha2, hk2⟩ := h2 l2 hl2
  rcases hk2 with hk2 | ⟨l1, hl1, hkey1, hsub1⟩
  · exact ⟨kept2, added2, ho2, ha2.trans (List.sublist_append_right _ _), Or.inl hk2⟩
  · obtain ⟨kept1, added1, ho1, ha1, hk1⟩ := h1 l1 hl1
    rw [ho1] at hsub1
    obtain ⟨ka, kb, hsplit, hka, hkb⟩ := List.sublist_append_iff.mp hsub1
    refine ⟨ka, kb ++ added2, by rw [ho2, hsplit, List.append_assoc],
      List.Sublist.append (hkb.trans ha1) ha2, ?_⟩
    rcases hk1 with hk1 | ⟨l, hl, hkey, hsub⟩
    · left
      rw [hk1] at hka
      exact List.eq_nil_of_sublist_nil hka
    · right
      exact ⟨l, hl, hkey.trans hkey1, hka.trans hsub⟩

theorem RepositoryExtends_trans_nil_left {i : List Nat} {r r1 r2 : List CloudDataList}
    (h1 : RepositoryExtends [] r r1) (h2 : RepositoryExtends i r1 r2) :
    RepositoryExtends i r r2 := by
  have := RepositoryExtends_trans h1 h2
  simpa using this

theorem RepositoryExtends_trans_nil_right {i : List Nat} {r r1 r2 : List CloudDataList}
    (h1 : RepositoryExtends i r r1) (h2 : RepositoryExtends [] r1 r2) :
    RepositoryExtends i r r2 := by
  have := RepositoryExtends_trans h1 h2
  simpa using this

theorem RepositoryExtends_nil_of (inserted : List Nat) {r r1 : List CloudDataList}
    (h : RepositoryExtends [] r r1) : RepositoryExtends inserted r r1 :=
  RepositoryExtends_mono (List.nil_sublist _) h

theorem RepositoryExtends_RemoveAtIndex (inserted : List Nat) (r : List CloudDataList)
    (index : Nat) : RepositoryExtends inserted r (RemoveAtIndex index r) := by
  intro l hl
  unfold RemoveAtIndex ListRemoveAtIndex at hl
  exact InsertedLast_of_mem inserted r l ((List.eraseIdx_sublist r index).subset hl)

theorem RepositoryExtends_InsertAtIndex (inserted : List Nat) (r : List CloudDataList)
    (index : Nat) (l : CloudDataList) (h : l.keyData = []) :
    RepositoryExtends inserted r (InsertAtIndex l index r) := by
  intro l1 hl1
  unfold InsertAtIndex ListInsert at hl1
  rcases List.mem_append.mp hl1 with hl1 | hl1
  · exact InsertedLast_of_mem inserted r l1 (List.mem_of_mem_take hl1)
  · rcases List.mem_cons.mp hl1 with hl1 | hl1
    · rw [hl1]; exact InsertedLast_of_empty inserted r l h
    · exact InsertedLast_of_mem inserted r l1 (List.mem_of_mem_drop hl1)

/-- Writing back, at the position it was read from, a list that is in insertion order
with respect to the list read. -/
theorem RepositoryExtends_set (inserted : List Nat) (r : List CloudDataList) (index : Nat)
    (l l1 : CloudDataList) (hget : r.get? index = some l) (hkey : l1.key = l.key)
    (kept added : List Nat) (howners : ownersOf l1.keyData = kept ++ added)
    (hkept : kept.Sublist (ownersOf l.keyData)) (hadded : added.Sublist inserted) :
    RepositoryExtends inserted r (r.set index l1) := by
  intro l2 hl2
  rcases List.mem_or_eq_of_mem_set hl2 with hl2 | hl2
  · exact InsertedLast_of_mem inserted r l2 hl2
  · rw [hl2]
    exact InsertedLast_of_extends inserted r l l1 (List.get?_mem hget) hkey kept added howners
      hkept hadded

theorem RepositoryExtends_set_keeps (inserted : List Nat) (r : List CloudDataList) (index : Nat)
    (l l1 : CloudDataList) (hget : r.get? index = some l) (hkey : l1.key = l.key)
    (hkept : (ownersOf l1.keyData).Sublist (ownersOf l.keyData)) :
    RepositoryExtends inserted r (r.set index l1) :=
  RepositoryExtends_set inserted r index l l1 hget hkey (ownersOf l1.keyData) [] (by simp) hkept
    (List.nil_sublist _)

/-- The lists after a call are longer than the lists before it by at most the number of
entries that the call inserts. -/
theorem RepositoryExtends_length {inserted : List Nat} {r r1 : List CloudDataList} {n : Nat}
    (h : RepositoryExtends inserted r r1) (hbound : ∀ l ∈ r, l.keyData.length ≤ n) :
    ∀ l1 ∈ r1, l1.keyData.length ≤ n + inserted.length := by
  intro l1 hl1
  obtain ⟨kept, added, ho, ha, hk⟩ := h l1 hl1
  have hlen : l1.keyData.length = kept.length + added.length := by
    rw [← ownersOf_length, ho, List.length_append]
  have hadd := ha.length_le
  rcases hk with hk | ⟨l, hl, _, hsub⟩
  · rw [hk] at hlen
    simp only [List.length_nil] at hlen
    omega
  · have h1 := hsub.length_le
    rw [ownersOf_length] at h1
    have h2 := hbound l hl
    omega

/-- The list that `GetOrAllocateCloudDataList` returns is at the returned position of the
repository after the call, and a list that it allocates is empty. -/
theorem GetOrAllocateCloudDataList_extends (r r1 : List CloudDataList) (key : CloudKey)
    (dataRepositoryExists : Bool) (index : Nat) (l : CloudDataList)
    (h : GetOrAllocateCloudDataList r key = some (r1, dataRepositoryExists, index, l)) :
    r1.get? index = some l ∧ RepositoryExtends [] r r1 ∧
      (dataRepositoryExists = false → l.keyData = []) := by
  unfold GetOrAllocateCloudDataList at h
  obtain ⟨i, b, hres, hle, _⟩ := GetIndexFromKey_returns KeyDataListComp key r
  rw [hres] at h
  cases b with
  | false =>
    simp only [Bool.not_false, if_true, Option.some.injEq, Prod.mk.injEq] at h
    obtain ⟨h1, h2, h3, h4⟩ := h
    subst h1 h2 h3 h4
    refine ⟨?_, RepositoryExtends_InsertAtIndex [] r i _ rfl, fun _ => rfl⟩
    unfold InsertAtIndex ListInsert
    rw [List.get?_eq_getElem?, List.getElem?_append_right (by simp [List.length_take])]
    simp [List.length_take, Nat.min_eq_left hle]
  | true =>
    simp only [Bool.not_true, Bool.false_eq_true, if_false] at h
    split at h
    · cases h
    · rename_i l0 hget
      simp only [Option.some.injEq, Prod.mk.injEq] at h
      obtain ⟨h1, h2, h3, h4⟩ := h
      subst h1 h2 h3 h4
      exact ⟨hget, RepositoryExtends_refl [] r, fun h => by cases h⟩

theorem UnsubscribeFromKey_extends (s : State) (remoteCloudClient : RemoteCloudClient)
    (remoteCloudClientGuid keySubscriberIndex : Nat) (cloudKey : CloudKey)
    (specificSystems : List Nat) (result : RemoteCloudClient × State)
    (h : UnsubscribeFromKey s remoteCloudClient remoteCloudClientGuid keySubscriberIndex cloudKey
      specificSystems = some result) :
    RepositoryExtends [] s.dataRepository result.2.dataRepository := by
  unfold UnsubscribeFromKey at h
  dsimp only at h
  split at h
  · exact Option.noConfusion h
  split at h
  · injection h with h; subst h; exact RepositoryExtends_refl _ _
  split at h
  · exact Option.noConfusion h
  split at h
  · injection h with h; subst h; exact RepositoryExtends_refl _ _
  split at h
  · exact Option.noConfusion h
  split at h
  · exact Option.noConfusion h
  rename_i l hget _ subscribedTo1 l1 hrem
  have hkeeps : l1.key = l.key ∧ (ownersOf l1.keyData).Sublist (ownersOf l.keyData) := by
    split at hrem
    · repeat' split at hrem
      all_goals first
        | (exact Option.noConfusion hrem)
        | (have h1 := RemoveSubscriber_keeps _ _ _ ‹CloudDataList.RemoveSubscriber _ _ = some _›
           injection hrem with hrem
           injection hrem with _ hrem
           subst hrem
           exact ⟨h1.1, by rw [h1.2]⟩)
        | (have h1 := RemoveSubscriber_keeps _ _ _ ‹CloudDataList.RemoveSubscriber _ _ = some _›
           have h2 := UnsubscribeAllSpecific_keeps _ _ _ _ ‹UnsubscribeAllSpecific _ _ _ = some _›
           injection hrem with hrem
           injection hrem with _ hrem
           subst hrem
           exact ⟨h2.1.trans h1.1, by have := h2.2; rw [h1.2] at this; exact this⟩)
    · exact UnsubscribeNamedSpecific_keeps _ _ _ _ _ hrem
  injection h with h
  subst h
  dsimp only
  have hrepo : ∀ s1 : State, s1.dataRepository = s.dataRepository →
      RepositoryExtends [] s.dataRepository
        (if l1.IsUnused = true then
          { s1 with dataRepository := RemoveAtIndex ‹Nat› s1.dataRepository }
         else { s1 with dataRepository := s1.dataRepository.set ‹Nat› l1 }).dataRepository := by
    intro s1 hs1
    split
    · dsimp only; rw [hs1]; exact RepositoryExtends_RemoveAtIndex _ _ _
    · dsimp only; rw [hs1]
      exact RepositoryExtends_set_keeps _ _ _ l l1 hget hkeeps.1 hkeeps.2
  apply hrepo
  split
  · exact sendToServers_dataRepository _ _
  · rfl

theorem OnUnsubscribeRequestLoop_extends (guid : Nat) (specificSystems : List Nat) :
    ∀ (keys : List CloudKey) (remoteCloudClient : RemoteCloudClient) (s : State)
      (result : RemoteCloudClient × State),
      OnUnsubscribeRequestLoop guid specificSystems keys remoteCloudClient s = some result →
      RepositoryExtends [] s.dataRepository result.2.dataRepository := by
  intro keys
  induction keys with
  | nil =>
    intro c s result h
    simp only [OnUnsubscribeRequestLoop, Option.some.injEq] at h
    rw [← h]
    exact RepositoryExtends_refl _ _
  | cons key keys ih =>
    intro c s result h
    unfold OnUnsubscribeRequestLoop at h
    repeat' split at h
    all_goals first
      | (exact Option.noConfusion h)
      | exact ih _ _ _ h
      | (have h1 := UnsubscribeFromKey_extends _ _ _ _ _ _ _
           ‹UnsubscribeFromKey _ _ _ _ _ _ = some _›
         exact RepositoryExtends_trans_nil_left h1 (ih _ _ _ h))

theorem OnUnsubscribeRequest_extends (env : Env) (s s1 : State) (guid systemAddress : Nat)
    (cloudKeys : List CloudKey) (specificSystems : List Nat)
    (h : OnUnsubscribeRequest env s guid systemAddress cloudKeys specificSystems = some s1) :
    RepositoryExtends [] s.dataRepository s1.dataRepository := by
  unfold OnUnsubscribeRequest at h
  repeat' split at h
  all_goals first
    | (exact Option.noConfusion h)
    | (have h2 := OnUnsubscribeRequestLoop_extends _ _ _ _ _ _
         ‹OnUnsubscribeRequestLoop _ _ _ _ _ = some _›
       injection h with h
       subst h
       exact h2)
    | (injection h with h
       subst h
       exact RepositoryExtends_refl _ _)

theorem OnGetRequestSubscribe_extends (env : Env) (guid : Nat) (specificSystems : List Nat) :
    ∀ (keys : List CloudKey) (remoteCloudClient : RemoteCloudClient) (s : State)
      (result : RemoteCloudClient × State) (n : Nat),
      (∀ l ∈ s.dataRepository, l.keyData.length ≤ n) →
      n + (insertedByGet specificSystems keys).length < 2 ^ 32 →
      OnGetRequestSubscribe env guid specificSystems keys remoteCloudClient s = some result →
      RepositoryExtends (insertedByGet specificSystems keys) s.dataRepository
        result.2.dataRepository := by
  intro keys
  induction keys with
  | nil =>
    intro c s result n _ _ h
    simp only [OnGetRequestSubscribe, Option.some.injEq] at h
    rw [← h]
    exact RepositoryExtends_refl _ _
  | cons key keys ih =>
    intro c s result n hbound hn h
    simp only [insertedByGet, List.length_append] at hn
    unfold OnGetRequestSubscribe at h
    dsimp only at h
    split at h
    · exact Option.noConfusion h
    split at h
    · exact Option.noConfusion h
    rename_i c1 s1 hunsub
    have hs1 : RepositoryExtends [] s.dataRepository s1.dataRepository := by
      split at hunsub
      · exact UnsubscribeFromKey_extends _ _ _ _ _ _ _ hunsub
      · injection hunsub with hunsub
        injection hunsub with _ hunsub
        subst hunsub
        exact RepositoryExtends_refl _ _
    split at h
    · exact Option.noConfusion h
    split at h
    · exact Option.noConfusion h
    rename_i r1 _ index l halloc
    obtain ⟨hget, hr1, _⟩ := GetOrAllocateCloudDataList_extends _ _ _ _ _ _ halloc
    have hsr1 := RepositoryExtends_trans_nil_left hs1 hr1
    have hlenr1 := RepositoryExtends_length hsr1 hbound
    have hlenl : l.keyData.length ≤ n := by
      have := hlenr1 l (List.get?_mem hget)
      simpa using this
    split at h
    · exact Option.noConfusion h
    rename_i l2 hinst
    have hl2 : l2.key = l.key ∧ ∃ added : List Nat,
        ownersOf l2.keyData = ownersOf l.keyData ++ added ∧ added.Sublist specificSystems := by
      split at hinst
      · exact subscribeSpecific_appends env guid _ _ _ (by omega) hinst
      · repeat' split at hinst
        all_goals first
          | (exact Option.noConfusion hinst)
          | (have h1 := removeFromSpecific_keeps _ _ _ _ hinst
             exact ⟨h1.1, [], by rw [h1.2]; simp, List.nil_sublist _⟩)
          | (injection hinst with hinst
             subst hinst
             exact ⟨rfl, [], by simp, List.nil_sublist _⟩)
    obtain ⟨hkey2, added, howners2, hadded2⟩ := hl2
    have hs3 : (if l.subscriberCount = 0 then
        SendSubscribedKeyToServers { s1 with dataRepository := r1 } key
        else { s1 with dataRepository := r1 }).dataRepository = r1 := by
      split
      · exact sendToServers_dataRepository _ _
      · rfl
    have hstep : RepositoryExtends specificSystems s.dataRepository (r1.set index l2) :=
      RepositoryExtends_trans_nil_left hsr1
        (RepositoryExtends_set specificSystems r1 index l l2 hget hkey2 _ added howners2
          (List.Sublist.refl _) hadded2)
    have hrest := ih _ _ _ (n + specificSystems.length)
      (by
        dsimp only
        rw [hs3]
        exact RepositoryExtends_length hstep hbound)
      (by omega) h
    dsimp only at hrest
    rw [hs3] at hrest
    exact RepositoryExtends_trans hstep hrest

theorem OnGetRequestFanOut_dataRepository (message : Message) :
    ∀ (servers : List RemoteServer) (responses : List BufferedGetResponseFromServer) (s : State)
      (result : List BufferedGetResponseFromServer × State),
      OnGetRequestFanOut message servers responses s = some result →
      result.2.dataRepository = s.dataRepository := by
  intro servers
  induction servers with
  | nil =>
    intro responses s result h
    simp only [OnGetRequestFanOut, Option.some.injEq] at h
    rw [← h]
  | cons r rs ih =>
    intro responses s result h
    unfold OnGetRequestFanOut at h
    dsimp only at h
    split at h
    · exact Option.noConfusion h
    · rw [ih _ _ _ h]
      rfl

theorem OnGetRequest_extends (env : Env) (s s1 : State) (guid systemAddress : Nat)
    (cloudQuery : CloudQuery) (specificSystems : List Nat) (time : Nat) (n : Nat)
    (hbound : ∀ l ∈ s.dataRepository, l.keyData.length ≤ n)
    (hn : n + (insertedByGet specificSystems cloudQuery.keys).length < 2 ^ 32)
    (h : OnGetRequest env s guid systemAddress cloudQuery specificSystems time = some s1) :
    RepositoryExtends (insertedByGet specificSystems cloudQuery.keys) s.dataRepository
      s1.dataRepository := by
  unfold OnGetRequest at h
  dsimp only at h
  split at h
  · injection h with h
    subst h
    exact RepositoryExtends_refl _ _
  split at h
  · injection h with h
    subst h
    exact RepositoryExtends_refl _ _
  split at h
  · exact Option.noConfusion h
  split at h
  · exact Option.noConfusion h
  rename_i s4 hanswered
  have h4 : s4.dataRepository = s.dataRepository := by
    split at hanswered
    · exact (ProcessAndTransmitGetRequest_dataRepository _ _ _ hanswered).trans rfl
    · repeat' split at hanswered
      all_goals first
        | (exact Option.noConfusion hanswered)
        | (have hf := OnGetRequestFanOut_dataRepository _ _ _ _ _
             ‹OnGetRequestFanOut _ _ _ _ = some _›
           injection hanswered with hanswered
           subst hanswered
           exact hf.trans rfl)
  split at h
  · split at h
    · exact Option.noConfusion h
    · rename_i c1 s6 hsub
      have h6 := OnGetRequestSubscribe_extends env guid specificSystems _ _ _ _ n
        (by
          intro l hl
          apply hbound
          have hrepo : ∀ s5 : State, s5.dataRepository = s4.dataRepository →
              l ∈ s5.dataRepository → l ∈ s.dataRepository := by
            intro s5 h5 hl5
            rw [h5, h4] at hl5
            exact hl5
          refine hrepo _ ?_ hl
          split <;> rfl)
        hn hsub
      have h5 : ∀ s5 : State, s5.dataRepository = s4.dataRepository →
          RepositoryExtends (insertedByGet specificSystems cloudQuery.keys) s5.dataRepository
            s6.dataRepository →
          RepositoryExtends (insertedByGet specificSystems cloudQuery.keys) s.dataRepository
            s6.dataRepository := by
        intro s5 h5 hext
        rw [h5, h4] at hext
        exact hext
      have h7 := h5 _ (by split <;> rfl) h6
      split at h
      all_goals
        injection h with h
        subst h
        exact h7
  · injection h with h
    subst h
    rw [h4]
    exact RepositoryExtends_refl _ _

theorem OnPostRequestFinish_dataRepository (s s1 : State) (guid : Nat)
    (remoteSystems : List (Nat × RemoteCloudClient)) (remoteCloudClient : RemoteCloudClient)
    (dataRepository : List CloudDataList) (dataRepositoryIndex : Nat)
    (cloudDataList : CloudDataList) (cloudData : CloudData) (cloudDataAlreadyUploaded : Bool)
    (h : OnPostRequestFinish s guid remoteSystems remoteCloudClient dataRepository
      dataRepositoryIndex cloudDataList cloudData cloudDataAlreadyUploaded = some s1) :
    s1.dataRepository = dataRepository.set dataRepositoryIndex cloudDataList := by
  unfold OnPostRequestFinish at h
  rw [NotifyServerSubscribersOfDataChange_dataRepository _ _ _ _ _ h]
  simp only [NotifyClientSubscribersOfDataChange_dataRepository]
  split
  · exact sendToServers_dataRepository _ _
  · rfl

/-- Writing back a list whose entries are those of the list read, followed by at most one
entry of the owner `guid`. -/
theorem RepositoryExtends_set_post (guid : Nat) (r r1 : List CloudDataList) (index : Nat)
    (l l1 : CloudDataList) (hr1 : RepositoryExtends [] r r1) (hget : r1.get? index = some l)
    (hkey : l1.key = l.key)
    (howners : ownersOf l1.keyData = ownersOf l.keyData ∨
      ownersOf l1.keyData = ownersOf l.keyData ++ [guid]) :
    RepositoryExtends [guid] r (r1.set index l1) := by
  refine RepositoryExtends_trans_nil_left hr1 ?_
  rcases howners with howners | howners
  · exact RepositoryExtends_set [guid] r1 index l l1 hget hkey _ [] (by rw [howners]; simp)
      (List.Sublist.refl _) (List.nil_sublist _)
  · exact RepositoryExtends_set [guid] r1 index l l1 hget hkey _ [guid] howners
      (List.Sublist.refl _) (List.Sublist.refl _)

set_option maxHeartbeats 2000000 in
theorem OnPostRequest_extends (env : Env) (s s1 : State) (guid systemAddress : Nat)
    (key : CloudKey) (data : List Nat) (n : Nat)
    (hbound : ∀ l ∈ s.dataRepository, l.keyData.length ≤ n) (hn : n + 1 < 2 ^ 32)
    (h : OnPostRequest env s guid systemAddress key data = some s1) :
    RepositoryExtends [guid] s.dataRepository s1.dataRepository := by
  unfold OnPostRequest at h
  dsimp only at h
  split at h
  · injection h with h; subst h; exact RepositoryExtends_refl _ _
  split at h
  · injection h with h; subst h; exact RepositoryExtends_refl _ _
  split at h
  · exact Option.noConfusion h
  split at h
  · exact Option.noConfusion h
  rename_i r1 dataRepositoryExists index l0 halloc
  obtain ⟨hget, hr1, _⟩ := GetOrAllocateCloudDataList_extends _ _ _ _ _ _ halloc
  have hlen0 : l0.keyData.length ≤ n := by
    have := RepositoryExtends_length hr1 hbound l0 (List.get?_mem hget)
    simpa using this
  have hremove : RepositoryExtends [guid] s.dataRepository (RemoveAtIndex index r1) :=
    RepositoryExtends_nil_of _
      (RepositoryExtends_trans_nil_left hr1 (RepositoryExtends_RemoveAtIndex _ _ _))
  cases dataRepositoryExists
  all_goals
    simp only [Bool.not_true, Bool.not_false, Bool.false_eq_true, if_true, if_false] at h
    repeat' split at h
    all_goals first
      | (exact Option.noConfusion h)
      | (injection h with h; subst h; exact hremove)
      | (have hins := ‹Insert KeyDataPtrComp _ _ _ = some _›
         have hcase := Insert_appends _ _ _ _ _ _ (by omega) hins
         rw [OnPostRequestFinish_dataRepository _ _ _ _ _ _ _ _ _ _ h]
         refine RepositoryExtends_set_post guid _ _ _ l0 _ hr1 hget rfl ?_
         rcases hcase with hcase | hcase
         · left; dsimp only; rw [hcase]
         · right; dsimp only; rw [hcase, ownersOf_append]; rfl)
      | (have hgetd := ‹List.get? _ _ = some _›
         injection h with h; subst h
         refine RepositoryExtends_set_post guid _ _ _ l0 _ hr1 hget rfl ?_
         left
         dsimp only
         rw [ownersOf_set _ _ _ _ hgetd]
         all_goals rfl)
      | (have hgetd := ‹List.get? _ _ = some _›
         rw [OnPostRequestFinish_dataRepository _ _ _ _ _ _ _ _ _ _ h]
         refine RepositoryExtends_set_post guid _ _ _ l0 _ hr1 hget rfl ?_
         left
         dsimp only
         rw [ownersOf_set _ _ _ _ hgetd]
         all_goals rfl)

theorem OnServerToServerGetResponse_dataRepository (s s1 : State) (guid requestId : Nat)
    (rows : List CloudQueryRow)
    (h : OnServerToServerGetResponse s guid requestId rows = some s1) :
    s1.dataRepository = s.dataRepository := by
  unfold OnServerToServerGetResponse at h
  dsimp only at h
  repeat' split at h
  all_goals first
    | (exact Option.noConfusion h)
    | (have h2 := ProcessAndTransmitGetRequest_dataRepository _ _ _
         ‹ProcessAndTransmitGetRequest _ _ = some _›
       injection h with h
       subst h
       exact h2)
    | (injection h with h
       subst h
       rfl)

theorem OnClosedConnectionRequests_dataRepository (rakNetGUID : Nat) :
    ∀ (pending kept : List GetRequest) (s s1 : State),
      OnClosedConnectionRequests rakNetGUID pending kept s = some s1 →
      s1.dataRepository = s.dataRepository := by
  intro pending
  induction pending with
  | nil =>
    intro kept s s1 h
    simp only [OnClosedConnectionRequests, Option.some.injEq] at h
    subst h
    rfl
  | cons getRequest pending ih =>
    intro kept s s1 h
    unfold OnClosedConnectionRequests at h
    dsimp only at h
    repeat' split at h
    all_goals first
      | (exact Option.noConfusion h)
      | (have h2 := ProcessAndTransmitGetRequest_dataRepository _ _ _
           ‹ProcessAndTransmitGetRequest _ _ = some _›
         rw [ih _ _ _ h, h2])
      | exact ih _ _ _ h

theorem OnClosedConnectionServer_dataRepository (s s1 : State) (rakNetGUID : Nat)
    (h : OnClosedConnectionServer s rakNetGUID = some s1) :
    s1.dataRepository = s.dataRepository := by
  unfold OnClosedConnectionServer at h
  repeat' split at h
  all_goals first
    | (exact Option.noConfusion h)
    | (have h2 := OnClosedConnectionRequests_dataRepository _ _ _ _ _
         ‹OnClosedConnectionRequests _ _ _ _ = some _›
       injection h with h
       subst h
       exact h2)
    | (injection h with h
       subst h
       rfl)

/-- The state after the release of one entry: the entry is removed or cleared in place,
and a list without entries and subscribers is removed. -/
theorem RepositoryExtends_release (r : List CloudDataList) (index keyDataIndex : Nat)
    (l : CloudDataList) (cloudData : CloudData) (hget : r.get? index = some l)
    (hgetd : l.keyData.get? keyDataIndex = some cloudData) (l1 : CloudDataList)
    (hkey : l1.key = l.key)
    (hdata : l1.keyData = RemoveAtIndex keyDataIndex l.keyData ∨
      l1.keyData = l.keyData.set keyDataIndex cloudData.Clear) :
    RepositoryExtends [] r (r.set index l1) := by
  refine RepositoryExtends_set_keeps [] r index l l1 hget hkey ?_
  rcases hdata with hdata | hdata
  · rw [hdata]; exact ownersOf_RemoveAtIndex _ _
  · rw [hdata, ownersOf_set l.keyData keyDataIndex cloudData cloudData.Clear hgetd rfl]

set_option maxHeartbeats 2000000 in
theorem OnReleaseRequestLoop_extends (guid : Nat) :
    ∀ (keys : List CloudKey) (remoteCloudClient : RemoteCloudClient) (s s1 : State),
      OnReleaseRequestLoop guid keys remoteCloudClient s = some s1 →
      RepositoryExtends [] s.dataRepository s1.dataRepository := by
  intro keys
  induction keys with
  | nil =>
    intro c s s1 h
    simp only [OnReleaseRequestLoop, Option.some.injEq] at h
    rw [← h]
    exact RepositoryExtends_refl _ _
  | cons key keys ih =>
    intro c s s1 h
    unfold OnReleaseRequestLoop at h
    dsimp only at h
    repeat' split at h
    all_goals first
      | (exact Option.noConfusion h)
      | exact ih _ _ _ h
      | (have h3 := NotifyServerSubscribersOfDataChange_dataRepository _ _ _ _ _
            ‹NotifyServerSubscribersOfDataChange _ _ _ _ = some _›
         have hget := ‹List.get? s.dataRepository _ = some _›
         have hgetd := ‹List.get? (CloudDataList.keyData _) _ = some _›
         simp only [NotifyClientSubscribersOfDataChange_dataRepository] at h3
         first
          | (injection h with h
             subst h
             simp only [h3, RemoveUploadedKeyFromServers, sendToServers_dataRepository]
             first
              | exact RepositoryExtends_RemoveAtIndex _ _ _
              | exact RepositoryExtends_release _ _ _ _ _ hget hgetd _ rfl (Or.inl rfl)
              | exact RepositoryExtends_release _ _ _ _ _ hget hgetd _ rfl (Or.inr rfl))
          | (refine RepositoryExtends_trans_nil_left ?_ (ih _ _ _ h)
             simp only [h3, RemoveUploadedKeyFromServers, sendToServers_dataRepository]
             first
              | exact RepositoryExtends_RemoveAtIndex _ _ _
              | exact RepositoryExtends_release _ _ _ _ _ hget hgetd _ rfl (Or.inl rfl)
              | exact RepositoryExtends_release _ _ _ _ _ hget hgetd _ rfl (Or.inr rfl)))

theorem OnReleaseRequest_extends (env : Env) (s s1 : State) (guid systemAddress : Nat)
    (cloudKeys : List CloudKey)
    (h : OnReleaseRequest env s guid systemAddress cloudKeys = some s1) :
    RepositoryExtends [] s.dataRepository s1.dataRepository := by
  unfold OnReleaseRequest at h
  repeat' split at h
  all_goals first
    | (exact Option.noConfusion h)
    | exact OnReleaseRequestLoop_extends _ _ _ _ _ h
    | (injection h with h
       subst h
       exact RepositoryExtends_refl _ _)

set_option maxHeartbeats 2000000 in
theorem OnClosedConnectionUploaded_extends (rakNetGUID : Nat) :
    ∀ (keys : List CloudKey) (s s1 : State),
      OnClosedConnectionUploaded rakNetGUID keys s = some s1 →
      RepositoryExtends [] s.dataRepository s1.dataRepository := by
  intro keys
  induction keys with
  | nil =>
    intro s s1 h
    simp only [OnClosedConnectionUploaded, Option.some.injEq] at h
    rw [← h]
    exact RepositoryExtends_refl _ _
  | cons key keys ih =>
    intro s s1 h
    unfold OnClosedConnectionUploaded at h
    dsimp only at h
    repeat' split at h
    all_goals first
      | (exact Option.noConfusion h)
      | exact ih _ _ h
      | (have h3 := NotifyServerSubscribersOfDataChange_dataRepository _ _ _ _ _
            ‹NotifyServerSubscribersOfDataChange _ _ _ _ = some _›
         have hget := ‹List.get? s.dataRepository _ = some _›
         have hgetd := ‹List.get? (CloudDataList.keyData _) _ = some _›
         simp only [NotifyClientSubscribersOfDataChange_dataRepository] at h3
         refine RepositoryExtends_trans_nil_left ?_ (ih _ _ h)
         simp only [h3, RemoveUploadedKeyFromServers, sendToServers_dataRepository]
         first
          | exact RepositoryExtends_RemoveAtIndex _ _ _
          | exact RepositoryExtends_release _ _ _ _ _ hget hgetd _ rfl (Or.inl rfl)
          | exact RepositoryExtends_release _ _ _ _ _ hget hgetd _ rfl (Or.inr rfl))

theorem OnClosedConnectionSubscribed_extends (rakNetGUID : Nat) :
    ∀ (subscribed : List KeySubscriberID) (s s1 : State),
      OnClosedConnectionSubscribed rakNetGUID subscribed s = some s1 →
      RepositoryExtends [] s.dataRepository s1.dataRepository := by
  intro subscribed
  induction subscribed with
  | nil =>
    intro s s1 h
    simp only [OnClosedConnectionSubscribed, Option.some.injEq] at h
    rw [← h]
    exact RepositoryExtends_refl _ _
  | cons keySubscriberId rest ih =>
    intro s s1 h
    unfold OnClosedConnectionSubscribed at h
    dsimp only at h
    split at h
    · exact Option.noConfusion h
    split at h
    · split at h
      · exact Option.noConfusion h
      · rename_i l hget
        split at h
        · exact Option.noConfusion h
        · rename_i l1 hupdated
          have hl1 : l1.key = l.key ∧ ownersOf l1.keyData = ownersOf l.keyData := by
            split at hupdated
            · split at hupdated
              · exact Option.noConfusion hupdated
              · injection hupdated with hupdated
                subst hupdated
                exact ⟨rfl, rfl⟩
            · exact OnClosedConnectionSpecific_keeps _ _ _ _ hupdated
          refine RepositoryExtends_trans_nil_left ?_ (ih _ _ h)
          exact RepositoryExtends_set_keeps [] _ _ l l1 hget hl1.1 (by rw [hl1.2])
    · exact ih _ _ h

theorem OnClosedConnection_extends (s s1 : State) (rakNetGUID : Nat)
    (h : OnClosedConnection s rakNetGUID = some s1) :
    RepositoryExtends [] s.dataRepository s1.dataRepository := by
  unfold OnClosedConnection at h
  split at h
  · exact Option.noConfusion h
  · rename_i s2 hserver
    rw [← OnClosedConnectionServer_dataRepository _ _ _ hserver]
    unfold OnClosedConnectionClient at h
    repeat' split at h
    all_goals first
      | (exact Option.noConfusion h)
      | (have h1 := OnClosedConnectionUploaded_extends _ _ _ _
           ‹OnClosedConnectionUploaded _ _ _ = some _›
         have h2 := OnClosedConnectionSubscribed_extends _ _ _ _
           ‹OnClosedConnectionSubscribed _ _ _ = some _›
         injection h with h
         subst h
         exact RepositoryExtends_trans_nil_left h1 h2)
      | (injection h with h
         subst h
         exact RepositoryExtends_refl _ _)

/-- Insertion order across a call: after every call, every list of the repository holds
entries that a list of its key held before the call, in the order they had there, followed
by the entries that the call has inserted. -/
theorem perform_extends (env : Env) (s s1 : State) (call : Call) (n : Nat)
    (hbound : ∀ l ∈ s.dataRepository, l.keyData.length ≤ n)
    (hn : n + (insertedBy call).length < 2 ^ 32)
    (h : perform env s call = some s1) :
    RepositoryExtends (insertedBy call) s.dataRepository s1.dataRepository := by
  have hframe : s1.dataRepository = s.dataRepository →
      RepositoryExtends (insertedBy call) s.dataRepository s1.dataRepository := by
    intro hs
    rw [hs]
    exact RepositoryExtends_refl _ _
  cases call with
  | setMaxUploadBytesPerClient bytes =>
    simp only [perform, Option.some.injEq] at h; subst h; exact RepositoryExtends_refl _ _
  | setMaxBytesPerDownload bytes =>
    simp only [perform, Option.some.injEq] at h; subst h; exact RepositoryExtends_refl _ _
  | addQueryFilter filter =>
    simp only [perform, Option.some.injEq] at h; subst h
    apply hframe; unfold AddQueryFilter; split <;> rfl
  | removeQueryFilter filter =>
    simp only [perform, Option.some.injEq] at h; subst h
    apply hframe; unfold RemoveQueryFilter; dsimp only; split <;> rfl
  | removeAllQueryFilters =>
    simp only [perform, Option.some.injEq] at h; subst h; exact RepositoryExtends_refl _ _
  | clear =>
    simp only [perform, Option.some.injEq] at h; subst h
    intro l hl
    cases hl
  | update =>
    simp only [perform, Update_eq, Option.some.injEq] at h; subst h
    exact RepositoryExtends_refl _ _
  | addServer systemIdentifier cs => exact hframe (AddServer_dataRepository _ _ _ _ h)
  | removeServer systemAddress => exact hframe (RemoveServer_dataRepository _ _ _ h)
  | onClosedConnection rakNetGUID => exact OnClosedConnection_extends _ _ _ h
  | onPostRequest guid systemAddress key data =>
    exact OnPostRequest_extends env s s1 guid systemAddress key data n hbound
      (by simpa [insertedBy] using hn) h
  | onReleaseRequest guid systemAddress cloudKeys => exact OnReleaseRequest_extends _ _ _ _ _ _ h
  | onGetRequest guid systemAddress cloudQuery specificSystems time =>
    exact OnGetRequest_extends env s s1 guid systemAddress cloudQuery specificSystems time n
      hbound hn h
  | onUnsubscribeRequest guid systemAddress cloudKeys specificSystems =>
    exact OnUnsubscribeRequest_extends _ _ _ _ _ _ _ h
  | onServerToServerGetRequest guid cloudQueryWithAddresses requestId =>
    exact hframe (OnServerToServerGetRequest_dataRepository _ _ _ _ _ h)
  | onServerToServerGetResponse guid requestId rows =>
    exact hframe (OnServerToServerGetResponse_dataRepository _ _ _ _ _ h)
  | onSendUploadedAndSubscribedKeysToServer guid uploaded subscribed =>
    exact hframe (OnSendUploadedAndSubscribedKeysToServer_dataRepository _ _ _ _ _ h)
  | onSendUploadedKeyToServers guid cloudKey =>
    exact hframe (OnSendUploadedKeyToServers_dataRepository _ _ _ _ h)
  | onSendSubscribedKeyToServers guid cloudKey =>
    exact hframe (OnSendSubscribedKeyToServers_dataRepository _ _ _ _ h)
  | onRemoveUploadedKeyFromServers guid cloudKey =>
    exact hframe (OnRemoveUploadedKeyFromServers_dataRepository _ _ _ _ h)
  | onRemoveSubscribedKeyFromServers guid cloudKey =>
    exact hframe (OnRemoveSubscribedKeyFromServers_dataRepository _ _ _ _ h)
  | onServerDataChanged guid wasUpdated row =>
    exact hframe (OnServerDataChanged_dataRepository _ _ _ _ _ h)

theorem ProcessCloudQueryKeys_rows (inserted : List Nat)
    (before dataRepository : List CloudDataList)
    (specificSystems : List Nat) (hrepo : dataRepository.length < 2 ^ 32)
    (hdata : ∀ cloudDataList ∈ dataRepository, cloudDataList.keyData.length < 2 ^ 32)
    (hext : RepositoryExtends inserted before dataRepository) :
    ∀ (keys : List CloudKey) (acc : List CloudData × List CloudKey),
      ∃ groups : List (List CloudData), groups.length = keys.length ∧
        ProcessCloudQueryKeys dataRepository specificSystems keys acc =
          some (acc.1 ++ (rowsOfGroups keys groups).1, acc.2 ++ (rowsOfGroups keys groups).2) ∧
        ∀ kg ∈ keys.zip groups,
          GroupOfKey inserted before dataRepository specificSystems kg.1 kg.2 := by
  intro keys
  induction keys with
  | nil =>
    intro acc
    exact ⟨[], rfl, by simp [ProcessCloudQueryKeys, rowsOfGroups], fun _ h => (by cases h)⟩
  | cons key rest ih =>
    intro acc
    have hcons : ∀ (group : List CloudData) (acc1 : List CloudData × List CloudKey),
        acc1 = (acc.1 ++ group, acc.2 ++ List.replicate group.length key) →
        GroupOfKey inserted before dataRepository specificSystems key group →
        ∃ groups : List (List CloudData), groups.length = (key :: rest).length ∧
          ProcessCloudQueryKeys dataRepository specificSystems rest acc1 =
            some (acc.1 ++ (rowsOfGroups (key :: rest) groups).1,
              acc.2 ++ (rowsOfGroups (key :: rest) groups).2) ∧
          ∀ kg ∈ (key :: rest).zip groups,
            GroupOfKey inserted before dataRepository specificSystems kg.1 kg.2 := by
      intro group acc1 hacc hgroup
      obtain ⟨groups, h1, h2, h3⟩ := ih acc1
      refine ⟨group :: groups, by simp [h1], ?_, ?_⟩
      · rw [h2, hacc]
        simp [rowsOfGroups, List.append_assoc]
      · intro kg hkg
        rw [List.zip_cons_cons] at hkg
        rcases List.mem_cons.mp hkg with hkg | hkg
        · rw [hkg]; exact hgroup
        · exact h3 kg hkg
    unfold ProcessCloudQueryKeys
    obtain ⟨i, b, hres, _, hlt⟩ := GetIndexFromKey_returns KeyDataListComp key dataRepository
    rw [hres]
    cases b with
    | false =>
      simp only [Bool.false_eq_true, if_false]
      refine hcons [] acc (by simp) ?_
      unfold GroupOfKey
      rw [hres]
    | true =>
      obtain ⟨l, hget, hzero⟩ := GetIndexFromKey_found_get KeyDataListComp key dataRepository i
        hrepo hres
      have hkey := KeyDataListComp_eq_zero key l hzero
      have hmem : l ∈ dataRepository := List.get?_mem hget
      simp only [if_true, hget]
      by_cases hup : l.uploaderCount > 0
      · rw [if_pos hup]
        have hup0 : ¬ l.uploaderCount = 0 := by omega
        by_cases hsys : specificSystems.length > 0
        · rw [if_pos hsys]
          have hne : ¬ specificSystems = [] := by
            intro h; rw [h] at hsys; cases hsys
          obtain ⟨hg1, hg2⟩ :=
            ProcessCloudQuerySystems_rows l key (hdata l hmem) specificSystems acc
          rw [hg1]
          refine hcons _ _ rfl ?_
          unfold GroupOfKey
          rw [hres]
          exact ⟨l, hget, hkey, by rw [if_neg hup0, if_neg hne]; exact ⟨rfl, hg2⟩⟩
        · rw [if_neg hsys]
          have hnil : specificSystems = [] := by
            cases specificSystems with
            | nil => rfl
            | cons a b => exact absurd (Nat.succ_pos _) hsys
          rw [ProcessCloudQueryAll_rows]
          refine hcons l.keyData _ rfl ?_
          unfold GroupOfKey
          rw [hres]
          exact ⟨l, hget, hkey, by rw [if_neg hup0, if_pos hnil]; exact ⟨rfl, hext l hmem⟩⟩
      · rw [if_neg hup]
        have hup0 : l.uploaderCount = 0 := by omega
        refine hcons [] acc (by simp) ?_
        unfold GroupOfKey
        rw [hres]
        exact ⟨l, hget, hkey, by rw [if_pos hup0]⟩

end CloudServer

/-! ## The claims -/

namespace OrderedList

/-! ### C5 -/

/-- C5, evaluated on the code: in the sorted list `[1, 2, 3]` the element at position 0
compares equal to the key `1` under the default comparison, yet `GetIndexFromKey`
reports `objectExists = false` with index 3, and `HasData` returns false.  The
comparison result `-1` is stored in the unsigned `res`, so the branch `res < 0` is
never taken and the search only moves to the right. -/
theorem C5_GetIndexFromKey_misses_smaller_key :
    defaultOrderedListComparison 1 2 = -1 ∧
    defaultOrderedListComparison 1 1 = 0 ∧
    GetIndexFromKey defaultOrderedListComparison 1 [1, 2, 3] = some (3, false) ∧
    HasData defaultOrderedListComparison 1 [1, 2, 3] = some false := by
  decide

end OrderedList

namespace CloudServer

open OrderedList

/-! ### C1 -/

/-- C1, evaluated on the code: on the empty server client 1 posts `[7]` under key
`(1,0)`, client 2 posts `[8]` under the same key, and client 1 posts `[9]` under it
again.  All three posts are accepted, and the local query for `(1,0)` then returns
three rows, two of them owned by client 1: the earlier payload `[7]` was not
overwritten. -/
theorem C1_repost_leaves_two_rows_of_the_owner :
    ownersAndPayloads
      ((OnPostRequest Env.acceptAll State.init 1 11 ⟨1, 0⟩ [7]).bind (fun s1 =>
        (OnPostRequest Env.acceptAll s1 2 12 ⟨1, 0⟩ [8]).bind (fun s2 =>
          OnPostRequest Env.acceptAll s2 1 11 ⟨1, 0⟩ [9])))
      ⟨1, 0⟩
    = some [(1, [7]), (2, [8]), (1, [9])] := by
  decide

/-! ### C2 -/

/-- C2, evaluated on the code: on the empty server client 1 posts `[7]` under key
`(1,0)` and then `[8]` under key `(2,0)`.  Both posts are accepted; afterwards the
local query for `(2,0)` returns the row of client 1, and the local query for `(1,0)`
returns no row at all. -/
theorem C2_post_under_second_key_hides_first_key :
    ownersAndPayloads
      ((OnPostRequest Env.acceptAll State.init 1 11 ⟨1, 0⟩ [7]).bind (fun s1 =>
        OnPostRequest Env.acceptAll s1 1 11 ⟨2, 0⟩ [8]))
      ⟨2, 0⟩
    = some [(1, [8])] ∧
    ownersAndPayloads
      ((OnPostRequest Env.acceptAll State.init 1 11 ⟨1, 0⟩ [7]).bind (fun s1 =>
        OnPostRequest Env.acceptAll s1 1 11 ⟨2, 0⟩ [8]))
      ⟨1, 0⟩
    = some [] := by
  decide

/-! ### C3 -/

/-- C3, evaluated on the code: `twoKeysState` is reached from the empty server by two
accepted posts; on it the query for key `(1,0)` returns no row, whereas the reference
query returns the row of the CloudData stored under `(1,0)`. -/
theorem C3_query_differs_from_reference :
    (OnPostRequest Env.acceptAll State.init 1 11 ⟨1, 0⟩ [7]).bind (fun s1 =>
        OnPostRequest Env.acceptAll s1 1 11 ⟨2, 0⟩ [8]) = some twoKeysState ∧
    ProcessCloudQueryWithAddresses twoKeysState (queryOfKey ⟨1, 0⟩) = some ([], []) ∧
    referenceQuery twoKeysState (queryOfKey ⟨1, 0⟩)
      = ([ { dataLengthBytes := 1, data := [7], isUploaded := true,
             serverSystemAddress := 11, clientSystemAddress := 11,
             serverGUID := 1000, clientGUID := 1, specificSubscribers := [] } ],
         [⟨1, 0⟩]) := by
  decide

/-! ### C4 -/

/-- C4: for every state and every get request whose `startingRowIndex` and
`maxRowsToReturn` are 32-bit values and whose merged row list `all` (the rows of the
local query followed by the rows of `remoteServerResponses[0]`, `[1]`, ...) has fewer
than `2^32` rows, `ProcessAndTransmitGetRequest` returns, and the one message it sends
to the requesting client carries exactly the rows `drop startingRowIndex all` when
`maxRowsToReturn = 0` and `take maxRowsToReturn (drop startingRowIndex all)` otherwise,
in that order, with a row-count field equal to the number of rows written. -/
theorem C4_response_is_page_of_merged_rows (s : State) (getRequest : GetRequest)
    (hstart : getRequest.cloudQueryWithAddresses.cloudQuery.startingRowIndex < 2 ^ 32)
    (hmax : getRequest.cloudQueryWithAddresses.cloudQuery.maxRowsToReturn < 2 ^ 32)
    (hall : (localQueryRows s getRequest.cloudQueryWithAddresses
              ++ remoteRowsOf getRequest.remoteServerResponses).length < 2 ^ 32) :
    ∃ rows : List CloudQueryRow,
      rows =
        (if getRequest.cloudQueryWithAddresses.cloudQuery.maxRowsToReturn = 0 then
          List.drop getRequest.cloudQueryWithAddresses.cloudQuery.startingRowIndex
            (localQueryRows s getRequest.cloudQueryWithAddresses
              ++ remoteRowsOf getRequest.remoteServerResponses)
        else
          List.take getRequest.cloudQueryWithAddresses.cloudQuery.maxRowsToReturn
            (List.drop getRequest.cloudQueryWithAddresses.cloudQuery.startingRowIndex
              (localQueryRows s getRequest.cloudQueryWithAddresses
                ++ remoteRowsOf getRequest.remoteServerResponses))) ∧
      ProcessAndTransmitGetRequest s getRequest =
        some { s with
                sent := s.sent ++
                  [ { destination := getRequest.requestingClient,
                      message := Message.CloudGetResponse
                        getRequest.cloudQueryWithAddresses.cloudQuery rows.length rows } ] } := by
  obtain ⟨⟨ds, ks⟩, hq, hlen⟩ :=
    ProcessCloudQueryWithAddresses_returns s getRequest.cloudQueryWithAddresses
  have hlocal : localQueryRows s getRequest.cloudQueryWithAddresses = localRowsOf ds ks := by
    simp [localQueryRows, hq]
  rw [hlocal] at hall ⊢
  refine ⟨_, rfl, ?_⟩
  unfold ProcessAndTransmitGetRequest
  rw [hq]
  simp only
  rw [ProcessAndTransmitRows_eq _ ds ks _ hlen hstart hmax hall]
  rfl

/-- C4 at a concrete input: on `twoKeysState` the request `pagedRequest` has the merged
rows (local row `[8]`, then `[50]`, `[60]`, `[61]`); rows 1 and 2 are sent. -/
theorem C4_response_is_page_of_merged_rows_witness :
    pagedRequest.cloudQueryWithAddresses.cloudQuery.startingRowIndex < 2 ^ 32 ∧
    pagedRequest.cloudQueryWithAddresses.cloudQuery.maxRowsToReturn < 2 ^ 32 ∧
    (localQueryRows twoKeysState pagedRequest.cloudQueryWithAddresses
      ++ remoteRowsOf pagedRequest.remoteServerResponses).length < 2 ^ 32 ∧
    ∃ rows : List CloudQueryRow,
      rows =
        (if pagedRequest.cloudQueryWithAddresses.cloudQuery.maxRowsToReturn = 0 then
          List.drop pagedRequest.cloudQueryWithAddresses.cloudQuery.startingRowIndex
            (localQueryRows twoKeysState pagedRequest.cloudQueryWithAddresses
              ++ remoteRowsOf pagedRequest.remoteServerResponses)
        else
          List.take pagedRequest.cloudQueryWithAddresses.cloudQuery.maxRowsToReturn
            (List.drop pagedRequest.cloudQueryWithAddresses.cloudQuery.startingRowIndex
              (localQueryRows twoKeysState pagedRequest.cloudQueryWithAddresses
                ++ remoteRowsOf pagedRequest.remoteServerResponses))) ∧
      ProcessAndTransmitGetRequest twoKeysState pagedRequest =
        some { twoKeysState with
                sent := twoKeysState.sent ++
                  [ { destination := pagedRequest.requestingClient,
                      message := Message.CloudGetResponse
                        pagedRequest.cloudQueryWithAddresses.cloudQuery rows.length rows } ] } :=
  ⟨by decide, by decide, by decide,
    C4_response_is_page_of_merged_rows twoKeysState pagedRequest (by decide) (by decide)
      (by decide)⟩

/-! ### C6 -/

/-- C6, evaluated on the code: with `maxUploadBytesPerClient = 10`, client 1 posts 6
bytes under key `(1,0)` and client 2 posts 1 byte under the same key.  Client 1 then
has `uploadedBytes = 6` and an existing payload of 6 bytes under `(1,0)`, so that
`6 - 6 + 6 = 6` does not exceed the quota; its next post of 6 bytes under `(1,0)` is
nevertheless rejected: nothing is stored (the whole list of the key is gone),
`uploadedBytes` stays 6 and nothing is sent. -/
theorem C6_overwrite_within_quota_is_rejected :
    quotaTenAfterTwoPosts.map storedLengths = some [(⟨1, 0⟩, [(1, 6), (2, 1)])] ∧
    quotaTenAfterTwoPosts.bind (fun s2 => uploadedBytesOf s2 1) = some 6 ∧
    quotaTenAfterRepost.map storedLengths = some [] ∧
    quotaTenAfterRepost.bind (fun s3 => uploadedBytesOf s3 1) = some 6 ∧
    quotaTenAfterRepost.map (fun s3 => s3.sent) = some [] := by
  decide

/-! ### C7 -/

set_option maxRecDepth 100000 in
/-- C7, evaluated on the code: with `maxUploadBytesPerClient = 1000`, client 1 posts 600
bytes under key `(1,0)` and then 500 bytes under key `(2,0)`.  The second post is
rejected for the quota: the repository still holds only the 600 bytes under `(1,0)`,
`uploadedBytes` is still 600 and nothing has been sent; but the rejected key `(2,0)`
has been added to the uploaded keys of the client. -/
theorem C7_rejected_post_changes_uploaded_keys :
    quotaThousandAfterFirstPost.bind (fun s1 => uploadedKeysOf s1 1) = some [⟨1, 0⟩] ∧
    quotaThousandAfterSecondPost.map storedLengths = some [(⟨1, 0⟩, [(1, 600)])] ∧
    quotaThousandAfterSecondPost.bind (fun s2 => uploadedBytesOf s2 1) = some 600 ∧
    quotaThousandAfterSecondPost.map (fun s2 => s2.sent) = some [] ∧
    quotaThousandAfterSecondPost.bind (fun s2 => uploadedKeysOf s2 1)
      = some [⟨1, 0⟩, ⟨2, 0⟩] := by
  decide

/-! ### C8 -/

/-- C8, evaluated on the code: on the empty server client 3 subscribes to key `(1,0)`
without owner filter, client 1 posts `[7]` under key `(2,0)`, and client 1 posts `[9]`
under key `(1,0)`.  Before the last post the list of `(1,0)` has the non-specific
subscriber 3; the post is accepted (its row is returned by the query for `(1,0)`),
but no subscription notification is sent to anyone. -/
theorem C8_post_does_not_notify_subscriber :
    ((OnGetRequest Env.acceptAll State.init 3 13
        { keys := [⟨1, 0⟩], maxRowsToReturn := 0, startingRowIndex := 0,
          subscribeToResults := true } [] 0).bind (fun s1 =>
      OnPostRequest Env.acceptAll s1 1 11 ⟨2, 0⟩ [7])).map nonSpecificSubscribersByKey
      = some [(⟨1, 0⟩, [3]), (⟨2, 0⟩, [])] ∧
    ((OnGetRequest Env.acceptAll State.init 3 13
        { keys := [⟨1, 0⟩], maxRowsToReturn := 0, startingRowIndex := 0,
          subscribeToResults := true } [] 0).bind (fun s1 =>
      (OnPostRequest Env.acceptAll s1 1 11 ⟨2, 0⟩ [7]).bind (fun s2 =>
        OnPostRequest Env.acceptAll s2 1 11 ⟨1, 0⟩ [9]))).map
        (fun s3 => (notificationsIn s3.sent, ownersAndPayloads (some s3) ⟨1, 0⟩))
      = some ([], some [(1, [9])]) := by
  decide

/-! ### C9 -/

/-- C9, evaluated on the code: on the empty server client 2 posts `[7]` under key
`(1,0)`, client 1 posts `[8]` under key `(2,0)` and `[9]` under key `(1,0)`, and then
client 1 releases key `(2,0)`, of which it is the only uploader.  The release changes
nothing: `(2,0)` is still among the uploaded keys of client 1, and the local query for
`(2,0)` still returns the row of client 1. -/
theorem C9_release_leaves_row_of_owner :
    ((OnPostRequest Env.acceptAll State.init 2 12 ⟨1, 0⟩ [7]).bind (fun s1 =>
      (OnPostRequest Env.acceptAll s1 1 11 ⟨2, 0⟩ [8]).bind (fun s2 =>
        (OnPostRequest Env.acceptAll s2 1 11 ⟨1, 0⟩ [9]).bind (fun s3 =>
          OnReleaseRequest Env.acceptAll s3 1 11 [⟨2, 0⟩])))).map
        (fun s4 => (uploadedKeysOf s4 1, ownersAndPayloads (some s4) ⟨2, 0⟩))
      = some (some [⟨2, 0⟩, ⟨1, 0⟩], some [(1, [8])]) := by
  decide

/-! ### C10 -/

/-- C10, evaluated on the code: the remote server of `oneServerRegistry` has completed
the handshake and advertises the keys `(1,0)` and `(2,0)`, the list that inserting
`(2,0)` into the advertised keys `[(1,0)]` produces.  For the key list `[(2,0)]` the
server is returned, but for the key list `[(1,0)]`, a key it advertises, the list of
candidates is empty. -/
theorem C10_server_with_advertised_key_is_skipped :
    Insert CloudKeyComp ⟨2, 0⟩ ⟨2, 0⟩ [⟨1, 0⟩] = some ([⟨1, 0⟩, ⟨2, 0⟩], some 1) ∧
    (GetServersWithUploadedKeys oneServerRegistry [⟨2, 0⟩]).map
        (fun result => result.2.map (fun server => server.serverAddress)) = some [5] ∧
    (GetServersWithUploadedKeys oneServerRegistry [⟨1, 0⟩]).map
        (fun result => result.2.map (fun server => server.serverAddress)) = some [] := by
  decide

/-! ### C11 -/

/-- C11, evaluated on the code: the remote server 5 has completed the handshake and
advertises the uploaded keys `(1,0)` and `(2,0)` (the registry is `oneServerRegistry`),
so that server 5 is a candidate for the get request of client 3 for key `(1,0)`.  The
request is nevertheless answered locally: one `CloudGetResponse` with zero rows is sent
to client 3, no `ProcessGetRequest` is sent, and no GetRequest is registered. -/
theorem C11_get_with_candidate_is_answered_locally :
    serverFiveAdvertised.map (fun s2 => s2.remoteServers) = some oneServerRegistry ∧
    serverFiveAdvertisedAfterGet.map (fun s3 => getResponsesIn s3.sent) = some [(3, 0)] ∧
    serverFiveAdvertisedAfterGet.map (fun s3 => processGetRequestsIn s3.sent) = some [] ∧
    serverFiveAdvertisedAfterGet.map slotsOf = some [] := by
  decide

/-! ### C12 -/

/-- C12, evaluated on the code: the get request of client 3 is sent to the candidates 5
and 6 and registered as request 0 with one open slot for each.  After the response of
server 6 and the response of server 5 to request 0 have been processed, both servers
still being registered, the request is still outstanding, the slot of server 5 still
has `gotResult = false`, and no `CloudGetResponse` has been sent. -/
theorem C12_request_stays_after_all_responses :
    twoServersAfterGet.map (fun s3 => processGetRequestsIn s3.sent) = some [(5, 0), (6, 0)] ∧
    twoServersAfterGet.map slotsOf = some [(0, [(5, false), (6, false)])] ∧
    twoServersAfterResponses.map registeredServers = some [5, 6] ∧
    twoServersAfterResponses.map slotsOf = some [(0, [(5, false), (6, true)])] ∧
    twoServersAfterResponses.map (fun s5 => getResponsesIn s5.sent) = some [] := by
  decide

/-! ### C13 -/

/-- C13, on the code: `Update` changes nothing in any state, whatever the clock shows
and however old the outstanding requests are; no request is ever answered or removed
by the sweep, because the time it compares with is the value-initialised
`RakNet::Time()`, which is zero. -/
theorem C13_Update_never_sweeps (s : State) : Update s = some s := by
  unfold Update
  simp

/-! ### C14 -/

/-- C14, evaluated on the code: with the remote servers 5 and 6 registered and request
0 waiting for both, `OnClosedConnection` for server 5 changes nothing: server 5 is
still in the registry, request 0 still has its slot for server 5, and nothing is sent
to the client. -/
theorem C14_closed_server_keeps_slot_and_entry :
    twoServersAfterGet.map registeredServers = some [5, 6] ∧
    twoServersAfterGet.map slotsOf = some [(0, [(5, false), (6, false)])] ∧
    twoServersAfterClose.map registeredServers = some [5, 6] ∧
    twoServersAfterClose.map slotsOf = some [(0, [(5, false), (6, false)])] ∧
    twoServersAfterClose.map (fun s4 => getResponsesIn s4.sent) = some [] := by
  decide

/-! ### C15 -/

/-- C15, evaluated on the code: on the empty server client 3 subscribes to key `(1,0)`
with the owner list `[7, 7]`.  The list of `(1,0)` then has `subscriberCount = 2`, no
non-specific subscriber, and the single CloudData of owner 7 with the single specific
subscriber 3: the count is 2, the subscribers are 1. -/
theorem C15_repeated_owner_counts_twice :
    (OnGetRequest Env.acceptAll State.init 3 13 (subscribingQuery [⟨1, 0⟩]) [7, 7] 0).map
      subscriptionsByKey = some [⟨⟨1, 0⟩, 2, [], [(7, [3])]⟩] := by
  decide

/-! ### C16 -/

/-- C16, evaluated on the code: on the empty server client 3 subscribes to key `(1,0)`
without naming owners and then disconnects.  The client is gone from the registry, but
the list of `(1,0)` is still in the repository, with `uploaderCount = 0` and
`subscriberCount = 0`. -/
theorem C16_disconnect_leaves_unused_list :
    subscribedToOneKey.map countsByKey = some [(⟨1, 0⟩, 0, 1)] ∧
    (subscribedToOneKey.bind (fun s1 => OnClosedConnection s1 3)).map countsByKey
      = some [(⟨1, 0⟩, 0, 0)] ∧
    (subscribedToOneKey.bind (fun s1 => OnClosedConnection s1 3)).map
      (fun s2 => s2.remoteSystems) = some [] := by
  decide

/-! ### C17 -/

/-- C17, evaluated on the code: with `maxUploadBytesPerClient = 10`, client 1 posts 6
bytes under key `(2,0)`, client 2 posts 1 byte under key `(1,0)`, and client 1 posts 6
bytes under key `(1,0)`, which is rejected for the quota.  Afterwards the repository
holds no CloudData of client 2 at all, while client 2 is still registered with
`uploadedBytes = 1`. -/
theorem C17_rejected_post_removes_data_of_other_client :
    quotaTenAfterForeignKeyPost.map storedLengths = some [(⟨2, 0⟩, [(1, 6)])] ∧
    quotaTenAfterForeignKeyPost.bind (fun s3 => uploadedBytesOf s3 2) = some 1 := by
  decide

/-! ### C18 -/

/-- C18: in every state that the server reaches from its initial state through its
public functions and packet handlers (`Update` included), every GetRequest in
`getRequests` has at least one remote response slot and at least one slot with
`gotResult = false`. -/
theorem C18_outstanding_request_has_open_slot (env : Env) (s : State)
    (h : Reachable env s) :
    ∀ r, r ∈ s.getRequests →
      1 ≤ r.remoteServerResponses.length ∧
        ∃ slot, slot ∈ r.remoteServerResponses ∧ slot.gotResult = false := by
  show ∀ r, r ∈ s.getRequests → r.Outstanding

  induction h with
  | init => intro r hr; cases hr
  | setMaxUploadBytesPerClient bytes _ ih => exact ih
  | setMaxBytesPerDownload bytes _ ih => exact ih
  | addQueryFilter filter _ ih =>
    unfold AddQueryFilter
    split <;> exact ih
  | removeQueryFilter filter _ ih =>
    unfold RemoveQueryFilter
    dsimp only
    split <;> exact ih
  | removeAllQueryFilters _ ih => exact ih
  | clear _ _ => intro r hr; cases hr
  | update _ h ih =>
    rw [Update_eq] at h
    injection h with h
    subst h
    exact ih
  | addServer systemIdentifier cs _ h ih => rw [AddServer_getRequests _ _ _ _ h]; exact ih
  | removeServer systemAddress _ h ih => rw [RemoveServer_getRequests _ _ _ h]; exact ih
  | onClosedConnection rakNetGUID _ h ih => exact OnClosedConnection_outstanding _ _ _ h ih
  | onPostRequest guid systemAddress key data _ h ih =>
    rw [OnPostRequest_getRequests _ _ _ _ _ _ _ h]; exact ih
  | onReleaseRequest guid systemAddress cloudKeys _ h ih =>
    rw [OnReleaseRequest_getRequests _ _ _ _ _ _ h]; exact ih
  | onGetRequest guid systemAddress cloudQuery specificSystems time _ h ih =>
    exact OnGetRequest_outstanding _ _ _ _ _ _ _ _ h ih
  | onUnsubscribeRequest guid systemAddress cloudKeys specificSystems _ h ih =>
    rw [OnUnsubscribeRequest_getRequests _ _ _ _ _ _ _ h]; exact ih
  | onServerToServerGetRequest guid cloudQueryWithAddresses requestId _ h ih =>
    rw [OnServerToServerGetRequest_getRequests _ _ _ _ _ h]; exact ih
  | onServerToServerGetResponse guid requestId rows _ h ih =>
    exact OnServerToServerGetResponse_outstanding _ _ _ _ _ h ih
  | onSendUploadedAndSubscribedKeysToServer guid uploaded subscribed _ h ih =>
    rw [OnSendUploadedAndSubscribedKeysToServer_getRequests _ _ _ _ _ h]; exact ih
  | onSendUploadedKeyToServers guid cloudKey _ h ih =>
    rw [OnSendUploadedKeyToServers_getRequests _ _ _ _ h]; exact ih
  | onSendSubscribedKeyToServers guid cloudKey _ h ih =>
    rw [OnSendSubscribedKeyToServers_getRequests _ _ _ _ h]; exact ih
  | onRemoveUploadedKeyFromServers guid cloudKey _ h ih =>
    rw [OnRemoveUploadedKeyFromServers_getRequests _ _ _ _ h]; exact ih
  | onRemoveSubscribedKeyFromServers guid cloudKey _ h ih =>
    rw [OnRemoveSubscribedKeyFromServers_getRequests _ _ _ _ h]; exact ih
  | onServerDataChanged guid wasUpdated row _ h ih =>
    rw [OnServerDataChanged_getRequests _ _ _ _ _ h]; exact ih

/-- Witness for C18: the state after `AddServer(5)`, `AddServer(6)` and the get request
of client 3 for key `(1,0)` is reachable and holds request 0 with the open slots of the
servers 5 and 6. -/
theorem C18_outstanding_request_has_open_slot_witness :
    Reachable Env.acceptAll twoServersAfterGetState ∧
    slotsOf twoServersAfterGetState = [(0, [(5, false), (6, false)])] ∧
    ∀ r, r ∈ twoServersAfterGetState.getRequests →
      1 ≤ r.remoteServerResponses.length ∧
        ∃ slot, slot ∈ r.remoteServerResponses ∧ slot.gotResult = false :=
  ⟨twoServersAfterGetState_reachable, by decide,
    C18_outstanding_request_has_open_slot Env.acceptAll twoServersAfterGetState
      twoServersAfterGetState_reachable⟩

/-! ### C19 -/

/-- C19, evaluated on the code: on the empty server client 1 posts `[7]` and then `[8]`
under key `(1,0)`.  Both posts are accepted; the list of `(1,0)` then has the single
CloudData of owner 1, uploaded with 1 byte, and `uploaderCount = 2`. -/
theorem C19_overwrite_increments_uploader_count :
    ((OnPostRequest Env.acceptAll State.init 1 11 ⟨1, 0⟩ [7]).bind (fun s1 =>
      OnPostRequest Env.acceptAll s1 1 11 ⟨1, 0⟩ [8])).map uploadsByKey
      = some [⟨⟨1, 0⟩, 2, [(1, true, 1)]⟩] := by
  decide

/-! ### C20 -/

/-- C20, evaluated on the code: on the empty server client 3 subscribes to owner 1 of
key `(1,0)`, which creates the placeholder of owner 1, and client 1 then posts `[9]`
under `(1,0)`.  The CloudData of owner 1 then holds 1 byte with `isUploaded = false`.
When client 3 unsubscribes from `(1,0)`, the repository is empty: the payload is
destroyed, while client 1 is still recorded with the uploaded key `(1,0)` and
`uploadedBytes = 1`. -/
theorem C20_posted_placeholder_is_not_marked_uploaded :
    postIntoPlaceholder.map uploadsByKey = some [⟨⟨1, 0⟩, 1, [(1, false, 1)]⟩] ∧
    postIntoPlaceholder.map subscriptionsByKey = some [⟨⟨1, 0⟩, 1, [], [(1, [3])]⟩] ∧
    (postIntoPlaceholder.bind (fun s2 =>
      OnUnsubscribeRequest Env.acceptAll s2 3 13 [⟨1, 0⟩] [])).map uploadsByKey = some [] ∧
    (postIntoPlaceholder.bind (fun s2 =>
      OnUnsubscribeRequest Env.acceptAll s2 3 13 [⟨1, 0⟩] [])).bind
        (fun s3 => uploadedKeysOf s3 1) = some [⟨1, 0⟩] ∧
    (postIntoPlaceholder.bind (fun s2 =>
      OnUnsubscribeRequest Env.acceptAll s2 3 13 [⟨1, 0⟩] [])).bind
        (fun s3 => uploadedBytesOf s3 1) = some 1 := by
  decide

/-! ### C21 -/

/-- C21, evaluated on the code: on the empty server client 1 posts under key `(2,0)`
and under key `(1,0)`, and client 2 then posts under key `(2,0)`.  The repository then
holds two lists for key `(2,0)`, one with the CloudData of client 1 and one with the
CloudData of client 2: `GetOrAllocateCloudDataList` did not return the stored list of
`(2,0)` but inserted a new one. -/
theorem C21_repository_holds_two_lists_of_one_key :
    threePosts.map storedLengths
      = some [(⟨2, 0⟩, [(1, 1)]), (⟨1, 0⟩, [(1, 1)]), (⟨2, 0⟩, [(2, 1)])] := by
  decide

/-! ### C22 -/

/-- C22, evaluated on the code: on the empty server client 3 subscribes to owner 7 of
key `(2,0)`, then to key `(1,0)` without owners, and then to key `(2,0)` without
owners.  After the last request, a non-specific subscription to `(2,0)`, client 3 is a
non-specific subscriber of `(2,0)` (in the third list) and still a specific subscriber
of owner 7 under `(2,0)` (in the first list). -/
theorem C22_specific_subscription_survives_non_specific :
    specificThenNonSpecific.map subscriptionsByKey
      = some [⟨⟨2, 0⟩, 1, [], [(7, [3])]⟩, ⟨⟨1, 0⟩, 1, [3], []⟩, ⟨⟨2, 0⟩, 1, [3], []⟩] := by
  decide

/-! ### C23 -/

/-- C23, evaluated on the code: on the empty server client 3 sends the subscribing get
request for the keys `(2,0)` and `(1,0)` without owners.  After one processing the
repository has one list per key and the client two subscribed keys; after the second
processing of the same request the repository has two lists for `(2,0)` and the client
three subscribed keys. -/
theorem C23_second_subscription_changes_state :
    subscribedToTwoKeys.map subscriptionsByKey
      = some [⟨⟨2, 0⟩, 1, [3], []⟩, ⟨⟨1, 0⟩, 1, [3], []⟩] ∧
    subscribedToTwoKeys.bind (fun s1 => subscribedKeysOf s1 3)
      = some [(⟨2, 0⟩, []), (⟨1, 0⟩, [])] ∧
    (subscribedToTwoKeys.bind (fun s1 =>
      OnGetRequest Env.acceptAll s1 3 13 (subscribingQuery [⟨2, 0⟩, ⟨1, 0⟩]) [] 0)).map
        subscriptionsByKey
      = some [⟨⟨2, 0⟩, 1, [3], []⟩, ⟨⟨2, 0⟩, 1, [3], []⟩, ⟨⟨1, 0⟩, 1, [3], []⟩] ∧
    (subscribedToTwoKeys.bind (fun s1 =>
      OnGetRequest Env.acceptAll s1 3 13 (subscribingQuery [⟨2, 0⟩, ⟨1, 0⟩]) [] 0)).bind
        (fun s2 => subscribedKeysOf s2 3)
      = some [(⟨2, 0⟩, []), (⟨1, 0⟩, []), (⟨2, 0⟩, [])] := by
  decide

/-! ### C24 -/

/-- C24, evaluated on the code: client 3 is subscribed to the keys `(2,0)` and `(1,0)`
without owners and sends the unsubscribe request for key `(2,0)` with an empty owner
list.  Nothing changes: client 3 is still a non-specific subscriber of `(2,0)`, and
`(2,0)` is still among its subscribed keys. -/
theorem C24_global_unsubscribe_changes_nothing :
    subscribedToTwoKeys.map subscriptionsByKey
      = some [⟨⟨2, 0⟩, 1, [3], []⟩, ⟨⟨1, 0⟩, 1, [3], []⟩] ∧
    (subscribedToTwoKeys.bind (fun s1 =>
      OnUnsubscribeRequest Env.acceptAll s1 3 13 [⟨2, 0⟩] [])).map subscriptionsByKey
      = some [⟨⟨2, 0⟩, 1, [3], []⟩, ⟨⟨1, 0⟩, 1, [3], []⟩] ∧
    (subscribedToTwoKeys.bind (fun s1 =>
      OnUnsubscribeRequest Env.acceptAll s1 3 13 [⟨2, 0⟩] [])).bind
        (fun s2 => subscribedKeysOf s2 3)
      = some [(⟨2, 0⟩, []), (⟨1, 0⟩, [])] := by
  decide

/-! ### C25 -/

/-- C25, evaluated on the code: client 3 is a specific subscriber of the owners 7 and 8
of key `(1,0)` and sends the unsubscribe request for `(1,0)` that names owner 7.
Nothing changes: client 3 is still a specific subscriber of owner 7, `subscriberCount`
is still 2, and the subscribed key of the client still names the owners 7 and 8. -/
theorem C25_scoped_unsubscribe_keeps_named_owner :
    subscribedToTwoOwners.map subscriptionsByKey
      = some [⟨⟨1, 0⟩, 2, [], [(7, [3]), (8, [3])]⟩] ∧
    (subscribedToTwoOwners.bind (fun s1 =>
      OnUnsubscribeRequest Env.acceptAll s1 3 13 [⟨1, 0⟩] [7])).map subscriptionsByKey
      = some [⟨⟨1, 0⟩, 2, [], [(7, [3]), (8, [3])]⟩] ∧
    (subscribedToTwoOwners.bind (fun s1 =>
      OnUnsubscribeRequest Env.acceptAll s1 3 13 [⟨1, 0⟩] [7])).bind
        (fun s2 => subscribedKeysOf s2 3)
      = some [(⟨1, 0⟩, [7, 8])] := by
  decide

/-! ### C26 -/

/-- C26, evaluated on the code: client 3 is subscribed to key `(1,0)` without owners
and has uploaded nothing.  After `OnClosedConnection` for client 3 the repository
still holds the list of `(1,0)` with no uploader and no subscriber; after the release
of all its uploaded keys (none) and the global unsubscribe from `(1,0)` the repository
is empty.  The client registry is empty in both cases. -/
theorem C26_disconnect_differs_from_release_and_unsubscribe :
    (subscribedToOneKey.bind (fun s1 => OnClosedConnection s1 3)).map countsByKey
      = some [(⟨1, 0⟩, 0, 0)] ∧
    (subscribedToOneKey.bind (fun s1 => OnClosedConnection s1 3)).map
      (fun s2 => s2.remoteSystems) = some [] ∧
    (subscribedToOneKey.bind (fun s1 =>
      (OnReleaseRequest Env.acceptAll s1 3 13 []).bind (fun s2 =>
        OnUnsubscribeRequest Env.acceptAll s2 3 13 [⟨1, 0⟩] []))).map countsByKey
      = some [] ∧
    (subscribedToOneKey.bind (fun s1 =>
      (OnReleaseRequest Env.acceptAll s1 3 13 []).bind (fun s2 =>
        OnUnsubscribeRequest Env.acceptAll s2 3 13 [⟨1, 0⟩] []))).map
      (fun s3 => s3.remoteSystems) = some [] := by
  decide

/-! ### C27 -/

/-- C27, evaluated on the code: the registry holds the remote server 5, which has
completed the handshake and whose `subscribedKeys` are `(1,0)` and `(2,0)`, the list
that its handshake message with these subscribed keys produces.  For a change under
key `(2,0)` one `DataChanged` is sent to server 5, but for a change under key `(1,0)`,
a key it subscribes to, nothing is sent. -/
theorem C27_subscribed_server_is_not_notified :
    ((AddServer State.init 5 ConnectionState.IS_CONNECTED).bind (fun s1 =>
      OnSendUploadedAndSubscribedKeysToServer s1 5 [] [⟨1, 0⟩, ⟨2, 0⟩])).map
        (fun s2 => s2.remoteServers) = some oneSubscribedServerRegistry ∧
    (NotifyServerSubscribersOfDataChange
      { State.init with remoteServers := oneSubscribedServerRegistry } changedData ⟨2, 0⟩
        true).map (fun s1 => dataChangedIn s1.sent) = some [(5, true, ⟨2, 0⟩)] ∧
    (NotifyServerSubscribersOfDataChange
      { State.init with remoteServers := oneSubscribedServerRegistry } changedData ⟨1, 0⟩
        true).map (fun s1 => s1.sent) = some [] := by
  decide

/-! ### C28 -/

/-- C28, evaluated on the code: the remote server 5 is registered and client 3 is a
non-specific subscriber of the keys `(2,0)` and `(1,0)`.  A `DataChanged` for key
`(1,0)` from server 5 is relayed to client 3, but a `DataChanged` for key `(2,0)` from
server 5 is relayed to nobody: nothing at all is sent. -/
theorem C28_data_changed_is_not_relayed :
    oneServerTwoSubscriptions.map registeredServers = some [5] ∧
    oneServerTwoSubscriptions.map nonSpecificSubscribersByKey
      = some [(⟨2, 0⟩, [3]), (⟨1, 0⟩, [3])] ∧
    (oneServerTwoSubscriptions.bind (fun s2 =>
      OnServerDataChanged s2.withoutSent 5 true (changedRow ⟨1, 0⟩))).map
        (fun s3 => notificationsIn s3.sent) = some [(3, true, [9])] ∧
    (oneServerTwoSubscriptions.bind (fun s2 =>
      OnServerDataChanged s2.withoutSent 5 true (changedRow ⟨2, 0⟩))).map
        (fun s3 => s3.sent) = some [] := by
  decide

/-! ### C29 -/

/-- C29, evaluated on the code: the remote server 5 is registered, client 1 is the only
uploader of key `(1,0)`, and client 3 is a specific subscriber of owner 1 under that
key.  Client 1 releases `(1,0)`: afterwards the list of `(1,0)` has `uploaderCount = 0`
and the CloudData of owner 1, kept for its subscriber, holds no data; the release sends
the `DataChanged` to server 5 but no `RemoveUploadedKey` to anyone. -/
theorem C29_release_sends_no_retraction :
    uploadWithSpecificSubscriber.map registeredServers = some [5] ∧
    uploadWithSpecificSubscriber.map uploadsByKey = some [⟨⟨1, 0⟩, 1, [(1, true, 1)]⟩] ∧
    uploadWithSpecificSubscriber.map subscriptionsByKey
      = some [⟨⟨1, 0⟩, 1, [], [(1, [3])]⟩] ∧
    uploadWithSpecificSubscriberReleased.map uploadsByKey
      = some [⟨⟨1, 0⟩, 0, [(1, false, 0)]⟩] ∧
    uploadWithSpecificSubscriberReleased.map (fun s4 => dataChangedIn s4.sent)
      = some [(5, false, ⟨1, 0⟩)] ∧
    uploadWithSpecificSubscriberReleased.map (fun s4 => uploadRetractionsIn s4.sent)
      = some [] := by
  decide

/-! ### C30 -/

/-- C30, evaluated on the code: client 3 is a non-specific subscriber of key `(1,0)`,
which nobody has uploaded (`uploaderCount = 0`, `subscriberCount = 1`).  The handshake
message that `AddServer` sends to the new remote server 5 lists `(1,0)` among the
uploaded keys as well as among the subscribed keys. -/
theorem C30_snapshot_lists_key_without_uploader :
    subscribedToOneKey.map countsByKey = some [(⟨1, 0⟩, 0, 1)] ∧
    subscribedThenServerAdded.map (fun s2 => snapshotsIn s2.sent)
      = some [(5, [⟨1, 0⟩], [⟨1, 0⟩])] := by
  decide

/-! ### C31 -/

/-- C31: in every state, when the filter chain rejects a post, a release, a get or an
unsubscribe request, the handler returns the state it was called in (repository, client
registry, server registry, outstanding requests, next request id and the log of sent
messages all unchanged); and when a chain rejects, the filters that the loop has called
are the accepting filters in front of the first rejecting one and that filter, so that
no filter after it is called. -/
theorem C31_filter_rejection_aborts_without_effect (env : Env) (s : State)
    (guid systemAddress : Nat) (key : CloudKey) (data : List Nat) (cloudKeys : List CloudKey)
    (cloudQuery : CloudQuery) (specificSystems : List Nat) (time : Nat) :
    (filtersAccept
          (fun filter => env.filterOnPostRequest filter guid systemAddress key data.length data)
          s.queryFilters = false →
        OnPostRequest env s guid systemAddress key data = some s) ∧
      (filtersAccept
          (fun filter => env.filterOnReleaseRequest filter guid systemAddress cloudKeys)
          s.queryFilters = false →
        OnReleaseRequest env s guid systemAddress cloudKeys = some s) ∧
      (filtersAccept
          (fun filter =>
            env.filterOnGetRequest filter guid systemAddress cloudQuery specificSystems)
          s.queryFilters = false →
        OnGetRequest env s guid systemAddress cloudQuery specificSystems time = some s) ∧
      (filtersAccept
          (fun filter =>
            env.filterOnUnsubscribeRequest filter guid systemAddress cloudKeys specificSystems)
          s.queryFilters = false →
        OnUnsubscribeRequest env s guid systemAddress cloudKeys specificSystems = some s) ∧
      (∀ accepts : Nat → Bool, filtersAccept accepts s.queryFilters = false →
        ∃ before rejecting after, s.queryFilters = before ++ rejecting :: after ∧
          (∀ filter ∈ before, accepts filter = true) ∧ accepts rejecting = false ∧
          filtersConsulted accepts s.queryFilters = before ++ [rejecting]) := by
  refine ⟨?_, ?_, ?_, ?_, fun accepts h => filtersConsulted_of_reject accepts _ h⟩
  · intro h
    unfold OnPostRequest
    dsimp only
    rw [h]
    split <;> rfl
  · intro h
    unfold OnReleaseRequest
    rw [h]
    split
    · rfl
    · split <;> rfl
  · intro h
    unfold OnGetRequest
    rw [h]
    split <;> rfl
  · intro h
    unfold OnUnsubscribeRequest
    rw [h]
    split <;> rfl

/-- Witness of C31: on the state with the two keys of client 1 and the filters 1, 2 and 3,
where filter 2 rejects, each of the four requests of client 1 leaves the state unchanged,
and the filters called are 1 and 2. -/
theorem C31_filter_rejection_aborts_without_effect_witness :
    filteredTwoKeysState.queryFilters = [1, 2, 3] ∧
      OnPostRequest Env.rejectSecond filteredTwoKeysState 1 11 ⟨1, 0⟩ [9] =
        some filteredTwoKeysState ∧
      OnReleaseRequest Env.rejectSecond filteredTwoKeysState 1 11 [⟨1, 0⟩] =
        some filteredTwoKeysState ∧
      OnGetRequest Env.rejectSecond filteredTwoKeysState 1 11 (subscribingQuery [⟨1, 0⟩]) []
        0 = some filteredTwoKeysState ∧
      OnUnsubscribeRequest Env.rejectSecond filteredTwoKeysState 1 11 [⟨1, 0⟩] [] =
        some filteredTwoKeysState ∧
      filtersConsulted (fun filter => filter != 2) filteredTwoKeysState.queryFilters =
        [1, 2] :=
  have h := C31_filter_rejection_aborts_without_effect Env.rejectSecond filteredTwoKeysState
    1 11 ⟨1, 0⟩ [9] [⟨1, 0⟩] (subscribingQuery [⟨1, 0⟩]) [] 0
  ⟨by decide, h.1 (by decide), h.2.1 (by decide), h.2.2.1 (by decide),
    h.2.2.2.1 (by decide), by decide⟩

/-! ### C32 -/

/-- C32: on a chain without repetition (the chain of `unsigned int` length), the call
`AddQueryFilter` appends a filter that is not in the chain and changes nothing when the
filter is in the chain; after any sequence of such calls every filter that was added
occurs exactly once in the chain, and whenever the chain accepts a later request every
added filter was called and has accepted it. -/
theorem C32_filter_insertion_is_deduplicated (s : State) (filter : Nat) (filters : List Nat)
    (hnodup : s.queryFilters.Nodup)
    (hlen : s.queryFilters.length + filters.length < 2 ^ 32) :
    (filter ∉ s.queryFilters →
        AddQueryFilter s filter = { s with queryFilters := s.queryFilters ++ [filter] }) ∧
      (filter ∈ s.queryFilters → AddQueryFilter s filter = s) ∧
      (∀ added ∈ filters, (addQueryFilters s filters).queryFilters.count added = 1) ∧
      (∀ accepts : Nat → Bool,
        filtersAccept accepts (addQueryFilters s filters).queryFilters = true →
        ∀ added ∈ filters, accepts added = true ∧
          added ∈ filtersConsulted accepts (addQueryFilters s filters).queryFilters) := by
  have hs : s.queryFilters.length < 2 ^ 32 := by omega
  obtain ⟨h1, h2⟩ := addQueryFilters_chain filters s hnodup hlen
  refine ⟨AddQueryFilter_of_not_mem s filter hs, AddQueryFilter_of_mem s filter hs, ?_, ?_⟩
  · intro added hadded
    exact List.count_eq_one_of_mem h1 ((h2 added).mpr (Or.inr hadded))
  · intro accepts hacc added hadded
    have hmem := (h2 added).mpr (Or.inr hadded)
    refine ⟨(filtersAccept_iff accepts _).mp hacc added hmem, ?_⟩
    rw [filtersConsulted_of_accept accepts _ hacc]
    exact hmem

/-- Witness of C32: adding the filters 4, 5, 4, 6, 5 to the empty chain gives the chain
4, 5, 6. -/
theorem C32_filter_insertion_is_deduplicated_witness :
    (addQueryFilters State.init [4, 5, 4, 6, 5]).queryFilters = [4, 5, 6] ∧
      AddQueryFilter (addQueryFilters State.init [4, 5]) 4 = addQueryFilters State.init [4, 5] ∧
      (∀ added ∈ [4, 5, 4, 6, 5],
        (addQueryFilters State.init [4, 5, 4, 6, 5]).queryFilters.count added = 1) :=
  ⟨by decide,
    (C32_filter_insertion_is_deduplicated (addQueryFilters State.init [4, 5]) 4 []
      (by decide) (by decide)).2.1 (by decide),
    (C32_filter_insertion_is_deduplicated State.init 4 [4, 5, 4, 6, 5]
      (by decide) (by decide)).2.2.1⟩

/-! ### C33 -/

/-- C33: when the sender of a server-to-server command is not in the registry of remote
servers, each of the eight handlers returns the state it was called in, the log of sent
messages included. -/
theorem C33_unknown_peer_is_ignored (s : State) (guid : Nat)
    (cloudQueryWithAddresses : CloudQueryWithAddresses) (requestId : Nat)
    (rows : List CloudQueryRow) (uploaded subscribed : List CloudKey) (cloudKey : CloudKey)
    (wasUpdated : Bool) (row : CloudQueryRow) (h : guid ∉ registeredServers s) :
    OnServerToServerGetRequest s guid cloudQueryWithAddresses requestId = some s ∧
      OnServerToServerGetResponse s guid requestId rows = some s ∧
      OnSendUploadedAndSubscribedKeysToServer s guid uploaded subscribed = some s ∧
      OnSendUploadedKeyToServers s guid cloudKey = some s ∧
      OnRemoveUploadedKeyFromServers s guid cloudKey = some s ∧
      OnSendSubscribedKeyToServers s guid cloudKey = some s ∧
      OnRemoveSubscribedKeyFromServers s guid cloudKey = some s ∧
      OnServerDataChanged s guid wasUpdated row = some s := by
  obtain ⟨index, hmiss⟩ := GetIndexFromKey_unregistered s guid h
  refine ⟨?_, ?_, ?_, ?_, ?_, ?_, ?_, ?_⟩
  · unfold OnServerToServerGetRequest; rw [hmiss]; rfl
  · unfold OnServerToServerGetResponse; rw [hmiss]; rfl
  · unfold OnSendUploadedAndSubscribedKeysToServer; rw [hmiss]; rfl
  · unfold OnSendUploadedKeyToServers; rw [hmiss]; rfl
  · unfold OnRemoveUploadedKeyFromServers; rw [hmiss]; rfl
  · unfold OnSendSubscribedKeyToServers; rw [hmiss]; rfl
  · unfold OnRemoveSubscribedKeyFromServers; rw [hmiss]; rfl
  · unfold OnServerDataChanged; rw [hmiss]; rfl

/-- Witness of C33: the GUID 7 is not among the remote servers 5 and 6. -/
theorem C33_unknown_peer_is_ignored_witness :
    7 ∉ registeredServers twoServersAfterGetState ∧
      OnServerToServerGetRequest twoServersAfterGetState 7
          ⟨plainQuery [⟨1, 0⟩], []⟩ 0 = some twoServersAfterGetState ∧
      OnServerToServerGetResponse twoServersAfterGetState 7 0 [remoteRow [4]] =
        some twoServersAfterGetState ∧
      OnSendUploadedAndSubscribedKeysToServer twoServersAfterGetState 7 [⟨1, 0⟩] [⟨2, 0⟩] =
        some twoServersAfterGetState ∧
      OnSendUploadedKeyToServers twoServersAfterGetState 7 ⟨1, 0⟩ =
        some twoServersAfterGetState ∧
      OnRemoveUploadedKeyFromServers twoServersAfterGetState 7 ⟨1, 0⟩ =
        some twoServersAfterGetState ∧
      OnSendSubscribedKeyToServers twoServersAfterGetState 7 ⟨1, 0⟩ =
        some twoServersAfterGetState ∧
      OnRemoveSubscribedKeyFromServers twoServersAfterGetState 7 ⟨1, 0⟩ =
        some twoServersAfterGetState ∧
      OnServerDataChanged twoServersAfterGetState 7 true (remoteRow [4]) =
        some twoServersAfterGetState :=
  ⟨by decide,
    C33_unknown_peer_is_ignored twoServersAfterGetState 7 ⟨plainQuery [⟨1, 0⟩], []⟩ 0
      [remoteRow [4]] [⟨1, 0⟩] [⟨2, 0⟩] ⟨1, 0⟩ true (remoteRow [4]) (by decide)⟩

/-! ### C34 -/

set_option maxRecDepth 100000 in
/-- C34, evaluated on the code: with `maxUploadBytesPerClient = 1000`, client 1 posts 600
bytes under key `(1,0)` and then 500 bytes under key `(2,0)`, which is rejected for the
quota.  Key `(2,0)` is then among the uploaded keys of the client while the repository
has no list for it: the lookup in the repository reports index 1 and `objectExists =
false`, and the release of `(2,0)` by client 1 reads `dataRepository[1]` in a repository
of one list. -/
theorem C34_release_reads_outside_repository :
    quotaThousandAfterSecondPost.map
        (fun s => (uploadedKeysOf s 1, s.dataRepository.map (fun l => l.key),
          GetIndexFromKey KeyDataListComp ⟨2, 0⟩ s.dataRepository)) =
        some (some [⟨1, 0⟩, ⟨2, 0⟩], [⟨1, 0⟩], some (1, false)) ∧
      quotaThousandAfterSecondPost.bind
        (fun s => OnReleaseRequest Env.acceptAll s 1 11 [⟨2, 0⟩]) = none := by
  decide

/-! ### C36 -/

/-- C36: `KeyDataListComp` on a key and a list with a second key is -1 when the first
key is lexicographically smaller in (primaryKey, secondaryKey), 1 when it is larger and
0 otherwise; it is 0 exactly when the keys are equal; exchanging the keys negates the
result; and `KeySubscriberIDComp` gives the same value on the same pair of keys. -/
theorem C36_cloud_key_comparison_is_lexicographic (la lb : CloudDataList)
    (specificSystems : List Nat) :
    KeyDataListComp la.key lb =
        (if la.key.primaryKey < lb.key.primaryKey ∨
            (la.key.primaryKey = lb.key.primaryKey ∧
              la.key.secondaryKey < lb.key.secondaryKey) then -1
         else if lb.key.primaryKey < la.key.primaryKey ∨
            (la.key.primaryKey = lb.key.primaryKey ∧
              lb.key.secondaryKey < la.key.secondaryKey) then 1
         else 0) ∧
      (KeyDataListComp la.key lb = 0 ↔ la.key = lb.key) ∧
      KeyDataListComp lb.key la = - KeyDataListComp la.key lb ∧
      KeySubscriberIDComp la.key ⟨lb.key, specificSystems⟩ = KeyDataListComp la.key lb := by
  simp only [KeyDataListComp, KeySubscriberIDComp]
  generalize la.key = a
  generalize lb.key = b
  obtain ⟨p, q⟩ := a
  obtain ⟨p1, q1⟩ := b
  simp only [CloudKey.mk.injEq]
  refine ⟨?_, ?_, ?_, ?_⟩
  · split_ifs <;> first | rfl | omega
  · split_ifs <;> simp <;> omega
  · split_ifs <;> first | rfl | omega
  · trivial

/-! ### C37 -/

/-- C37, evaluated on the code: `GetRequestComp` is 0 when the key is the request id
and -1 in every other case, so for key 1 and a request with id 0 it is negative although
the key is the larger number. -/
theorem C37_GetRequestComp_is_negative_for_larger_key :
    GetRequestComp 1 pagedRequest = -1 ∧
      ∀ (key : Nat) (r : GetRequest),
        GetRequestComp key r = if key = r.requestId then 0 else -1 := by
  refine ⟨by decide, fun key r => ?_⟩
  unfold GetRequestComp
  split_ifs <;> first | rfl | omega

/-! ### C38 -/

/-- C38 fails as stated: the clients 1, 2 and 3 post under key `(1,0)` in this order and
their entries are stored in this order; the query for `(1,0)` that names the systems 3
and 2 returns the row of owner 3 before the row of owner 2. -/
theorem C38_rows_follow_named_systems_not_insertion :
    threeOwners.map storedLengths = some [(⟨1, 0⟩, [(1, 1), (2, 1), (3, 1)])] ∧
      rowOwners threeOwners
          { cloudQuery := plainQuery [⟨1, 0⟩], specificSystems := [3, 2] } =
        some [3, 2] := by
  decide

/-- C38 as amended: let a call lead from a state to a state, with lists within the range of
the `unsigned` index.  The rows of a local query on the state after the call are made up of
one group per key of the query, in query order.  A key has rows only when the lookup
finds a list for it that has an uploader.  When the query names no system, the rows are
all entries of that list, in insertion order: entries that a list of the key held before
the call, in the order they had there, followed by the entries that the call has
inserted.  When the query names systems, the rows are the entries found for the named
systems, in the order in which the query names them. -/
theorem C38_rows_follow_insertion_and_named_systems (env : Env) (s s1 : State) (call : Call)
    (queryWithAddresses : CloudQueryWithAddresses)
    (hcall : perform env s call = some s1)
    (hinserted : (insertedBy call).length < 2 ^ 32)
    (hbound : ∀ cloudDataList ∈ s.dataRepository,
      cloudDataList.keyData.length + (insertedBy call).length < 2 ^ 32)
    (hrepo : s1.dataRepository.length < 2 ^ 32) :
    ∃ groups : List (List CloudData),
      groups.length = queryWithAddresses.cloudQuery.keys.length ∧
        ProcessCloudQueryWithAddresses s1 queryWithAddresses =
          some (rowsOfGroups queryWithAddresses.cloudQuery.keys groups) ∧
        ∀ kg ∈ queryWithAddresses.cloudQuery.keys.zip groups,
          GroupOfKey (insertedBy call) s.dataRepository s1.dataRepository
            queryWithAddresses.specificSystems kg.1 kg.2 := by
  have hext := perform_extends env s s1 call (2 ^ 32 - 1 - (insertedBy call).length)
    (fun l hl => by have := hbound l hl; omega) (by omega) hcall
  have hdata : ∀ l ∈ s1.dataRepository, l.keyData.length < 2 ^ 32 := by
    intro l hl
    have := RepositoryExtends_length hext
      (fun l hl => (by have := hbound l hl; omega :
        l.keyData.length ≤ 2 ^ 32 - 1 - (insertedBy call).length)) l hl
    omega
  obtain ⟨groups, h1, h2, h3⟩ := ProcessCloudQueryKeys_rows (insertedBy call) s.dataRepository
    s1.dataRepository queryWithAddresses.specificSystems hrepo hdata hext
    queryWithAddresses.cloudQuery.keys ([], [])
  refine ⟨groups, h1, ?_, h3⟩
  unfold ProcessCloudQueryWithAddresses
  rw [h2]
  simp

/-- Witness of C38 as amended: the post of client 3 under key `(1,0)` on the state that
the posts of the clients 1 and 2 have produced, and the query for `(1,0)` that names no
system. -/
theorem C38_rows_follow_insertion_and_named_systems_witness :
    perform Env.acceptAll twoOwnersState (Call.onPostRequest 3 13 ⟨1, 0⟩ [9]) =
        some threeOwnersState ∧
      (insertedBy (Call.onPostRequest 3 13 ⟨1, 0⟩ [9])).length < 2 ^ 32 ∧
      (∀ cloudDataList ∈ twoOwnersState.dataRepository,
        cloudDataList.keyData.length + (insertedBy (Call.onPostRequest 3 13 ⟨1, 0⟩ [9])).length
          < 2 ^ 32) ∧
      threeOwnersState.dataRepository.length < 2 ^ 32 ∧
      ∃ groups : List (List CloudData),
        groups.length = [(⟨1, 0⟩ : CloudKey)].length ∧
          ProcessCloudQueryWithAddresses threeOwnersState ⟨plainQuery [⟨1, 0⟩], []⟩ =
            some (rowsOfGroups [⟨1, 0⟩] groups) ∧
          ∀ kg ∈ [(⟨1, 0⟩ : CloudKey)].zip groups,
            GroupOfKey [3] twoOwnersState.dataRepository threeOwnersState.dataRepository []
              kg.1 kg.2 :=
  ⟨by decide, by decide, by decide, by decide,
    C38_rows_follow_insertion_and_named_systems Env.acceptAll twoOwnersState threeOwnersState
      (Call.onPostRequest 3 13 ⟨1, 0⟩ [9]) ⟨plainQuery [⟨1, 0⟩], []⟩ (by decide) (by decide)
      (by decide) (by decide)⟩

/-! ### C40 -/

/-- C40, evaluated on the code: client 3 subscribes to owner 7 of key `(1,0)`, which
creates an entry of owner 7 with `isUploaded = false`, and client 9 posts `[5]` under
`(1,0)`.  The local query for `(1,0)` returns two rows, the first of them the entry of
owner 7, which has never been uploaded. -/
theorem C40_query_returns_placeholder_row :
    ownersAndUploadFlags placeholderAndPost ⟨1, 0⟩ =
      some [(7, false, []), (9, true, [5])] := by
  decide

end CloudServer

namespace OrderedList

/-! ### C35 -/

/-- C35, evaluated on the code: `Insert` with the keys 2 and 1 builds the list `[2, 1]`
from the empty list; `Insert` with key 2 then does not find the element 2, which is in
the list, and appends a second element 2. -/
theorem C35_Insert_accepts_duplicate :
    insertAll [2, 1] [] = some [2, 1] ∧
      GetIndexFromKey defaultOrderedListComparison 2 [2, 1] = some (2, false) ∧
      Insert defaultOrderedListComparison 2 2 [2, 1] = some ([2, 1, 2], some 2) := by
  decide

/-! ### C39 -/

/-- C39: for every list, key and comparison function, `GetIndexFromKey` returns; the
index is at most the length of the list and below it when `objectExists` is set; on the
empty list the result is index 0 with `objectExists = false`; and on a non-empty list
the search loop gives this result for every bound on its iterations above the length
of the list. -/
theorem C39_GetIndexFromKey_total_and_in_range {K D : Type} (cf : K → D → Int) (key : K)
    (orderedList : List D) :
    (∃ index objectExists,
        GetIndexFromKey cf key orderedList = some (index, objectExists) ∧
          index ≤ orderedList.length ∧ (objectExists = true → index < orderedList.length)) ∧
      GetIndexFromKey cf key ([] : List D) = some (0, false) ∧
      (orderedList ≠ [] → ∀ extra : Nat,
        GetIndexFromKeyLoop cf key orderedList (orderedList.length + 1 + extra)
            (orderedList.length - 1) 0 (orderedList.length / 2) =
          GetIndexFromKey cf key orderedList) := by
  refine ⟨GetIndexFromKey_returns cf key orderedList, rfl, fun hne extra => ?_⟩
  obtain ⟨index, objectExists, hres, _, _⟩ := GetIndexFromKey_returns cf key orderedList
  have hlen : orderedList.length ≠ 0 := fun h => hne (List.length_eq_zero.mp h)
  rw [hres]
  unfold GetIndexFromKey at hres
  rw [if_neg hlen] at hres
  exact GetIndexFromKeyLoop_fuel cf key orderedList _ extra _ _ _ _ hres

end OrderedList

end RakNet
